import Mathlib

/-!
Verification development for the refi-qda TypeScript library
(REFI-QDA QDPX import/export).

The development shallowly embeds the library's canonical object model
(src/refi-qda-interfaces.ts), the XML document converter
(src/import/xml-parser.ts and src/export/xml-builder.ts, together with a
model of the xml2js collaborator), the reference-integrity validators
(src/export/validators.ts) and the export source packaging pipeline
(src/export/source-processor.ts, src/export/options.ts).

Modelling conventions, used uniformly below:
 - a TypeScript value that may be `undefined` at runtime is an `Option`;
   `none` is `undefined`.  Interface-required string fields are still
   `Option String` because the parser can produce `undefined` for them.
 - JavaScript numbers are `JSNum`: either `NaN` or an exact rational.
   IEEE-754 rounding is not modelled; no theorem below depends on a
   non-integral numeric value.
 - asynchronous filesystem code is modelled with an explicit read-only
   filesystem map and explicit state threading; `throw` is `Except.error`.
 - the xml2js collaborator (parseStringPromise with explicitArray:false,
   mergeAttrs:true, and Builder.buildObject) is modelled at the XML tree
   level; rendering a tree to text and re-parsing that text is taken to be
   the identity on well-formed trees, so documents are `XmlElem` values.
-/

namespace RefiQda

/-- JavaScript number: NaN or an exact rational value. -/
inductive JSNum : Type where
  | nan : JSNum
  | num : ℚ → JSNum
  deriving DecidableEq, Repr

/-- Integer-valued JavaScript number. -/
def JSNum.int (n : ℤ) : JSNum := JSNum.num (n : ℚ)

/-- JavaScript truthiness of a number: NaN and 0 are falsy. -/
def JSNum.truthy : JSNum → Bool
  | JSNum.nan => false
  | JSNum.num q => q != 0

/-- Rendering of a JavaScript number as text (Number.prototype.toString).
Only integral values (and NaN) are ever rendered by the theorems below; the
non-integral branch is a placeholder for values that do not occur. -/
def JSNum.toText : JSNum → String
  | JSNum.nan => "NaN"
  | JSNum.num q => if q.den = 1 then toString q.num else toString q

/-- Untyped JavaScript value, as produced by the xml2js parser: strings,
booleans, numbers, objects (association lists in key-insertion order) and
arrays. -/
inductive JVal : Type where
  | jstr : String → JVal
  | jbool : Bool → JVal
  | jnum : JSNum → JVal
  | jobj : List (String × JVal) → JVal
  | jarr : List JVal → JVal

/-- Property access `v[k]` on a JavaScript value: only objects yield
properties; access on a primitive or an array yields `undefined` (the
arrays handled here are never accessed by a string key in the source). -/
def jsGet : JVal → String → Option JVal
  | JVal.jobj fields, k => (fields.find? (fun kv => kv.1 = k)).map (fun kv => kv.2)
  | _, _ => none

/-- JavaScript truthiness of a value. -/
def jsTruthy : JVal → Bool
  | JVal.jstr s => s != ""
  | JVal.jbool b => b
  | JVal.jnum n => n.truthy
  | JVal.jobj _ => true
  | JVal.jarr _ => true

/-- Truthiness of a possibly-undefined value (`if (x)` in the source). -/
def jsTruthyO : Option JVal → Bool
  | none => false
  | some v => jsTruthy v

/-- Property access guarded by a truthiness test, the `if (x.k) ... x.k ...`
pattern of the source. -/
def jsGetT (v : JVal) (k : String) : Option JVal :=
  match jsGet v k with
  | some w => if jsTruthy w then some w else none
  | none => none

/-- The `Array.isArray(x) ? x : [x]` normalization used by every converter
in src/import/xml-parser.ts. -/
def jsAsArray : JVal → List JVal
  | JVal.jarr l => l
  | v => [v]

mutual

/-- String coercion of a JavaScript value (String(v)), as applied by
parseInt/parseFloat to a non-string argument.  Arrays join their elements
with commas; objects print as "[object Object]". -/
def jsToStr : JVal → String
  | JVal.jstr s => s
  | JVal.jbool b => cond b "true" "false"
  | JVal.jnum n => n.toText
  | JVal.jobj _ => "[object Object]"
  | JVal.jarr l => String.intercalate "," (jsToStrList l)

/-- String coercions of a list of JavaScript values. -/
def jsToStrList : List JVal → List String
  | [] => []
  | v :: vs => jsToStr v :: jsToStrList vs

end

/-- Coercion of a value to a string field of the typed model.  The XML
layer only produces strings for attributes and text content, so a
non-string value has no typed-model representation and maps to `none`. -/
def asStr : JVal → Option String
  | JVal.jstr s => some s
  | _ => none

/-- Option-level variant of `asStr`. -/
def asStrO (v : Option JVal) : Option String := v.bind asStr

/-- Decimal digit test. -/
def isDigitCh (c : Char) : Bool := '0' ≤ c && c ≤ '9'

/-- Numeric value of a block of decimal digits. -/
def digitsVal (l : List Char) : ℤ :=
  l.foldl (fun a c => a * 10 + ((c.toNat : ℤ) - ('0'.toNat : ℤ))) 0

/-- Leading-whitespace characters skipped by JavaScript numeric parsing. -/
def isWsCh (c : Char) : Bool := c = ' ' || c = '\t' || c = '\n' || c = '\r'

/-- JavaScript parseInt(s, 10): skip leading whitespace, read an optional
sign and then the longest run of leading decimal digits; NaN when that run
is empty.  Trailing garbage is ignored. -/
def parseIntStr (s : String) : JSNum :=
  let t := s.data.dropWhile isWsCh
  let (sign, rest) :=
    match t with
    | '-' :: r => (true, r)
    | '+' :: r => (false, r)
    | r => (false, r)
  let digs := rest.takeWhile isDigitCh
  if digs.isEmpty then JSNum.nan
  else JSNum.int (if sign then -(digitsVal digs) else digitsVal digs)

/-- JavaScript parseFloat(s): skip leading whitespace, read an optional
sign, an integer part, an optional fractional part and an optional decimal
exponent; NaN when no digits are read.  The value is the exact rational
denoted by the decimal literal (the source's IEEE rounding is not
modelled). -/
def parseFloatStr (s : String) : JSNum :=
  let t := s.data.dropWhile isWsCh
  let (sign, rest) :=
    match t with
    | '-' :: r => (true, r)
    | '+' :: r => (false, r)
    | r => (false, r)
  let intDigs := rest.takeWhile isDigitCh
  let rest2 := rest.drop intDigs.length
  let fracDigs :=
    match rest2 with
    | '.' :: r => r.takeWhile isDigitCh
    | _ => []
  if intDigs.isEmpty && fracDigs.isEmpty then JSNum.nan
  else
    let rest3 :=
      match rest2 with
      | '.' :: r => r.drop fracDigs.length
      | r => r
    let expVal : ℤ :=
      match rest3 with
      | 'e' :: er | 'E' :: er =>
        let (esign, edigs0) :=
          match er with
          | '-' :: r => (true, r)
          | '+' :: r => (false, r)
          | r => (false, r)
        let edigs := edigs0.takeWhile isDigitCh
        if edigs.isEmpty then 0 else (if esign then -(digitsVal edigs) else digitsVal edigs)
      | _ => 0
    let mantissa : ℚ :=
      (digitsVal intDigs : ℚ) + (digitsVal fracDigs : ℚ) / ((10 : ℚ) ^ fracDigs.length)
    let magnitude : ℚ := mantissa * (10 : ℚ) ^ expVal
    JSNum.num (if sign then -magnitude else magnitude)

/-- parseInt applied to a possibly-undefined value (parseInt coerces
`undefined` to the string "undefined", which yields NaN). -/
def parseIntJV (v : Option JVal) : JSNum :=
  match v with
  | none => JSNum.nan
  | some w => parseIntStr (jsToStr w)

/-- parseFloat applied to a possibly-undefined value. -/
def parseFloatJV (v : Option JVal) : JSNum :=
  match v with
  | none => JSNum.nan
  | some w => parseFloatStr (jsToStr w)

/-- The JavaScript `x.startsWith(p)` test: the first p.length characters of
x are exactly p. -/
def jsStartsWith (s p : String) : Bool := s.data.take p.data.length == p.data

/-- The JavaScript `x.substring(n)` operation: drop the first n characters. -/
def jsSubstring (s : String) (n : Nat) : String := String.mk (s.data.drop n)

/-- An XML element: tag name, attributes in document order, child elements
in document order, and optional character data.  This is the document
representation shared by the builder and parser models. -/
inductive XmlElem : Type where
  | elem : String → List (String × String) → List XmlElem → Option String → XmlElem

/-- Tag name of an element. -/
def XmlElem.name : XmlElem → String
  | XmlElem.elem n _ _ _ => n

/-- Attributes of an element. -/
def XmlElem.attrs : XmlElem → List (String × String)
  | XmlElem.elem _ a _ _ => a

/-- Child elements of an element. -/
def XmlElem.children : XmlElem → List XmlElem
  | XmlElem.elem _ _ c _ => c

/-- Character data of an element. -/
def XmlElem.text : XmlElem → Option String
  | XmlElem.elem _ _ _ t => t

/-!
Canonical object model, mirroring src/refi-qda-interfaces.ts.  Field names
and order follow the interfaces; `begin`/`end` are reserved words in Lean
and are rendered as `beginVal`/`endVal`.
-/

/-- NoteRefType of refi-qda-interfaces.ts. -/
structure NoteRefType : Type where
  targetGUID : Option String
  deriving DecidableEq, Repr

/-- CodeRefType of refi-qda-interfaces.ts. -/
structure CodeRefType : Type where
  targetGUID : Option String
  deriving DecidableEq, Repr

/-- SourceRefType of refi-qda-interfaces.ts. -/
structure SourceRefType : Type where
  targetGUID : Option String
  deriving DecidableEq, Repr

/-- SelectionRefType of refi-qda-interfaces.ts. -/
structure SelectionRefType : Type where
  targetGUID : Option String
  deriving DecidableEq, Repr

/-- VariableRefType of refi-qda-interfaces.ts. -/
structure VariableRefType : Type where
  targetGUID : Option String
  deriving DecidableEq, Repr

/-- UserType of refi-qda-interfaces.ts. -/
structure UserType : Type where
  guid : Option String
  name : Option String
  id : Option String
  deriving DecidableEq, Repr

/-- CodeType of refi-qda-interfaces.ts: a code with a recursive list of
child codes.  Recursive, hence an inductive with accessor functions. -/
inductive CodeType : Type where
  | mk : Option String → Option (List NoteRefType) → Option (List CodeType) →
         Option String → Option String → Bool → Option String → CodeType

/-- Description field of a code. -/
def CodeType.Description : CodeType → Option String
  | CodeType.mk d _ _ _ _ _ _ => d

/-- NoteRef field of a code. -/
def CodeType.NoteRef : CodeType → Option (List NoteRefType)
  | CodeType.mk _ nr _ _ _ _ _ => nr

/-- Code field of a code: its nested child codes. -/
def CodeType.Code : CodeType → Option (List CodeType)
  | CodeType.mk _ _ c _ _ _ _ => c

/-- guid field of a code. -/
def CodeType.guid : CodeType → Option String
  | CodeType.mk _ _ _ g _ _ _ => g

/-- name field of a code. -/
def CodeType.name : CodeType → Option String
  | CodeType.mk _ _ _ _ n _ _ => n

/-- isCodable field of a code. -/
def CodeType.isCodable : CodeType → Bool
  | CodeType.mk _ _ _ _ _ b _ => b

/-- color field of a code. -/
def CodeType.color : CodeType → Option String
  | CodeType.mk _ _ _ _ _ _ c => c

/-- VariableType of refi-qda-interfaces.ts. -/
structure VariableType : Type where
  Description : Option String
  guid : Option String
  name : Option String
  typeOfVariable : Option String
  deriving DecidableEq, Repr

/-- VariableValueType of refi-qda-interfaces.ts: a variable reference plus
at most one typed value. -/
structure VariableValueType : Type where
  VariableRef : VariableRefType
  TextValue : Option String
  BooleanValue : Option Bool
  IntegerValue : Option JSNum
  FloatValue : Option JSNum
  DateValue : Option String
  DateTimeValue : Option String
  deriving DecidableEq, Repr

/-- CodingType of refi-qda-interfaces.ts. -/
structure CodingType : Type where
  CodeRef : CodeRefType
  NoteRef : Option (List NoteRefType)
  guid : Option String
  creatingUser : Option String
  creationDateTime : Option String
  deriving DecidableEq, Repr

/-- CaseType of refi-qda-interfaces.ts. -/
structure CaseType : Type where
  Description : Option String
  CodeRef : Option (List CodeRefType)
  VariableValue : Option (List VariableValueType)
  SourceRef : Option (List SourceRefType)
  SelectionRef : Option (List SelectionRefType)
  guid : Option String
  name : Option String
  deriving DecidableEq, Repr

/-- SetType of refi-qda-interfaces.ts. -/
structure SetType : Type where
  Description : Option String
  MemberCode : Option (List CodeRefType)
  MemberSource : Option (List SourceRefType)
  MemberNote : Option (List NoteRefType)
  guid : Option String
  name : Option String
  deriving DecidableEq, Repr

/-- PlainTextSelectionType of refi-qda-interfaces.ts. -/
structure PlainTextSelectionType : Type where
  Description : Option String
  Coding : Option (List CodingType)
  NoteRef : Option (List NoteRefType)
  guid : Option String
  name : Option String
  startPosition : JSNum
  endPosition : JSNum
  creatingUser : Option String
  creationDateTime : Option String
  modifyingUser : Option String
  modifiedDateTime : Option String
  deriving DecidableEq, Repr

/-- TextSourceType of refi-qda-interfaces.ts. -/
structure TextSourceType : Type where
  Description : Option String
  PlainTextContent : Option String
  PlainTextSelection : Option (List PlainTextSelectionType)
  Coding : Option (List CodingType)
  NoteRef : Option (List NoteRefType)
  VariableValue : Option (List VariableValueType)
  guid : Option String
  name : Option String
  richTextPath : Option String
  plainTextPath : Option String
  creatingUser : Option String
  creationDateTime : Option String
  modifyingUser : Option String
  modifiedDateTime : Option String
  deriving DecidableEq, Repr

/-- PictureSelectionType of refi-qda-interfaces.ts. -/
structure PictureSelectionType : Type where
  Description : Option String
  Coding : Option (List CodingType)
  NoteRef : Option (List NoteRefType)
  guid : Option String
  name : Option String
  firstX : JSNum
  firstY : JSNum
  secondX : JSNum
  secondY : JSNum
  creatingUser : Option String
  creationDateTime : Option String
  modifyingUser : Option String
  modifiedDateTime : Option String
  deriving DecidableEq, Repr

/-- PictureSourceType of refi-qda-interfaces.ts. -/
structure PictureSourceType : Type where
  Description : Option String
  TextDescription : Option TextSourceType
  PictureSelection : Option (List PictureSelectionType)
  Coding : Option (List CodingType)
  NoteRef : Option (List NoteRefType)
  VariableValue : Option (List VariableValueType)
  guid : Option String
  name : Option String
  path : Option String
  currentPath : Option String
  creatingUser : Option String
  creationDateTime : Option String
  modifyingUser : Option String
  modifiedDateTime : Option String
  deriving DecidableEq, Repr

/-- PDFSelectionType of refi-qda-interfaces.ts. -/
structure PDFSelectionType : Type where
  Description : Option String
  Representation : Option TextSourceType
  Coding : Option (List CodingType)
  NoteRef : Option (List NoteRefType)
  guid : Option String
  name : Option String
  page : JSNum
  firstX : JSNum
  firstY : JSNum
  secondX : JSNum
  secondY : JSNum
  creatingUser : Option String
  creationDateTime : Option String
  modifyingUser : Option String
  modifiedDateTime : Option String
  deriving DecidableEq, Repr

/-- PDFSourceType of refi-qda-interfaces.ts. -/
structure PDFSourceType : Type where
  Description : Option String
  PDFSelection : Option (List PDFSelectionType)
  Representation : Option TextSourceType
  Coding : Option (List CodingType)
  NoteRef : Option (List NoteRefType)
  VariableValue : Option (List VariableValueType)
  guid : Option String
  name : Option String
  path : Option String
  currentPath : Option String
  creatingUser : Option String
  creationDateTime : Option String
  modifyingUser : Option String
  modifiedDateTime : Option String
  deriving DecidableEq, Repr

/-- AudioSelectionType of refi-qda-interfaces.ts (`begin`/`end` fields are
`beginVal`/`endVal`). -/
structure AudioSelectionType : Type where
  Description : Option String
  Coding : Option (List CodingType)
  NoteRef : Option (List NoteRefType)
  guid : Option String
  name : Option String
  beginVal : JSNum
  endVal : JSNum
  creatingUser : Option String
  creationDateTime : Option String
  modifyingUser : Option String
  modifiedDateTime : Option String
  deriving DecidableEq, Repr

/-- VideoSelectionType of refi-qda-interfaces.ts (`begin`/`end` fields are
`beginVal`/`endVal`). -/
structure VideoSelectionType : Type where
  Description : Option String
  Coding : Option (List CodingType)
  NoteRef : Option (List NoteRefType)
  guid : Option String
  name : Option String
  beginVal : JSNum
  endVal : JSNum
  creatingUser : Option String
  creationDateTime : Option String
  modifyingUser : Option String
  modifiedDateTime : Option String
  deriving DecidableEq, Repr

/-- SyncPointType of refi-qda-interfaces.ts. -/
structure SyncPointType : Type where
  guid : Option String
  timeStamp : Option JSNum
  position : Option JSNum
  deriving DecidableEq, Repr

/-- TranscriptSelectionType of refi-qda-interfaces.ts. -/
structure TranscriptSelectionType : Type where
  Description : Option String
  Coding : Option (List CodingType)
  NoteRef : Option (List NoteRefType)
  guid : Option String
  name : Option String
  fromSyncPoint : Option String
  toSyncPoint : Option String
  creatingUser : Option String
  creationDateTime : Option String
  modifyingUser : Option String
  modifiedDateTime : Option String
  deriving DecidableEq, Repr

/-- TranscriptType of refi-qda-interfaces.ts. -/
structure TranscriptType : Type where
  Description : Option String
  PlainTextContent : Option String
  SyncPoint : Option (List SyncPointType)
  TranscriptSelection : Option (List TranscriptSelectionType)
  NoteRef : Option (List NoteRefType)
  guid : Option String
  name : Option String
  richTextPath : Option String
  plainTextPath : Option String
  creatingUser : Option String
  creationDateTime : Option String
  modifyingUser : Option String
  modifiedDateTime : Option String
  deriving DecidableEq, Repr

/-- AudioSourceType of refi-qda-interfaces.ts. -/
structure AudioSourceType : Type where
  Description : Option String
  Transcript : Option (List TranscriptType)
  AudioSelection : Option (List AudioSelectionType)
  Coding : Option (List CodingType)
  NoteRef : Option (List NoteRefType)
  VariableValue : Option (List VariableValueType)
  guid : Option String
  name : Option String
  path : Option String
  currentPath : Option String
  creatingUser : Option String
  creationDateTime : Option String
  modifyingUser : Option String
  modifiedDateTime : Option String
  deriving DecidableEq, Repr

/-- VideoSourceType of refi-qda-interfaces.ts. -/
structure VideoSourceType : Type where
  Description : Option String
  Transcript : Option (List TranscriptType)
  VideoSelection : Option (List VideoSelectionType)
  Coding : Option (List CodingType)
  NoteRef : Option (List NoteRefType)
  VariableValue : Option (List VariableValueType)
  guid : Option String
  name : Option String
  path : Option String
  currentPath : Option String
  creatingUser : Option String
  creationDateTime : Option String
  modifyingUser : Option String
  modifiedDateTime : Option String
  deriving DecidableEq, Repr

/-- SourcesType of refi-qda-interfaces.ts. -/
structure SourcesType : Type where
  TextSource : Option (List TextSourceType)
  PictureSource : Option (List PictureSourceType)
  PDFSource : Option (List PDFSourceType)
  AudioSource : Option (List AudioSourceType)
  VideoSource : Option (List VideoSourceType)
  deriving DecidableEq, Repr

/-- VertexType of refi-qda-interfaces.ts. -/
structure VertexType : Type where
  guid : Option String
  representedGUID : Option String
  name : Option String
  firstX : JSNum
  firstY : JSNum
  secondX : Option JSNum
  secondY : Option JSNum
  shape : Option String
  color : Option String
  deriving DecidableEq, Repr

/-- EdgeType of refi-qda-interfaces.ts. -/
structure EdgeType : Type where
  guid : Option String
  representedGUID : Option String
  name : Option String
  sourceVertex : Option String
  targetVertex : Option String
  color : Option String
  direction : Option String
  lineStyle : Option String
  deriving DecidableEq, Repr

/-- GraphType of refi-qda-interfaces.ts. -/
structure GraphType : Type where
  Vertex : Option (List VertexType)
  Edge : Option (List EdgeType)
  guid : Option String
  name : Option String
  deriving DecidableEq, Repr

/-- LinkType of refi-qda-interfaces.ts. -/
structure LinkType : Type where
  NoteRef : Option (List NoteRefType)
  guid : Option String
  name : Option String
  direction : Option String
  color : Option String
  originGUID : Option String
  targetGUID : Option String
  deriving DecidableEq, Repr

/-- UsersType of refi-qda-interfaces.ts. -/
structure UsersType : Type where
  User : List UserType
  deriving DecidableEq, Repr

/-- CodesType of refi-qda-interfaces.ts. -/
structure CodesType : Type where
  Code : List CodeType

/-- CodeBookType of refi-qda-interfaces.ts. -/
structure CodeBookType : Type where
  Codes : CodesType

/-- VariablesType of refi-qda-interfaces.ts. -/
structure VariablesType : Type where
  Variable : List VariableType
  deriving DecidableEq, Repr

/-- CasesType of refi-qda-interfaces.ts. -/
structure CasesType : Type where
  Case : List CaseType
  deriving DecidableEq, Repr

/-- NotesType of refi-qda-interfaces.ts: notes are text sources. -/
structure NotesType : Type where
  Note : List TextSourceType
  deriving DecidableEq, Repr

/-- LinksType of refi-qda-interfaces.ts. -/
structure LinksType : Type where
  Link : List LinkType
  deriving DecidableEq, Repr

/-- SetsType of refi-qda-interfaces.ts. -/
structure SetsType : Type where
  Set : List SetType
  deriving DecidableEq, Repr

/-- GraphsType of refi-qda-interfaces.ts. -/
structure GraphsType : Type where
  Graph : List GraphType
  deriving DecidableEq, Repr

/-- Project of refi-qda-interfaces.ts: the root entity. -/
structure Project : Type where
  Users : Option UsersType
  CodeBook : Option CodeBookType
  Variables : Option VariablesType
  Cases : Option CasesType
  Sources : Option SourcesType
  Notes : Option NotesType
  Links : Option LinksType
  Sets : Option SetsType
  Graphs : Option GraphsType
  Description : Option String
  NoteRef : Option (List NoteRefType)
  name : Option String
  origin : Option String
  creatingUserGUID : Option String
  creationDateTime : Option String
  modifyingUserGUID : Option String
  modifiedDateTime : Option String
  basePath : Option String

/-!
Model of the xml2js collaborator.

Rendering (Builder with the options used in src/export/xml-builder.ts) maps
an untyped JavaScript object to an XML tree: the "$" key holds attributes,
the "_" key holds character data, an array-valued key yields repeated child
elements, and any other value yields a single child element.

Parsing (parseStringPromise with explicitArray:false, mergeAttrs:true as in
src/import/xml-parser.ts) maps an XML tree back to a JavaScript value: an
element with no attributes and no children is its character data as a bare
string; otherwise it is an object with the attributes merged in, each child
name bound to the child's value when it occurs once and to an array of
values when it occurs several times, and non-empty character data under
"_".  Attribute names are assumed disjoint from child element names, as is
the case for every document of this schema.
-/

/-- Attribute list of a rendered object: the entries of its "$" key. -/
def objAttrs (kvs : List (String × JVal)) : List (String × String) :=
  match (kvs.find? (fun kv => kv.1 = "$")).map (fun kv => kv.2) with
  | some (JVal.jobj avs) => avs.map (fun kv => (kv.1, jsToStr kv.2))
  | _ => []

/-- Character data of a rendered object: its "_" key, stringified. -/
def objText (kvs : List (String × JVal)) : Option String :=
  match (kvs.find? (fun kv => kv.1 = "_")).map (fun kv => kv.2) with
  | some v => some (jsToStr v)
  | none => none

mutual

/-- xml2js Builder rendering of a value as an element with the given tag
name.  A bare array value at this position does not occur in the builder's
input (arrays are expanded by `renderEntries`); it is rendered as repeated
children for totality. -/
def renderElem : String → JVal → XmlElem
  | name, JVal.jobj kvs => XmlElem.elem name (objAttrs kvs) (renderEntries kvs) (objText kvs)
  | name, JVal.jstr s => XmlElem.elem name [] [] (some s)
  | name, JVal.jbool b => XmlElem.elem name [] [] (some (cond b "true" "false"))
  | name, JVal.jnum n => XmlElem.elem name [] [] (some n.toText)
  | name, JVal.jarr l => XmlElem.elem name [] (renderArr name l) none

/-- Child elements of a rendered object, in key order; the attribute key
"$" and the character-data key "_" contribute no children. -/
def renderEntries : List (String × JVal) → List XmlElem
  | [] => []
  | (k, v) :: rest =>
    (if k = "$" || k = "_" then []
     else
       match v with
       | JVal.jarr l => renderArr k l
       | w => [renderElem k w]) ++ renderEntries rest

/-- Repeated child elements rendered from an array-valued key. -/
def renderArr : String → List JVal → List XmlElem
  | _, [] => []
  | k, v :: vs => renderElem k v :: renderArr k vs

end

/-- Key list with later duplicates removed, preserving first occurrences;
`seen` accumulates the keys already emitted. -/
def dedupKeysGo : List String → List String → List String
  | [], _ => []
  | k :: ks, seen =>
    if seen.contains k then dedupKeysGo ks seen else k :: dedupKeysGo ks (k :: seen)

/-- xml2js child grouping under explicitArray:false: each child name is
bound to its single value, or to the array of values when the name repeats. -/
def groupPairs (ps : List (String × JVal)) : List (String × JVal) :=
  (dedupKeysGo (ps.map (fun kv => kv.1)) []).map (fun k =>
    (k,
      match (ps.filter (fun kv => kv.1 = k)).map (fun kv => kv.2) with
      | [v] => v
      | vs => JVal.jarr vs))

mutual

/-- xml2js parse of an element under explicitArray:false, mergeAttrs:true. -/
def parseElem : XmlElem → JVal
  | XmlElem.elem _ attrs children text =>
    match attrs, children with
    | [], [] => JVal.jstr (text.getD "")
    | _, _ =>
      JVal.jobj
        (attrs.map (fun kv => (kv.1, JVal.jstr kv.2)) ++
         groupPairs (parseChildrenPairs children) ++
         (match text with
          | some s => if s = "" then [] else [("_", JVal.jstr s)]
          | none => []))

/-- Parsed (name, value) pairs of a child list, in document order. -/
def parseChildrenPairs : List XmlElem → List (String × JVal)
  | [] => []
  | c :: cs => (c.name, parseElem c) :: parseChildrenPairs cs

end

/-- xml2js Builder.buildObject: when the root object has exactly one key
and the configured root name was left at its default "root", that key
becomes the root element; otherwise the configured root name is used and
the whole object is rendered under it.  src/export/xml-builder.ts
configures rootName "Project", so the second branch applies there. -/
def xml2jsBuildObject (rootName : String) (rootObj : JVal) : XmlElem :=
  match rootObj with
  | JVal.jobj kvs =>
    match kvs, decide (rootName = "root") with
    | [(k, v)], true => renderElem k v
    | _, _ => renderElem rootName rootObj
  | v => renderElem rootName v

/-- xml2js parseStringPromise of a document: an object binding the root
element's name to its parsed value. -/
def parseStringModel (doc : XmlElem) : JVal :=
  JVal.jobj [(doc.name, parseElem doc)]

/-!
Document converter, import direction: src/import/xml-parser.ts.

Each convert* function mirrors its namesake.  Functions that read a
property of a possibly-undefined value (`value.VariableRef.targetGUID`,
`coding.CodeRef.targetGUID`, `xmlProject.CodeBook.Codes.Code`) run in
`Except String`, because that access throws a TypeError in the source; all
other converters are total.  A thrown error propagates to `parseQDEFile`,
which wraps it.
-/

/-- Direct assignment of a string-valued property (`obj.f = x.k`): `none`
when the property is absent or not a string. -/
def jsStrProp (v : JVal) (k : String) : Option String := asStrO (jsGet v k)

/-- Truthiness-guarded assignment of a string-valued property
(`if (x.k) obj.f = x.k`). -/
def jsStrPropIf (v : JVal) (k : String) : Option String := asStrO (jsGetT v k)

/-- Property access on a possibly-undefined value: reading a property of
`undefined` throws a TypeError; reading a missing property of a defined
value yields `undefined`. -/
def jsMember (v : Option JVal) (k : String) : Except String (Option JVal) :=
  match v with
  | none => Except.error "TypeError: cannot read properties of undefined"
  | some w => Except.ok (jsGet w k)

/-- The `x === "true" || x === true` boolean coercion used for isCodable
and BooleanValue. -/
def jsIsTrueLit (v : Option JVal) : Bool :=
  match v with
  | some (JVal.jstr s) => s = "true"
  | some (JVal.jbool b) => b
  | _ => false

/-- The `Array.isArray(x) ? x : [x]` normalization applied to a value that
may itself be `undefined` (`[undefined]` is a one-element list holding
`undefined`). -/
def jsAsArrayU (x : Option JVal) : List (Option JVal) :=
  match x with
  | some (JVal.jarr l) => l.map some
  | some v => [some v]
  | none => [none]

/-- convertNoteRefs of xml-parser.ts. -/
def convertNoteRefs (x : Option JVal) : List NoteRefType :=
  match x with
  | none => []
  | some v =>
    if jsTruthy v then
      (jsAsArray v).map (fun noteRef => { targetGUID := asStrO (jsGet noteRef "targetGUID") })
    else []

/-- convertCodeRefs of xml-parser.ts. -/
def convertCodeRefs (x : Option JVal) : List CodeRefType :=
  match x with
  | none => []
  | some v =>
    if jsTruthy v then
      (jsAsArray v).map (fun codeRef => { targetGUID := asStrO (jsGet codeRef "targetGUID") })
    else []

/-- convertSourceRefs of xml-parser.ts. -/
def convertSourceRefs (x : Option JVal) : List SourceRefType :=
  match x with
  | none => []
  | some v =>
    if jsTruthy v then
      (jsAsArray v).map (fun sourceRef => { targetGUID := asStrO (jsGet sourceRef "targetGUID") })
    else []

/-- convertSelectionRefs of xml-parser.ts. -/
def convertSelectionRefs (x : Option JVal) : List SelectionRefType :=
  match x with
  | none => []
  | some v =>
    if jsTruthy v then
      (jsAsArray v).map (fun selectionRef => { targetGUID := asStrO (jsGet selectionRef "targetGUID") })
    else []

/-- Bound used for the termination of `convertCodes`: a property value sits
strictly inside its object. -/
theorem jsGet_sizeOf {v : JVal} {k : String} {w : JVal} (h : jsGet v k = some w) :
    1 + sizeOf w < sizeOf v := by
  cases v with
  | jobj kvs =>
    simp only [jsGet] at h
    cases hf : kvs.find? (fun kv => kv.1 = k) with
    | none => rw [hf] at h; simp at h
    | some kv =>
      rw [hf] at h
      have hmem := List.mem_of_find?_eq_some hf
      have hlt := List.sizeOf_lt_of_mem hmem
      cases kv with
      | mk k1 v1 =>
        simp at h
        subst w
        have hp : sizeOf (k1, v1) = 1 + sizeOf k1 + sizeOf v1 := by simp
        simp only [JVal.jobj.sizeOf_spec]
        omega
  | jstr s => simp [jsGet] at h
  | jbool b => simp [jsGet] at h
  | jnum n => simp [jsGet] at h
  | jarr l => simp [jsGet] at h

/-- Variant of `jsGet_sizeOf` for the truthiness-guarded access. -/
theorem jsGetT_sizeOf {v : JVal} {k : String} {w : JVal} (h : jsGetT v k = some w) :
    1 + sizeOf w < sizeOf v := by
  unfold jsGetT at h
  cases hv : jsGet v k with
  | none => rw [hv] at h; exact absurd h (by simp)
  | some u =>
    rw [hv] at h
    by_cases ht : jsTruthy u = true
    · simp [ht] at h; subst h; exact jsGet_sizeOf hv
    · simp [ht] at h

mutual

/-- convertCodes of xml-parser.ts: recursive through the nested Code list. -/
def convertCodes (x : Option JVal) : List CodeType :=
  match x with
  | none => []
  | some v =>
    if jsTruthy v then
      match v with
      | JVal.jarr l => convertCodesList l
      | w => [convertCodeOne w]
    else []
termination_by sizeOf x
decreasing_by
  · simp only [Option.some.sizeOf_spec, JVal.jarr.sizeOf_spec]; omega
  · simp only [Option.some.sizeOf_spec]; omega

/-- Element-wise mapping for `convertCodes`. -/
def convertCodesList (l : List JVal) : List CodeType :=
  match l with
  | [] => []
  | code :: rest => convertCodeOne code :: convertCodesList rest
termination_by sizeOf l

/-- Conversion of one Code element. -/
def convertCodeOne (code : JVal) : CodeType :=
  CodeType.mk
    (jsStrPropIf code "Description")
    (match jsGetT code "NoteRef" with
     | some nr => some (convertNoteRefs (some nr))
     | none => none)
    (match h : jsGetT code "Code" with
     | some w => some (convertCodes (some w))
     | none => none)
    (jsStrProp code "guid")
    (jsStrProp code "name")
    (jsIsTrueLit (jsGet code "isCodable"))
    (jsStrProp code "color")
termination_by sizeOf code
decreasing_by
  · have := jsGetT_sizeOf h
    simp only [Option.some.sizeOf_spec]
    omega

end

/-- convertVariables of xml-parser.ts. -/
def convertVariables (x : Option JVal) : List VariableType :=
  match x with
  | none => []
  | some v =>
    if jsTruthy v then
      (jsAsArray v).map (fun variable0 =>
        { Description := jsStrPropIf variable0 "Description"
          guid := jsStrProp variable0 "guid"
          name := jsStrProp variable0 "name"
          typeOfVariable := jsStrProp variable0 "typeOfVariable" })
    else []

/-- convertVariableValues of xml-parser.ts: throws when VariableRef is
absent (the unguarded `value.VariableRef.targetGUID` access). -/
def convertVariableValues (x : Option JVal) : Except String (List VariableValueType) :=
  match x with
  | none => Except.ok []
  | some v =>
    if jsTruthy v then
      (jsAsArray v).mapM (fun value => do
        let tg ← jsMember (jsGet value "VariableRef") "targetGUID"
        let base : VariableValueType :=
          { VariableRef := { targetGUID := tg.bind asStr }
            TextValue := none, BooleanValue := none, IntegerValue := none
            FloatValue := none, DateValue := none, DateTimeValue := none }
        if (jsGet value "TextValue").isSome then
          pure { base with TextValue := asStrO (jsGet value "TextValue") }
        else if (jsGet value "BooleanValue").isSome then
          pure { base with BooleanValue := some (jsIsTrueLit (jsGet value "BooleanValue")) }
        else if (jsGet value "IntegerValue").isSome then
          pure { base with IntegerValue := some (parseIntJV (jsGet value "IntegerValue")) }
        else if (jsGet value "FloatValue").isSome then
          pure { base with FloatValue := some (parseFloatJV (jsGet value "FloatValue")) }
        else if (jsGet value "DateValue").isSome then
          pure { base with DateValue := asStrO (jsGet value "DateValue") }
        else if (jsGet value "DateTimeValue").isSome then
          pure { base with DateTimeValue := asStrO (jsGet value "DateTimeValue") }
        else
          pure base)
    else Except.ok []

/-- convertCodings of xml-parser.ts: throws when CodeRef is absent (the
unguarded `coding.CodeRef.targetGUID` access). -/
def convertCodings (x : Option JVal) : Except String (List CodingType) :=
  match x with
  | none => Except.ok []
  | some v =>
    if jsTruthy v then
      (jsAsArray v).mapM (fun coding => do
        let tg ← jsMember (jsGet coding "CodeRef") "targetGUID"
        pure
          { CodeRef := { targetGUID := tg.bind asStr }
            NoteRef :=
              match jsGetT coding "NoteRef" with
              | some nr => some (convertNoteRefs (some nr))
              | none => none
            guid := jsStrProp coding "guid"
            creatingUser := jsStrProp coding "creatingUser"
            creationDateTime := jsStrProp coding "creationDateTime" })
    else Except.ok []

/-- convertCases of xml-parser.ts. -/
def convertCases (x : Option JVal) : Except String (List CaseType) :=
  match x with
  | none => Except.ok []
  | some v =>
    if jsTruthy v then
      (jsAsArray v).mapM (fun caseItem => do
        let vv ←
          match jsGetT caseItem "VariableValue" with
          | some w => Except.map some (convertVariableValues (some w))
          | none => Except.ok none
        pure
          { Description := jsStrPropIf caseItem "Description"
            CodeRef :=
              match jsGetT caseItem "CodeRef" with
              | some w => some (convertCodeRefs (some w))
              | none => none
            VariableValue := vv
            SourceRef :=
              match jsGetT caseItem "SourceRef" with
              | some w => some (convertSourceRefs (some w))
              | none => none
            SelectionRef :=
              match jsGetT caseItem "SelectionRef" with
              | some w => some (convertSelectionRefs (some w))
              | none => none
            guid := jsStrProp caseItem "guid"
            name := jsStrProp caseItem "name" })
    else Except.ok []

/-- convertPlainTextSelections of xml-parser.ts: startPosition/endPosition
go through parseInt. -/
def convertPlainTextSelections (x : Option JVal) : Except String (List PlainTextSelectionType) :=
  match x with
  | none => Except.ok []
  | some v =>
    if jsTruthy v then
      (jsAsArray v).mapM (fun selection => do
        let cod ←
          match jsGetT selection "Coding" with
          | some w => Except.map some (convertCodings (some w))
          | none => Except.ok none
        pure
          { Description := jsStrPropIf selection "Description"
            Coding := cod
            NoteRef :=
              match jsGetT selection "NoteRef" with
              | some nr => some (convertNoteRefs (some nr))
              | none => none
            guid := jsStrProp selection "guid"
            name := jsStrProp selection "name"
            startPosition := parseIntJV (jsGet selection "startPosition")
            endPosition := parseIntJV (jsGet selection "endPosition")
            creatingUser := jsStrProp selection "creatingUser"
            creationDateTime := jsStrProp selection "creationDateTime"
            modifyingUser := jsStrProp selection "modifyingUser"
            modifiedDateTime := jsStrProp selection "modifiedDateTime" })
    else Except.ok []

/-- convertTextSources of xml-parser.ts. -/
def convertTextSources (x : Option JVal) : Except String (List TextSourceType) :=
  match x with
  | none => Except.ok []
  | some v =>
    if jsTruthy v then
      (jsAsArray v).mapM (fun source => do
        let sel ←
          match jsGetT source "PlainTextSelection" with
          | some w => Except.map some (convertPlainTextSelections (some w))
          | none => Except.ok none
        let cod ←
          match jsGetT source "Coding" with
          | some w => Except.map some (convertCodings (some w))
          | none => Except.ok none
        let vv ←
          match jsGetT source "VariableValue" with
          | some w => Except.map some (convertVariableValues (some w))
          | none => Except.ok none
        pure
          { Description := jsStrPropIf source "Description"
            PlainTextContent := jsStrPropIf source "PlainTextContent"
            PlainTextSelection := sel
            Coding := cod
            NoteRef :=
              match jsGetT source "NoteRef" with
              | some nr => some (convertNoteRefs (some nr))
              | none => none
            VariableValue := vv
            guid := jsStrProp source "guid"
            name := jsStrProp source "name"
            richTextPath := jsStrProp source "richTextPath"
            plainTextPath := jsStrProp source "plainTextPath"
            creatingUser := jsStrProp source "creatingUser"
            creationDateTime := jsStrProp source "creationDateTime"
            modifyingUser := jsStrProp source "modifyingUser"
            modifiedDateTime := jsStrProp source "modifiedDateTime" })
    else Except.ok []

/-- convertPictureSelections of xml-parser.ts. -/
def convertPictureSelections (x : Option JVal) : Except String (List PictureSelectionType) :=
  match x with
  | none => Except.ok []
  | some v =>
    if jsTruthy v then
      (jsAsArray v).mapM (fun selection => do
        let cod ←
          match jsGetT selection "Coding" with
          | some w => Except.map some (convertCodings (some w))
          | none => Except.ok none
        pure
          { Description := jsStrPropIf selection "Description"
            Coding := cod
            NoteRef :=
              match jsGetT selection "NoteRef" with
              | some nr => some (convertNoteRefs (some nr))
              | none => none
            guid := jsStrProp selection "guid"
            name := jsStrProp selection "name"
            firstX := parseIntJV (jsGet selection "firstX")
            firstY := parseIntJV (jsGet selection "firstY")
            secondX := parseIntJV (jsGet selection "secondX")
            secondY := parseIntJV (jsGet selection "secondY")
            creatingUser := jsStrProp selection "creatingUser"
            creationDateTime := jsStrProp selection "creationDateTime"
            modifyingUser := jsStrProp selection "modifyingUser"
            modifiedDateTime := jsStrProp selection "modifiedDateTime" })
    else Except.ok []

/-- convertPDFSelections of xml-parser.ts: a guarded Representation is
converted through convertTextSources and its first element is taken. -/
def convertPDFSelections (x : Option JVal) : Except String (List PDFSelectionType) :=
  match x with
  | none => Except.ok []
  | some v =>
    if jsTruthy v then
      (jsAsArray v).mapM (fun selection => do
        let rep ←
          match jsGetT selection "Representation" with
          | some w => Except.map List.head? (convertTextSources (some w))
          | none => Except.ok none
        let cod ←
          match jsGetT selection "Coding" with
          | some w => Except.map some (convertCodings (some w))
          | none => Except.ok none
        pure
          { Description := jsStrPropIf selection "Description"
            Representation := rep
            Coding := cod
            NoteRef :=
              match jsGetT selection "NoteRef" with
              | some nr => some (convertNoteRefs (some nr))
              | none => none
            guid := jsStrProp selection "guid"
            name := jsStrProp selection "name"
            page := parseIntJV (jsGet selection "page")
            firstX := parseIntJV (jsGet selection "firstX")
            firstY := parseIntJV (jsGet selection "firstY")
            secondX := parseIntJV (jsGet selection "secondX")
            secondY := parseIntJV (jsGet selection "secondY")
            creatingUser := jsStrProp selection "creatingUser"
            creationDateTime := jsStrProp selection "creationDateTime"
            modifyingUser := jsStrProp selection "modifyingUser"
            modifiedDateTime := jsStrProp selection "modifiedDateTime" })
    else Except.ok []

/-- convertAudioSelections of xml-parser.ts (`begin`/`end` are
`beginVal`/`endVal`). -/
def convertAudioSelections (x : Option JVal) : Except String (List AudioSelectionType) :=
  match x with
  | none => Except.ok []
  | some v =>
    if jsTruthy v then
      (jsAsArray v).mapM (fun selection => do
        let cod ←
          match jsGetT selection "Coding" with
          | some w => Except.map some (convertCodings (some w))
          | none => Except.ok none
        pure
          { Description := jsStrPropIf selection "Description"
            Coding := cod
            NoteRef :=
              match jsGetT selection "NoteRef" with
              | some nr => some (convertNoteRefs (some nr))
              | none => none
            guid := jsStrProp selection "guid"
            name := jsStrProp selection "name"
            beginVal := parseIntJV (jsGet selection "begin")
            endVal := parseIntJV (jsGet selection "end")
            creatingUser := jsStrProp selection "creatingUser"
            creationDateTime := jsStrProp selection "creationDateTime"
            modifyingUser := jsStrProp selection "modifyingUser"
            modifiedDateTime := jsStrProp selection "modifiedDateTime" })
    else Except.ok []

/-- convertVideoSelections of xml-parser.ts. -/
def convertVideoSelections (x : Option JVal) : Except String (List VideoSelectionType) :=
  match x with
  | none => Except.ok []
  | some v =>
    if jsTruthy v then
      (jsAsArray v).mapM (fun selection => do
        let cod ←
          match jsGetT selection "Coding" with
          | some w => Except.map some (convertCodings (some w))
          | none => Except.ok none
        pure
          { Description := jsStrPropIf selection "Description"
            Coding := cod
            NoteRef :=
              match jsGetT selection "NoteRef" with
              | some nr => some (convertNoteRefs (some nr))
              | none => none
            guid := jsStrProp selection "guid"
            name := jsStrProp selection "name"
            beginVal := parseIntJV (jsGet selection "begin")
            endVal := parseIntJV (jsGet selection "end")
            creatingUser := jsStrProp selection "creatingUser"
            creationDateTime := jsStrProp selection "creationDateTime"
            modifyingUser := jsStrProp selection "modifyingUser"
            modifiedDateTime := jsStrProp selection "modifiedDateTime" })
    else Except.ok []

/-- convertSyncPoints of xml-parser.ts: timeStamp/position parse only when
present. -/
def convertSyncPoints (x : Option JVal) : List SyncPointType :=
  match x with
  | none => []
  | some v =>
    if jsTruthy v then
      (jsAsArray v).map (fun syncPoint =>
        { guid := jsStrProp syncPoint "guid"
          timeStamp :=
            if (jsGet syncPoint "timeStamp").isSome then
              some (parseIntJV (jsGet syncPoint "timeStamp"))
            else none
          position :=
            if (jsGet syncPoint "position").isSome then
              some (parseIntJV (jsGet syncPoint "position"))
            else none })
    else []

/-- convertTranscriptSelections of xml-parser.ts. -/
def convertTranscriptSelections (x : Option JVal) : Except String (List TranscriptSelectionType) :=
  match x with
  | none => Except.ok []
  | some v =>
    if jsTruthy v then
      (jsAsArray v).mapM (fun selection => do
        let cod ←
          match jsGetT selection "Coding" with
          | some w => Except.map some (convertCodings (some w))
          | none => Except.ok none
        pure
          { Description := jsStrPropIf selection "Description"
            Coding := cod
            NoteRef :=
              match jsGetT selection "NoteRef" with
              | some nr => some (convertNoteRefs (some nr))
              | none => none
            guid := jsStrProp selection "guid"
            name := jsStrProp selection "name"
            fromSyncPoint := jsStrProp selection "fromSyncPoint"
            toSyncPoint := jsStrProp selection "toSyncPoint"
            creatingUser := jsStrProp selection "creatingUser"
            creationDateTime := jsStrProp selection "creationDateTime"
            modifyingUser := jsStrProp selection "modifyingUser"
            modifiedDateTime := jsStrProp selection "modifiedDateTime" })
    else Except.ok []

/-- convertTranscripts of xml-parser.ts. -/
def convertTranscripts (x : Option JVal) : Except String (List TranscriptType) :=
  match x with
  | none => Except.ok []
  | some v =>
    if jsTruthy v then
      (jsAsArray v).mapM (fun transcript => do
        let ts ←
          match jsGetT transcript "TranscriptSelection" with
          | some w => Except.map some (convertTranscriptSelections (some w))
          | none => Except.ok none
        pure
          { Description := jsStrPropIf transcript "Description"
            PlainTextContent := jsStrPropIf transcript "PlainTextContent"
            SyncPoint :=
              match jsGetT transcript "SyncPoint" with
              | some w => some (convertSyncPoints (some w))
              | none => none
            TranscriptSelection := ts
            NoteRef :=
              match jsGetT transcript "NoteRef" with
              | some nr => some (convertNoteRefs (some nr))
              | none => none
            guid := jsStrProp transcript "guid"
            name := jsStrProp transcript "name"
            richTextPath := jsStrProp transcript "richTextPath"
            plainTextPath := jsStrProp transcript "plainTextPath"
            creatingUser := jsStrProp transcript "creatingUser"
            creationDateTime := jsStrProp transcript "creationDateTime"
            modifyingUser := jsStrProp transcript "modifyingUser"
            modifiedDateTime := jsStrProp transcript "modifiedDateTime" })
    else Except.ok []

/-- convertPictureSources of xml-parser.ts: a guarded TextDescription is
converted through convertTextSources and its first element is taken. -/
def convertPictureSources (x : Option JVal) : Except String (List PictureSourceType) :=
  match x with
  | none => Except.ok []
  | some v =>
    if jsTruthy v then
      (jsAsArray v).mapM (fun source => do
        let td ←
          match jsGetT source "TextDescription" with
          | some w => Except.map List.head? (convertTextSources (some w))
          | none => Except.ok none
        let sel ←
          match jsGetT source "PictureSelection" with
          | some w => Except.map some (convertPictureSelections (some w))
          | none => Except.ok none
        let cod ←
          match jsGetT source "Coding" with
          | some w => Except.map some (convertCodings (some w))
          | none => Except.ok none
        let vv ←
          match jsGetT source "VariableValue" with
          | some w => Except.map some (convertVariableValues (some w))
          | none => Except.ok none
        pure
          { Description := jsStrPropIf source "Description"
            TextDescription := td
            PictureSelection := sel
            Coding := cod
            NoteRef :=
              match jsGetT source "NoteRef" with
              | some nr => some (convertNoteRefs (some nr))
              | none => none
            VariableValue := vv
            guid := jsStrProp source "guid"
            name := jsStrProp source "name"
            path := jsStrProp source "path"
            currentPath := jsStrProp source "currentPath"
            creatingUser := jsStrProp source "creatingUser"
            creationDateTime := jsStrProp source "creationDateTime"
            modifyingUser := jsStrProp source "modifyingUser"
            modifiedDateTime := jsStrProp source "modifiedDateTime" })
    else Except.ok []

/-- convertPDFSources of xml-parser.ts. -/
def convertPDFSources (x : Option JVal) : Except String (List PDFSourceType) :=
  match x with
  | none => Except.ok []
  | some v =>
    if jsTruthy v then
      (jsAsArray v).mapM (fun source => do
        let sel ←
          match jsGetT source "PDFSelection" with
          | some w => Except.map some (convertPDFSelections (some w))
          | none => Except.ok none
        let rep ←
          match jsGetT source "Representation" with
          | some w => Except.map List.head? (convertTextSources (some w))
          | none => Except.ok none
        let cod ←
          match jsGetT source "Coding" with
          | some w => Except.map some (convertCodings (some w))
          | none => Except.ok none
        let vv ←
          match jsGetT source "VariableValue" with
          | some w => Except.map some (convertVariableValues (some w))
          | none => Except.ok none
        pure
          { Description := jsStrPropIf source "Description"
            PDFSelection := sel
            Representation := rep
            Coding := cod
            NoteRef :=
              match jsGetT source "NoteRef" with
              | some nr => some (convertNoteRefs (some nr))
              | none => none
            VariableValue := vv
            guid := jsStrProp source "guid"
            name := jsStrProp source "name"
            path := jsStrProp source "path"
            currentPath := jsStrProp source "currentPath"
            creatingUser := jsStrProp source "creatingUser"
            creationDateTime := jsStrProp source "creationDateTime"
            modifyingUser := jsStrProp source "modifyingUser"
            modifiedDateTime := jsStrProp source "modifiedDateTime" })
    else Except.ok []

/-- convertAudioSources of xml-parser.ts. -/
def convertAudioSources (x : Option JVal) : Except String (List AudioSourceType) :=
  match x with
  | none => Except.ok []
  | some v =>
    if jsTruthy v then
      (jsAsArray v).mapM (fun source => do
        let tr ←
          match jsGetT source "Transcript" with
          | some w => Except.map some (convertTranscripts (some w))
          | none => Except.ok none
        let sel ←
          match jsGetT source "AudioSelection" with
          | some w => Except.map some (convertAudioSelections (some w))
          | none => Except.ok none
        let cod ←
          match jsGetT source "Coding" with
          | some w => Except.map some (convertCodings (some w))
          | none => Except.ok none
        let vv ←
          match jsGetT source "VariableValue" with
          | some w => Except.map some (convertVariableValues (some w))
          | none => Except.ok none
        pure
          { Description := jsStrPropIf source "Description"
            Transcript := tr
            AudioSelection := sel
            Coding := cod
            NoteRef :=
              match jsGetT source "NoteRef" with
              | some nr => some (convertNoteRefs (some nr))
              | none => none
            VariableValue := vv
            guid := jsStrProp source "guid"
            name := jsStrProp source "name"
            path := jsStrProp source "path"
            currentPath := jsStrProp source "currentPath"
            creatingUser := jsStrProp source "creatingUser"
            creationDateTime := jsStrProp source "creationDateTime"
            modifyingUser := jsStrProp source "modifyingUser"
            modifiedDateTime := jsStrProp source "modifiedDateTime" })
    else Except.ok []

/-- convertVideoSources of xml-parser.ts. -/
def convertVideoSources (x : Option JVal) : Except String (List VideoSourceType) :=
  match x with
  | none => Except.ok []
  | some v =>
    if jsTruthy v then
      (jsAsArray v).mapM (fun source => do
        let tr ←
          match jsGetT source "Transcript" with
          | some w => Except.map some (convertTranscripts (some w))
          | none => Except.ok none
        let sel ←
          match jsGetT source "VideoSelection" with
          | some w => Except.map some (convertVideoSelections (some w))
          | none => Except.ok none
        let cod ←
          match jsGetT source "Coding" with
          | some w => Except.map some (convertCodings (some w))
          | none => Except.ok none
        let vv ←
          match jsGetT source "VariableValue" with
          | some w => Except.map some (convertVariableValues (some w))
          | none => Except.ok none
        pure
          { Description := jsStrPropIf source "Description"
            Transcript := tr
            VideoSelection := sel
            Coding := cod
            NoteRef :=
              match jsGetT source "NoteRef" with
              | some nr => some (convertNoteRefs (some nr))
              | none => none
            VariableValue := vv
            guid := jsStrProp source "guid"
            name := jsStrProp source "name"
            path := jsStrProp source "path"
            currentPath := jsStrProp source "currentPath"
            creatingUser := jsStrProp source "creatingUser"
            creationDateTime := jsStrProp source "creationDateTime"
            modifyingUser := jsStrProp source "modifyingUser"
            modifiedDateTime := jsStrProp source "modifiedDateTime" })
    else Except.ok []

/-- convertSources of xml-parser.ts. -/
def convertSources (v : JVal) : Except String SourcesType := do
  let ts ←
    match jsGetT v "TextSource" with
    | some w => Except.map some (convertTextSources (some w))
    | none => pure none
  let ps ←
    match jsGetT v "PictureSource" with
    | some w => Except.map some (convertPictureSources (some w))
    | none => pure none
  let pdfs ←
    match jsGetT v "PDFSource" with
    | some w => Except.map some (convertPDFSources (some w))
    | none => pure none
  let aud ←
    match jsGetT v "AudioSource" with
    | some w => Except.map some (convertAudioSources (some w))
    | none => pure none
  let vid ←
    match jsGetT v "VideoSource" with
    | some w => Except.map some (convertVideoSources (some w))
    | none => pure none
  pure
    { TextSource := ts, PictureSource := ps, PDFSource := pdfs
      AudioSource := aud, VideoSource := vid }

/-- convertNotes of xml-parser.ts: notes are converted as text sources. -/
def convertNotes (x : Option JVal) : Except String (List TextSourceType) :=
  match x with
  | none => Except.ok []
  | some v => if jsTruthy v then convertTextSources (some v) else Except.ok []

/-- convertSets of xml-parser.ts. -/
def convertSets (x : Option JVal) : List SetType :=
  match x with
  | none => []
  | some v =>
    if jsTruthy v then
      (jsAsArray v).map (fun set =>
        { Description := jsStrPropIf set "Description"
          MemberCode :=
            match jsGetT set "MemberCode" with
            | some w => some (convertCodeRefs (some w))
            | none => none
          MemberSource :=
            match jsGetT set "MemberSource" with
            | some w => some (convertSourceRefs (some w))
            | none => none
          MemberNote :=
            match jsGetT set "MemberNote" with
            | some w => some (convertNoteRefs (some w))
            | none => none
          guid := jsStrProp set "guid"
          name := jsStrProp set "name" })
    else []

/-- convertVertices of xml-parser.ts. -/
def convertVertices (x : Option JVal) : List VertexType :=
  match x with
  | none => []
  | some v =>
    if jsTruthy v then
      (jsAsArray v).map (fun vertex =>
        { guid := jsStrProp vertex "guid"
          representedGUID := jsStrProp vertex "representedGUID"
          name := jsStrProp vertex "name"
          firstX := parseIntJV (jsGet vertex "firstX")
          firstY := parseIntJV (jsGet vertex "firstY")
          secondX :=
            if (jsGet vertex "secondX").isSome then
              some (parseIntJV (jsGet vertex "secondX"))
            else none
          secondY :=
            if (jsGet vertex "secondY").isSome then
              some (parseIntJV (jsGet vertex "secondY"))
            else none
          shape := jsStrProp vertex "shape"
          color := jsStrProp vertex "color" })
    else []

/-- convertEdges of xml-parser.ts. -/
def convertEdges (x : Option JVal) : List EdgeType :=
  match x with
  | none => []
  | some v =>
    if jsTruthy v then
      (jsAsArray v).map (fun edge =>
        { guid := jsStrProp edge "guid"
          representedGUID := jsStrProp edge "representedGUID"
          name := jsStrProp edge "name"
          sourceVertex := jsStrProp edge "sourceVertex"
          targetVertex := jsStrProp edge "targetVertex"
          color := jsStrProp edge "color"
          direction := jsStrProp edge "direction"
          lineStyle := jsStrProp edge "lineStyle" })
    else []

/-- convertGraphs of xml-parser.ts. -/
def convertGraphs (x : Option JVal) : List GraphType :=
  match x with
  | none => []
  | some v =>
    if jsTruthy v then
      (jsAsArray v).map (fun graph =>
        { Vertex :=
            match jsGetT graph "Vertex" with
            | some w => some (convertVertices (some w))
            | none => none
          Edge :=
            match jsGetT graph "Edge" with
            | some w => some (convertEdges (some w))
            | none => none
          guid := jsStrProp graph "guid"
          name := jsStrProp graph "name" })
    else []

/-- convertLinks of xml-parser.ts. -/
def convertLinks (x : Option JVal) : List LinkType :=
  match x with
  | none => []
  | some v =>
    if jsTruthy v then
      (jsAsArray v).map (fun link =>
        { NoteRef :=
            match jsGetT link "NoteRef" with
            | some nr => some (convertNoteRefs (some nr))
            | none => none
          guid := jsStrProp link "guid"
          name := jsStrProp link "name"
          direction := jsStrProp link "direction"
          color := jsStrProp link "color"
          originGUID := jsStrProp link "originGUID"
          targetGUID := jsStrProp link "targetGUID" })
    else []

/-- Reading of a UserType from a parsed value.  convertXmlToProject stores
the parsed xml2js objects in Users.User unconverted; this reads the three
UserType fields off them, which is observation-equivalent for
element-shaped values, and reads an `undefined` array entry (possible when
Users has no User child) as a UserType with every field undefined. -/
def readUser (x : Option JVal) : UserType :=
  match x with
  | none => { guid := none, name := none, id := none }
  | some v => { guid := jsStrProp v "guid", name := jsStrProp v "name", id := jsStrProp v "id" }

/-- convertXmlToProject of xml-parser.ts.  Throws (Except.error) exactly
where the source throws: on `xmlProject.CodeBook.Codes.Code` when Codes is
undefined, and inside the monadic converters. -/
def convertXmlToProject (x : JVal) : Except String Project := do
  let users :=
    match jsGetT x "Users" with
    | some u => some (UsersType.mk ((jsAsArrayU (jsGet u "User")).map readUser))
    | none => none
  let codeBook ←
    match jsGetT x "CodeBook" with
    | some cb => do
      let codesV ← jsMember (jsGet cb "Codes") "Code"
      pure (some (CodeBookType.mk (CodesType.mk (convertCodes codesV))))
    | none => pure none
  let cases0 ←
    match jsGetT x "Cases" with
    | some c => Except.map (fun l => some (CasesType.mk l)) (convertCases (jsGet c "Case"))
    | none => pure none
  let sources ←
    match jsGetT x "Sources" with
    | some s => Except.map some (convertSources s)
    | none => pure none
  let notes ←
    match jsGetT x "Notes" with
    | some n => Except.map (fun l => some (NotesType.mk l)) (convertNotes (jsGet n "Note"))
    | none => pure none
  pure
    { Users := users
      CodeBook := codeBook
      Variables :=
        match jsGetT x "Variables" with
        | some v => some (VariablesType.mk (convertVariables (jsGet v "Variable")))
        | none => none
      Cases := cases0
      Sources := sources
      Notes := notes
      Links :=
        match jsGetT x "Links" with
        | some l => some (LinksType.mk (convertLinks (jsGet l "Link")))
        | none => none
      Sets :=
        match jsGetT x "Sets" with
        | some s => some (SetsType.mk (convertSets (jsGet s "Set")))
        | none => none
      Graphs :=
        match jsGetT x "Graphs" with
        | some g => some (GraphsType.mk (convertGraphs (jsGet g "Graph")))
        | none => none
      Description := jsStrProp x "Description"
      NoteRef :=
        match jsGetT x "NoteRef" with
        | some nr => some (convertNoteRefs (some nr))
        | none => none
      name := jsStrProp x "name"
      origin := jsStrProp x "origin"
      creatingUserGUID := jsStrProp x "creatingUserGUID"
      creationDateTime := jsStrProp x "creationDateTime"
      modifyingUserGUID := jsStrProp x "modifyingUserGUID"
      modifiedDateTime := jsStrProp x "modifiedDateTime"
      basePath := jsStrProp x "basePath" }

/-- parseQDEFile of xml-parser.ts, at the document-tree level: parse the
document with xml2js, require a truthy Project property, convert it; any
conversion error is wrapped into the failed-to-parse message. -/
def parseQDEFileX (doc : XmlElem) : Except String Project :=
  let xmlProject := parseStringModel doc
  match jsGet xmlProject "Project" with
  | some pr =>
    if jsTruthy pr then
      (convertXmlToProject pr).mapError (fun e => "Failed to parse QDE file: " ++ e)
    else Except.error "Invalid QDE file: <Project> element not found"
  | none => Except.error "Invalid QDE file: <Project> element not found"

/-!
Document converter, export direction: src/export/xml-builder.ts.

Each prepare* function mirrors its namesake and produces the untyped
object handed to the xml2js Builder.  An attribute assigned an `undefined`
value yields no rendered attribute; the conditional assignments of the
source are entry lists that are empty when the guard fails.
-/

/-- Unconditional attribute assignment (`$.k = x`): an undefined value
produces no attribute. -/
def attrEntry (k : String) (v : Option String) : List (String × JVal) :=
  match v with
  | some s => [(k, JVal.jstr s)]
  | none => []

/-- Truthiness-guarded attribute assignment (`if (x) $.k = x`). -/
def attrEntryIf (k : String) (v : Option String) : List (String × JVal) :=
  match v with
  | some s => if s = "" then [] else [(k, JVal.jstr s)]
  | none => []

/-- Numeric attribute assignment. -/
def attrEntryNum (k : String) (n : JSNum) : List (String × JVal) := [(k, JVal.jnum n)]

/-- Boolean attribute assignment. -/
def attrEntryBool (k : String) (b : Bool) : List (String × JVal) := [(k, JVal.jbool b)]

/-- Presence-guarded numeric attribute assignment
(`if (x !== undefined) $.k = x`). -/
def attrEntryNumIf (k : String) (n : Option JSNum) : List (String × JVal) :=
  match n with
  | some m => [(k, JVal.jnum m)]
  | none => []

/-- The optionalAttributes.forEach pattern: truthiness-guarded attribute
assignments in list order. -/
def attrEntriesIf (l : List (String × Option String)) : List (String × JVal) :=
  l.flatMap (fun kv => attrEntryIf kv.1 kv.2)

/-- Truthiness-guarded child-element assignment of a string value
(`if (x.Description) xml.Description = x.Description`). -/
def elemEntryIf (k : String) (v : Option String) : List (String × JVal) :=
  match v with
  | some s => if s = "" then [] else [(k, JVal.jstr s)]
  | none => []

/-- A rendered reference element: an object carrying only a targetGUID
attribute. -/
def refXml (targetGUID : Option String) : JVal :=
  JVal.jobj [("$", JVal.jobj (attrEntry "targetGUID" targetGUID))]

/-- The `if (x.K && x.K.length > 0) xml.K = x.K.map(f)` pattern shared by
every reference-list and child-list field of the builder. -/
def listEntryIf {α : Type} (k : String) (v : Option (List α)) (f : α → JVal) :
    List (String × JVal) :=
  match v with
  | some l => if l.isEmpty then [] else [(k, JVal.jarr (l.map f))]
  | none => []

/-- prepareVariableValuesForXml of xml-builder.ts. -/
def prepareVariableValuesForXml (variableValues : List VariableValueType) : List JVal :=
  variableValues.map (fun value =>
    JVal.jobj
      ([("VariableRef", refXml value.VariableRef.targetGUID)] ++
       (if value.TextValue.isSome then
          [("TextValue", JVal.jstr (value.TextValue.getD ""))]
        else if value.BooleanValue.isSome then
          [("BooleanValue", JVal.jbool (value.BooleanValue.getD false))]
        else if value.IntegerValue.isSome then
          [("IntegerValue", JVal.jnum (value.IntegerValue.getD JSNum.nan))]
        else if value.FloatValue.isSome then
          [("FloatValue", JVal.jnum (value.FloatValue.getD JSNum.nan))]
        else if value.DateValue.isSome then
          [("DateValue", JVal.jstr (value.DateValue.getD ""))]
        else if value.DateTimeValue.isSome then
          [("DateTimeValue", JVal.jstr (value.DateTimeValue.getD ""))]
        else [])))

/-- prepareCodingsForXml of xml-builder.ts. -/
def prepareCodingsForXml (codings : List CodingType) : List JVal :=
  codings.map (fun coding =>
    JVal.jobj
      ([("$", JVal.jobj
          (attrEntry "guid" coding.guid ++
           attrEntryIf "creatingUser" coding.creatingUser ++
           attrEntryIf "creationDateTime" coding.creationDateTime)),
        ("CodeRef", refXml coding.CodeRef.targetGUID)] ++
       listEntryIf "NoteRef" coding.NoteRef (fun nr => refXml nr.targetGUID)))

mutual

/-- prepareCodesForXml of xml-builder.ts: recursive through nested codes. -/
def prepareCodesForXml (codes : List CodeType) : List JVal :=
  match codes with
  | [] => []
  | code :: rest => prepareCodeOne code :: prepareCodesForXml rest

/-- Rendering of one code (fields destructured in interface order:
Description, NoteRef, nested Code list, guid, name, isCodable, color). -/
def prepareCodeOne : CodeType → JVal
  | CodeType.mk dsc noteRef childCodes guid name isCodable color =>
    JVal.jobj
      ([("$", JVal.jobj
          (attrEntry "guid" guid ++
           attrEntry "name" name ++
           attrEntryBool "isCodable" isCodable ++
           attrEntryIf "color" color))] ++
       elemEntryIf "Description" dsc ++
       listEntryIf "NoteRef" noteRef (fun nr => refXml nr.targetGUID) ++
       (match childCodes with
        | some l => if l.isEmpty then [] else [("Code", JVal.jarr (prepareCodesForXml l))]
        | none => []))

end

/-- prepareVariablesForXml of xml-builder.ts. -/
def prepareVariablesForXml (vars0 : List VariableType) : List JVal :=
  vars0.map (fun variable0 =>
    JVal.jobj
      ([("$", JVal.jobj
          (attrEntry "guid" variable0.guid ++
           attrEntry "name" variable0.name ++
           attrEntry "typeOfVariable" variable0.typeOfVariable))] ++
       elemEntryIf "Description" variable0.Description))

/-- prepareCasesForXml of xml-builder.ts. -/
def prepareCasesForXml (cases : List CaseType) : List JVal :=
  cases.map (fun caseItem =>
    JVal.jobj
      ([("$", JVal.jobj
          (attrEntry "guid" caseItem.guid ++
           attrEntry "name" caseItem.name))] ++
       elemEntryIf "Description" caseItem.Description ++
       listEntryIf "CodeRef" caseItem.CodeRef (fun r => refXml r.targetGUID) ++
       (match caseItem.VariableValue with
        | some l =>
          if l.isEmpty then []
          else [("VariableValue", JVal.jarr (prepareVariableValuesForXml l))]
        | none => []) ++
       listEntryIf "SourceRef" caseItem.SourceRef (fun r => refXml r.targetGUID) ++
       listEntryIf "SelectionRef" caseItem.SelectionRef (fun r => refXml r.targetGUID)))

/-- preparePlainTextSelectionsForXml of xml-builder.ts. -/
def preparePlainTextSelectionsForXml (selections : List PlainTextSelectionType) : List JVal :=
  selections.map (fun selection =>
    JVal.jobj
      ([("$", JVal.jobj
          (attrEntry "guid" selection.guid ++
           attrEntryNum "startPosition" selection.startPosition ++
           attrEntryNum "endPosition" selection.endPosition ++
           attrEntriesIf
             [("name", selection.name), ("creatingUser", selection.creatingUser),
              ("creationDateTime", selection.creationDateTime),
              ("modifyingUser", selection.modifyingUser),
              ("modifiedDateTime", selection.modifiedDateTime)]))] ++
       elemEntryIf "Description" selection.Description ++
       (match selection.Coding with
        | some l => if l.isEmpty then [] else [("Coding", JVal.jarr (prepareCodingsForXml l))]
        | none => []) ++
       listEntryIf "NoteRef" selection.NoteRef (fun nr => refXml nr.targetGUID)))

/-- prepareTextSourcesForXml of xml-builder.ts. -/
def prepareTextSourcesForXml (sources : List TextSourceType) : List JVal :=
  sources.map (fun source =>
    JVal.jobj
      ([("$", JVal.jobj
          (attrEntry "guid" source.guid ++
           attrEntriesIf
             [("name", source.name), ("richTextPath", source.richTextPath),
              ("plainTextPath", source.plainTextPath),
              ("creatingUser", source.creatingUser),
              ("creationDateTime", source.creationDateTime),
              ("modifyingUser", source.modifyingUser),
              ("modifiedDateTime", source.modifiedDateTime)]))] ++
       elemEntryIf "Description" source.Description ++
       elemEntryIf "PlainTextContent" source.PlainTextContent ++
       (match source.PlainTextSelection with
        | some l =>
          if l.isEmpty then []
          else [("PlainTextSelection", JVal.jarr (preparePlainTextSelectionsForXml l))]
        | none => []) ++
       (match source.Coding with
        | some l => if l.isEmpty then [] else [("Coding", JVal.jarr (prepareCodingsForXml l))]
        | none => []) ++
       listEntryIf "NoteRef" source.NoteRef (fun nr => refXml nr.targetGUID) ++
       (match source.VariableValue with
        | some l =>
          if l.isEmpty then []
          else [("VariableValue", JVal.jarr (prepareVariableValuesForXml l))]
        | none => [])))

/-- preparePictureSelectionsForXml of xml-builder.ts. -/
def preparePictureSelectionsForXml (selections : List PictureSelectionType) : List JVal :=
  selections.map (fun selection =>
    JVal.jobj
      ([("$", JVal.jobj
          (attrEntry "guid" selection.guid ++
           attrEntryNum "firstX" selection.firstX ++
           attrEntryNum "firstY" selection.firstY ++
           attrEntryNum "secondX" selection.secondX ++
           attrEntryNum "secondY" selection.secondY ++
           attrEntriesIf
             [("name", selection.name), ("creatingUser", selection.creatingUser),
              ("creationDateTime", selection.creationDateTime),
              ("modifyingUser", selection.modifyingUser),
              ("modifiedDateTime", selection.modifiedDateTime)]))] ++
       elemEntryIf "Description" selection.Description ++
       (match selection.Coding with
        | some l => if l.isEmpty then [] else [("Coding", JVal.jarr (prepareCodingsForXml l))]
        | none => []) ++
       listEntryIf "NoteRef" selection.NoteRef (fun nr => refXml nr.targetGUID)))

/-- preparePDFSelectionsForXml of xml-builder.ts. -/
def preparePDFSelectionsForXml (selections : List PDFSelectionType) : List JVal :=
  selections.map (fun selection =>
    JVal.jobj
      ([("$", JVal.jobj
          (attrEntry "guid" selection.guid ++
           attrEntryNum "page" selection.page ++
           attrEntryNum "firstX" selection.firstX ++
           attrEntryNum "firstY" selection.firstY ++
           attrEntryNum "secondX" selection.secondX ++
           attrEntryNum "secondY" selection.secondY ++
           attrEntriesIf
             [("name", selection.name), ("creatingUser", selection.creatingUser),
              ("creationDateTime", selection.creationDateTime),
              ("modifyingUser", selection.modifyingUser),
              ("modifiedDateTime", selection.modifiedDateTime)]))] ++
       elemEntryIf "Description" selection.Description ++
       (match selection.Representation with
        | some rep =>
          match (prepareTextSourcesForXml [rep]).head? with
          | some j => [("Representation", j)]
          | none => []
        | none => []) ++
       (match selection.Coding with
        | some l => if l.isEmpty then [] else [("Coding", JVal.jarr (prepareCodingsForXml l))]
        | none => []) ++
       listEntryIf "NoteRef" selection.NoteRef (fun nr => refXml nr.targetGUID)))

/-- prepareAudioSelectionsForXml of xml-builder.ts. -/
def prepareAudioSelectionsForXml (selections : List AudioSelectionType) : List JVal :=
  selections.map (fun selection =>
    JVal.jobj
      ([("$", JVal.jobj
          (attrEntry "guid" selection.guid ++
           attrEntryNum "begin" selection.beginVal ++
           attrEntryNum "end" selection.endVal ++
           attrEntriesIf
             [("name", selection.name), ("creatingUser", selection.creatingUser),
              ("creationDateTime", selection.creationDateTime),
              ("modifyingUser", selection.modifyingUser),
              ("modifiedDateTime", selection.modifiedDateTime)]))] ++
       elemEntryIf "Description" selection.Description ++
       (match selection.Coding with
        | some l => if l.isEmpty then [] else [("Coding", JVal.jarr (prepareCodingsForXml l))]
        | none => []) ++
       listEntryIf "NoteRef" selection.NoteRef (fun nr => refXml nr.targetGUID)))

/-- prepareVideoSelectionsForXml of xml-builder.ts. -/
def prepareVideoSelectionsForXml (selections : List VideoSelectionType) : List JVal :=
  selections.map (fun selection =>
    JVal.jobj
      ([("$", JVal.jobj
          (attrEntry "guid" selection.guid ++
           attrEntryNum "begin" selection.beginVal ++
           attrEntryNum "end" selection.endVal ++
           attrEntriesIf
             [("name", selection.name), ("creatingUser", selection.creatingUser),
              ("creationDateTime", selection.creationDateTime),
              ("modifyingUser", selection.modifyingUser),
              ("modifiedDateTime", selection.modifiedDateTime)]))] ++
       elemEntryIf "Description" selection.Description ++
       (match selection.Coding with
        | some l => if l.isEmpty then [] else [("Coding", JVal.jarr (prepareCodingsForXml l))]
        | none => []) ++
       listEntryIf "NoteRef" selection.NoteRef (fun nr => refXml nr.targetGUID)))

/-- prepareSyncPointsForXml of xml-builder.ts. -/
def prepareSyncPointsForXml (syncPoints : List SyncPointType) : List JVal :=
  syncPoints.map (fun syncPoint =>
    JVal.jobj
      [("$", JVal.jobj
         (attrEntry "guid" syncPoint.guid ++
          attrEntryNumIf "timeStamp" syncPoint.timeStamp ++
          attrEntryNumIf "position" syncPoint.position))])

/-- prepareTranscriptSelectionsForXml of xml-builder.ts. -/
def prepareTranscriptSelectionsForXml (selections : List TranscriptSelectionType) : List JVal :=
  selections.map (fun selection =>
    JVal.jobj
      ([("$", JVal.jobj
          (attrEntry "guid" selection.guid ++
           attrEntriesIf
             [("name", selection.name), ("fromSyncPoint", selection.fromSyncPoint),
              ("toSyncPoint", selection.toSyncPoint),
              ("creatingUser", selection.creatingUser),
              ("creationDateTime", selection.creationDateTime),
              ("modifyingUser", selection.modifyingUser),
              ("modifiedDateTime", selection.modifiedDateTime)]))] ++
       elemEntryIf "Description" selection.Description ++
       (match selection.Coding with
        | some l => if l.isEmpty then [] else [("Coding", JVal.jarr (prepareCodingsForXml l))]
        | none => []) ++
       listEntryIf "NoteRef" selection.NoteRef (fun nr => refXml nr.targetGUID)))

/-- prepareTranscriptsForXml of xml-builder.ts. -/
def prepareTranscriptsForXml (transcripts : List TranscriptType) : List JVal :=
  transcripts.map (fun transcript =>
    JVal.jobj
      ([("$", JVal.jobj
          (attrEntry "guid" transcript.guid ++
           attrEntriesIf
             [("name", transcript.name), ("richTextPath", transcript.richTextPath),
              ("plainTextPath", transcript.plainTextPath),
              ("creatingUser", transcript.creatingUser),
              ("creationDateTime", transcript.creationDateTime),
              ("modifyingUser", transcript.modifyingUser),
              ("modifiedDateTime", transcript.modifiedDateTime)]))] ++
       elemEntryIf "Description" transcript.Description ++
       elemEntryIf "PlainTextContent" transcript.PlainTextContent ++
       (match transcript.SyncPoint with
        | some l =>
          if l.isEmpty then []
          else [("SyncPoint", JVal.jarr (prepareSyncPointsForXml l))]
        | none => []) ++
       (match transcript.TranscriptSelection with
        | some l =>
          if l.isEmpty then []
          else [("TranscriptSelection", JVal.jarr (prepareTranscriptSelectionsForXml l))]
        | none => []) ++
       listEntryIf "NoteRef" transcript.NoteRef (fun nr => refXml nr.targetGUID)))

/-- preparePictureSourcesForXml of xml-builder.ts. -/
def preparePictureSourcesForXml (sources : List PictureSourceType) : List JVal :=
  sources.map (fun source =>
    JVal.jobj
      ([("$", JVal.jobj
          (attrEntry "guid" source.guid ++
           attrEntriesIf
             [("name", source.name), ("path", source.path),
              ("currentPath", source.currentPath),
              ("creatingUser", source.creatingUser),
              ("creationDateTime", source.creationDateTime),
              ("modifyingUser", source.modifyingUser),
              ("modifiedDateTime", source.modifiedDateTime)]))] ++
       elemEntryIf "Description" source.Description ++
       (match source.TextDescription with
        | some td =>
          match (prepareTextSourcesForXml [td]).head? with
          | some j => [("TextDescription", j)]
          | none => []
        | none => []) ++
       (match source.PictureSelection with
        | some l =>
          if l.isEmpty then []
          else [("PictureSelection", JVal.jarr (preparePictureSelectionsForXml l))]
        | none => []) ++
       (match source.Coding with
        | some l => if l.isEmpty then [] else [("Coding", JVal.jarr (prepareCodingsForXml l))]
        | none => []) ++
       listEntryIf "NoteRef" source.NoteRef (fun nr => refXml nr.targetGUID) ++
       (match source.VariableValue with
        | some l =>
          if l.isEmpty then []
          else [("VariableValue", JVal.jarr (prepareVariableValuesForXml l))]
        | none => [])))

/-- preparePDFSourcesForXml of xml-builder.ts. -/
def preparePDFSourcesForXml (sources : List PDFSourceType) : List JVal :=
  sources.map (fun source =>
    JVal.jobj
      ([("$", JVal.jobj
          (attrEntry "guid" source.guid ++
           attrEntriesIf
             [("name", source.name), ("path", source.path),
              ("currentPath", source.currentPath),
              ("creatingUser", source.creatingUser),
              ("creationDateTime", source.creationDateTime),
              ("modifyingUser", source.modifyingUser),
              ("modifiedDateTime", source.modifiedDateTime)]))] ++
       elemEntryIf "Description" source.Description ++
       (match source.PDFSelection with
        | some l =>
          if l.isEmpty then []
          else [("PDFSelection", JVal.jarr (preparePDFSelectionsForXml l))]
        | none => []) ++
       (match source.Representation with
        | some rep =>
          match (prepareTextSourcesForXml [rep]).head? with
          | some j => [("Representation", j)]
          | none => []
        | none => []) ++
       (match source.Coding with
        | some l => if l.isEmpty then [] else [("Coding", JVal.jarr (prepareCodingsForXml l))]
        | none => []) ++
       listEntryIf "NoteRef" source.NoteRef (fun nr => refXml nr.targetGUID) ++
       (match source.VariableValue with
        | some l =>
          if l.isEmpty then []
          else [("VariableValue", JVal.jarr (prepareVariableValuesForXml l))]
        | none => [])))

/-- prepareAudioSourcesForXml of xml-builder.ts. -/
def prepareAudioSourcesForXml (sources : List AudioSourceType) : List JVal :=
  sources.map (fun source =>
    JVal.jobj
      ([("$", JVal.jobj
          (attrEntry "guid" source.guid ++
           attrEntriesIf
             [("name", source.name), ("path", source.path),
              ("currentPath", source.currentPath),
              ("creatingUser", source.creatingUser),
              ("creationDateTime", source.creationDateTime),
              ("modifyingUser", source.modifyingUser),
              ("modifiedDateTime", source.modifiedDateTime)]))] ++
       elemEntryIf "Description" source.Description ++
       (match source.Transcript with
        | some l =>
          if l.isEmpty then []
          else [("Transcript", JVal.jarr (prepareTranscriptsForXml l))]
        | none => []) ++
       (match source.AudioSelection with
        | some l =>
          if l.isEmpty then []
          else [("AudioSelection", JVal.jarr (prepareAudioSelectionsForXml l))]
        | none => []) ++
       (match source.Coding with
        | some l => if l.isEmpty then [] else [("Coding", JVal.jarr (prepareCodingsForXml l))]
        | none => []) ++
       listEntryIf "NoteRef" source.NoteRef (fun nr => refXml nr.targetGUID) ++
       (match source.VariableValue with
        | some l =>
          if l.isEmpty then []
          else [("VariableValue", JVal.jarr (prepareVariableValuesForXml l))]
        | none => [])))

/-- prepareVideoSourcesForXml of xml-builder.ts. -/
def prepareVideoSourcesForXml (sources : List VideoSourceType) : List JVal :=
  sources.map (fun source =>
    JVal.jobj
      ([("$", JVal.jobj
          (attrEntry "guid" source.guid ++
           attrEntriesIf
             [("name", source.name), ("path", source.path),
              ("currentPath", source.currentPath),
              ("creatingUser", source.creatingUser),
              ("creationDateTime", source.creationDateTime),
              ("modifyingUser", source.modifyingUser),
              ("modifiedDateTime", source.modifiedDateTime)]))] ++
       elemEntryIf "Description" source.Description ++
       (match source.Transcript with
        | some l =>
          if l.isEmpty then []
          else [("Transcript", JVal.jarr (prepareTranscriptsForXml l))]
        | none => []) ++
       (match source.VideoSelection with
        | some l =>
          if l.isEmpty then []
          else [("VideoSelection", JVal.jarr (prepareVideoSelectionsForXml l))]
        | none => []) ++
       (match source.Coding with
        | some l => if l.isEmpty then [] else [("Coding", JVal.jarr (prepareCodingsForXml l))]
        | none => []) ++
       listEntryIf "NoteRef" source.NoteRef (fun nr => refXml nr.targetGUID) ++
       (match source.VariableValue with
        | some l =>
          if l.isEmpty then []
          else [("VariableValue", JVal.jarr (prepareVariableValuesForXml l))]
        | none => [])))

/-- prepareSourcesForXml of xml-builder.ts. -/
def prepareSourcesForXml (sources : SourcesType) : JVal :=
  JVal.jobj
    ((match sources.TextSource with
      | some l =>
        if l.isEmpty then [] else [("TextSource", JVal.jarr (prepareTextSourcesForXml l))]
      | none => []) ++
     (match sources.PictureSource with
      | some l =>
        if l.isEmpty then [] else [("PictureSource", JVal.jarr (preparePictureSourcesForXml l))]
      | none => []) ++
     (match sources.PDFSource with
      | some l =>
        if l.isEmpty then [] else [("PDFSource", JVal.jarr (preparePDFSourcesForXml l))]
      | none => []) ++
     (match sources.AudioSource with
      | some l =>
        if l.isEmpty then [] else [("AudioSource", JVal.jarr (prepareAudioSourcesForXml l))]
      | none => []) ++
     (match sources.VideoSource with
      | some l =>
        if l.isEmpty then [] else [("VideoSource", JVal.jarr (prepareVideoSourcesForXml l))]
      | none => []))

/-- prepareLinksForXml of xml-builder.ts. -/
def prepareLinksForXml (links : List LinkType) : List JVal :=
  links.map (fun link =>
    JVal.jobj
      ([("$", JVal.jobj
          (attrEntry "guid" link.guid ++
           attrEntry "name" link.name ++
           attrEntryIf "direction" link.direction ++
           attrEntryIf "color" link.color ++
           attrEntryIf "originGUID" link.originGUID ++
           attrEntryIf "targetGUID" link.targetGUID))] ++
       listEntryIf "NoteRef" link.NoteRef (fun nr => refXml nr.targetGUID)))

/-- prepareVerticesForXml of xml-builder.ts. -/
def prepareVerticesForXml (vertices : List VertexType) : List JVal :=
  vertices.map (fun vertex =>
    JVal.jobj
      [("$", JVal.jobj
         (attrEntry "guid" vertex.guid ++
          attrEntryNum "firstX" vertex.firstX ++
          attrEntryNum "firstY" vertex.firstY ++
          attrEntryIf "representedGUID" vertex.representedGUID ++
          attrEntryIf "name" vertex.name ++
          attrEntryNumIf "secondX" vertex.secondX ++
          attrEntryNumIf "secondY" vertex.secondY ++
          attrEntryIf "shape" vertex.shape ++
          attrEntryIf "color" vertex.color))])

/-- prepareEdgesForXml of xml-builder.ts. -/
def prepareEdgesForXml (edges : List EdgeType) : List JVal :=
  edges.map (fun edge =>
    JVal.jobj
      [("$", JVal.jobj
         (attrEntry "guid" edge.guid ++
          attrEntry "sourceVertex" edge.sourceVertex ++
          attrEntry "targetVertex" edge.targetVertex ++
          attrEntryIf "representedGUID" edge.representedGUID ++
          attrEntryIf "name" edge.name ++
          attrEntryIf "color" edge.color ++
          attrEntryIf "direction" edge.direction ++
          attrEntryIf "lineStyle" edge.lineStyle))])

/-- prepareGraphsForXml of xml-builder.ts. -/
def prepareGraphsForXml (graphs : List GraphType) : List JVal :=
  graphs.map (fun graph =>
    JVal.jobj
      ([("$", JVal.jobj
          (attrEntry "guid" graph.guid ++
           attrEntry "name" graph.name))] ++
       (match graph.Vertex with
        | some l =>
          if l.isEmpty then [] else [("Vertex", JVal.jarr (prepareVerticesForXml l))]
        | none => []) ++
       (match graph.Edge with
        | some l =>
          if l.isEmpty then [] else [("Edge", JVal.jarr (prepareEdgesForXml l))]
        | none => [])))

/-- prepareSetsForXml of xml-builder.ts. -/
def prepareSetsForXml (sets : List SetType) : List JVal :=
  sets.map (fun set =>
    JVal.jobj
      ([("$", JVal.jobj
          (attrEntry "guid" set.guid ++
           attrEntry "name" set.name))] ++
       elemEntryIf "Description" set.Description ++
       listEntryIf "MemberCode" set.MemberCode (fun r => refXml r.targetGUID) ++
       listEntryIf "MemberSource" set.MemberSource (fun r => refXml r.targetGUID) ++
       listEntryIf "MemberNote" set.MemberNote (fun r => refXml r.targetGUID)))

/-- prepareProjectForXml of xml-builder.ts. -/
def prepareProjectForXml (project : Project) : JVal :=
  JVal.jobj
    ([("$", JVal.jobj
        (attrEntry "name" project.name ++
         attrEntriesIf
           [("origin", project.origin), ("creatingUserGUID", project.creatingUserGUID),
            ("creationDateTime", project.creationDateTime),
            ("modifyingUserGUID", project.modifyingUserGUID),
            ("modifiedDateTime", project.modifiedDateTime),
            ("basePath", project.basePath)]))] ++
     elemEntryIf "Description" project.Description ++
     listEntryIf "NoteRef" project.NoteRef (fun nr => refXml nr.targetGUID) ++
     (match project.Users with
      | some users =>
        [("Users", JVal.jobj
           [("User", JVal.jarr (users.User.map (fun user =>
              JVal.jobj
                [("$", JVal.jobj
                   (attrEntry "guid" user.guid ++
                    attrEntry "name" user.name ++
                    attrEntry "id" user.id))])))])]
      | none => []) ++
     (match project.CodeBook with
      | some cb =>
        [("CodeBook", JVal.jobj
           [("Codes", JVal.jobj
              [("Code", JVal.jarr (prepareCodesForXml cb.Codes.Code))])])]
      | none => []) ++
     (match project.Variables with
      | some v => [("Variables", JVal.jobj
          [("Variable", JVal.jarr (prepareVariablesForXml v.Variable))])]
      | none => []) ++
     (match project.Cases with
      | some c => [("Cases", JVal.jobj
          [("Case", JVal.jarr (prepareCasesForXml c.Case))])]
      | none => []) ++
     (match project.Sources with
      | some s => [("Sources", prepareSourcesForXml s)]
      | none => []) ++
     (match project.Notes with
      | some n => [("Notes", JVal.jobj
          [("Note", JVal.jarr (prepareTextSourcesForXml n.Note))])]
      | none => []) ++
     (match project.Links with
      | some l => [("Links", JVal.jobj
          [("Link", JVal.jarr (prepareLinksForXml l.Link))])]
      | none => []) ++
     (match project.Sets with
      | some s => [("Sets", JVal.jobj
          [("Set", JVal.jarr (prepareSetsForXml s.Set))])]
      | none => []) ++
     (match project.Graphs with
      | some g => [("Graphs", JVal.jobj
          [("Graph", JVal.jarr (prepareGraphsForXml g.Graph))])]
      | none => []))

/-- buildQDEFile of xml-builder.ts, at the document-tree level: the Builder
is configured with rootName "Project" and is handed an object with the two
keys "$" (the namespace attributes) and "Project" (the prepared project),
which xml2js renders as a Project element nested inside a Project root. -/
def buildQDEFileX (project : Project) : XmlElem :=
  xml2jsBuildObject "Project"
    (JVal.jobj
      [("$", JVal.jobj
         [("xmlns", JVal.jstr "urn:QDA-XML:project:1.0"),
          ("xmlns:xsi", JVal.jstr "http://www.w3.org/2001/XMLSchema-instance"),
          ("xsi:schemaLocation", JVal.jstr "urn:QDA-XML:project:1.0 Project.xsd")]),
       ("Project", prepareProjectForXml project)])

/-!
Validators: src/export/validators.ts.

validateProjectGUIDs carries a mutable error list and a guid-to-context
map through a fixed traversal; the model threads a `GuidState`.
validateProjectReferences first collects every guid in the object graph
(addGuids) and then walks all reference fields; both passes are pure here.
-/

/-- Truthiness of a possibly-undefined string (`if (s)`). -/
def truthyStr : Option String → Bool
  | none => false
  | some s => s != ""

/-- Hexadecimal digit test for the GUID pattern. -/
def isHexCh (c : Char) : Bool :=
  ('0' ≤ c && c ≤ '9') || ('a' ≤ c && c ≤ 'f') || ('A' ≤ c && c ≤ 'F')

/-- Hyphen splitting on the character list (String.splitOn "-" in the
source, written on List Char so that it evaluates in the kernel). -/
def splitOnDash : List Char → List (List Char)
  | [] => [[]]
  | c :: rest =>
    if c = '-' then [] :: splitOnDash rest
    else
      match splitOnDash rest with
      | h :: t => (c :: h) :: t
      | [] => [[c]]

/-- The guidPattern regex of validators.ts: five hyphen-separated hex
groups of lengths 8-4-4-4-12. -/
def isGuidFormat (s : String) : Bool :=
  let parts := splitOnDash s.data
  (parts.map (fun p => p.length) == [8, 4, 4, 4, 12]) &&
    parts.all (fun p => p.all isHexCh)

/-- Context string with a list index appended. -/
def ctxIdx (path : String) (i : Nat) : String := path ++ "[" ++ toString i ++ "]"

/-- State of the GUID validation pass: accumulated errors and the
first-context map of guids already seen (insertion-ordered). -/
structure GuidState : Type where
  errors : List String
  guidMap : List (String × String)
  deriving Repr

/-- checkGuid of validateProjectGUIDs: missing, malformed, duplicate, or
recorded as fresh. -/
def checkGuid (st : GuidState) (guid : Option String) (context : String) : GuidState :=
  match guid with
  | none => { st with errors := st.errors ++ ["Missing GUID in " ++ context] }
  | some g =>
    if g = "" then { st with errors := st.errors ++ ["Missing GUID in " ++ context] }
    else if !isGuidFormat g then
      { st with errors := st.errors ++ ["Invalid GUID format in " ++ context ++ ": " ++ g] }
    else
      match (st.guidMap.find? (fun kv => kv.1 = g)).map (fun kv => kv.2) with
      | some prev =>
        { st with errors := st.errors ++ ["Duplicate GUID " ++ g ++ " in " ++ context ++ " and " ++ prev] }
      | none => { st with guidMap := st.guidMap ++ [(g, context)] }

/-- The forEach-with-index loop: fold the body over a list with indices. -/
def eachIdx {a b : Type} (l : List a) (st : b) (f : b -> Nat -> a -> b) : b :=
  (l.enum).foldl (fun s p => f s p.1 p.2) st

/-- The forEach-with-index loop collecting lists of results. -/
def flatMapIdx {a b : Type} (l : List a) (f : Nat -> a -> List b) : List b :=
  (l.enum).flatMap (fun p => f p.1 p.2)

/-- Guid checks of a coding list (`Coding.forEach` with index). -/
def checkCodingsGuids (st : GuidState) (codings : List CodingType) (path : String) : GuidState :=
  eachIdx codings st (fun s i coding => checkGuid s coding.guid (ctxIdx path i))

mutual

/-- The recursive checkCodes closure of validateProjectGUIDs. -/
def checkCodesGuids : GuidState -> List CodeType -> String -> GuidState
  | st, codes, path => checkCodesGuidsIdx st codes path 0

/-- Index-threading loop of `checkCodesGuids`. -/
def checkCodesGuidsIdx : GuidState -> List CodeType -> String -> Nat -> GuidState
  | st, [], _, _ => st
  | st, CodeType.mk _ _ cc g _ _ _ :: rest, path, i =>
    let st1 := checkGuid st g (ctxIdx path i)
    let st2 :=
      match cc with
      | some l => checkCodesGuids st1 l (ctxIdx path i ++ ".Code")
      | none => st1
    checkCodesGuidsIdx st2 rest path (i + 1)

end

/-- The checkSourceSelections helper of validateProjectGUIDs, generic over
the per-kind selection type: selection guids with their coding guids, then
the source-level coding guids. -/
def checkSourceSelectionsG {s0 : Type} (selGuid : s0 -> Option String)
    (selCoding : s0 -> Option (List CodingType)) (st : GuidState)
    (sels : Option (List s0)) (srcCoding : Option (List CodingType))
    (base selectionType : String) : GuidState :=
  let st1 :=
    match sels with
    | some l =>
      eachIdx l st (fun s i sel =>
        let selCtx := base ++ "." ++ selectionType ++ "[" ++ toString i ++ "]"
        let s1 := checkGuid s (selGuid sel) selCtx
        match selCoding sel with
        | some cods => checkCodingsGuids s1 cods (selCtx ++ ".Coding")
        | none => s1)
    | none => st
  match srcCoding with
  | some cods => checkCodingsGuids st1 cods (base ++ ".Coding")
  | none => st1

/-- The checkTranscripts helper of validateProjectGUIDs: transcript guids,
sync point guids and transcript selection guids (codings of transcript
selections are not visited). -/
def checkTranscriptsGuids (st : GuidState) (transcripts : Option (List TranscriptType))
    (base : String) : GuidState :=
  match transcripts with
  | some l =>
    eachIdx l st (fun s i transcript =>
      let transCtx := base ++ ".Transcript[" ++ toString i ++ "]"
      let s1 := checkGuid s transcript.guid transCtx
      let s2 :=
        match transcript.SyncPoint with
        | some sps =>
          eachIdx sps s1 (fun t j sp =>
            checkGuid t sp.guid (transCtx ++ ".SyncPoint[" ++ toString j ++ "]"))
        | none => s1
      match transcript.TranscriptSelection with
      | some tss =>
        eachIdx tss s2 (fun t j ts =>
          checkGuid t ts.guid (transCtx ++ ".TranscriptSelection[" ++ toString j ++ "]"))
      | none => s2)
  | none => st

/-- validateProjectGUIDs of validators.ts.  Sections in source order:
Users, CodeBook (the `CodeBook && Codes && Code` guard reduces to presence
of CodeBook in the typed model, whose Codes.Code is a required field),
Variables, Cases, Sources by kind, Sets, Graphs, Links.  Notes, nested
TextDescription/Representation text sources and codings of transcript
selections are never visited. -/
def validateProjectGUIDs (project : Project) : List String :=
  let st0 : GuidState := { errors := [], guidMap := [] }
  let st1 :=
    match project.Users with
    | some users =>
      eachIdx users.User st0 (fun s i user => checkGuid s user.guid (ctxIdx "Users.User" i))
    | none => st0
  let st2 :=
    match project.CodeBook with
    | some cb => checkCodesGuids st1 cb.Codes.Code "CodeBook.Codes.Code"
    | none => st1
  let st3 :=
    match project.Variables with
    | some v =>
      eachIdx v.Variable st2 (fun s i vr => checkGuid s vr.guid (ctxIdx "Variables.Variable" i))
    | none => st2
  let st4 :=
    match project.Cases with
    | some c =>
      eachIdx c.Case st3 (fun s i cs => checkGuid s cs.guid (ctxIdx "Cases.Case" i))
    | none => st3
  let st5 :=
    match project.Sources with
    | some sources =>
      let sA :=
        match sources.TextSource with
        | some l =>
          eachIdx l st4 (fun s i source =>
            let base := ctxIdx "Sources.TextSource" i
            let s1 := checkGuid s source.guid base
            checkSourceSelectionsG (fun x => x.guid) (fun x => x.Coding) s1
              source.PlainTextSelection source.Coding base "PlainTextSelection")
        | none => st4
      let sB :=
        match sources.PictureSource with
        | some l =>
          eachIdx l sA (fun s i source =>
            let base := ctxIdx "Sources.PictureSource" i
            let s1 := checkGuid s source.guid base
            checkSourceSelectionsG (fun x => x.guid) (fun x => x.Coding) s1
              source.PictureSelection source.Coding base "PictureSelection")
        | none => sA
      let sC :=
        match sources.PDFSource with
        | some l =>
          eachIdx l sB (fun s i source =>
            let base := ctxIdx "Sources.PDFSource" i
            let s1 := checkGuid s source.guid base
            checkSourceSelectionsG (fun x => x.guid) (fun x => x.Coding) s1
              source.PDFSelection source.Coding base "PDFSelection")
        | none => sB
      let sD :=
        match sources.AudioSource with
        | some l =>
          eachIdx l sC (fun s i source =>
            let base := ctxIdx "Sources.AudioSource" i
            let s1 := checkGuid s source.guid base
            let s2 := checkSourceSelectionsG (fun x => x.guid) (fun x => x.Coding) s1
              source.AudioSelection source.Coding base "AudioSelection"
            checkTranscriptsGuids s2 source.Transcript base)
        | none => sC
      match sources.VideoSource with
      | some l =>
        eachIdx l sD (fun s i source =>
          let base := ctxIdx "Sources.VideoSource" i
          let s1 := checkGuid s source.guid base
          let s2 := checkSourceSelectionsG (fun x => x.guid) (fun x => x.Coding) s1
            source.VideoSelection source.Coding base "VideoSelection"
          checkTranscriptsGuids s2 source.Transcript base)
      | none => sD
    | none => st4
  let st6 :=
    match project.Sets with
    | some s =>
      eachIdx s.Set st5 (fun t i st => checkGuid t st.guid (ctxIdx "Sets.Set" i))
    | none => st5
  let st7 :=
    match project.Graphs with
    | some g =>
      eachIdx g.Graph st6 (fun t i graph =>
        let base := ctxIdx "Graphs.Graph" i
        let t1 := checkGuid t graph.guid base
        let t2 :=
          match graph.Vertex with
          | some vs =>
            eachIdx vs t1 (fun u j vx =>
              checkGuid u vx.guid (base ++ ".Vertex[" ++ toString j ++ "]"))
          | none => t1
        match graph.Edge with
        | some es =>
          eachIdx es t2 (fun u j e =>
            checkGuid u e.guid (base ++ ".Edge[" ++ toString j ++ "]"))
        | none => t2)
    | none => st6
  let st8 :=
    match project.Links with
    | some l =>
      eachIdx l.Link st7 (fun t i lk => checkGuid t lk.guid (ctxIdx "Links.Link" i))
    | none => st7
  st8.errors

/-- validateProjectSources of validators.ts.  The typed TextSourceType has
no path field (matching the interface), so the `!source.path` check fails
for every text source; the hasTextSourceProperties / hasTranscriptProperties
guards test key presence, which the typed model renders as isSome. -/
def validateProjectSources (project : Project) : List String :=
  match project.Sources with
  | none => []
  | some sources =>
    (match sources.TextSource with
     | some l =>
       flatMapIdx l (fun i source =>
         ["Missing path in " ++ ctxIdx "Sources.TextSource" i] ++
         (if source.PlainTextContent.isSome || source.plainTextPath.isSome then
            (if truthyStr source.PlainTextContent && truthyStr source.plainTextPath then
               [ctxIdx "Sources.TextSource" i ++ " has both PlainTextContent and plainTextPath"]
             else []) ++
            (if !truthyStr source.PlainTextContent && !truthyStr source.plainTextPath then
               [ctxIdx "Sources.TextSource" i ++ " must have either PlainTextContent or plainTextPath"]
             else [])
          else []))
     | none => []) ++
    (match sources.PictureSource with
     | some l =>
       flatMapIdx l (fun i source =>
         if !truthyStr source.path then ["Missing path in " ++ ctxIdx "Sources.PictureSource" i] else [])
     | none => []) ++
    (match sources.PDFSource with
     | some l =>
       flatMapIdx l (fun i source =>
         if !truthyStr source.path then ["Missing path in " ++ ctxIdx "Sources.PDFSource" i] else [])
     | none => []) ++
    (match sources.AudioSource with
     | some l =>
       flatMapIdx l (fun i source =>
         (if !truthyStr source.path then ["Missing path in " ++ ctxIdx "Sources.AudioSource" i] else []) ++
         (match source.Transcript with
          | some ts =>
            flatMapIdx ts (fun j tr =>
              if tr.PlainTextContent.isSome || tr.plainTextPath.isSome then
                (if truthyStr tr.PlainTextContent && truthyStr tr.plainTextPath then
                   [ctxIdx "Sources.AudioSource" i ++ ".Transcript[" ++ toString j ++ "]" ++
                    " has both PlainTextContent and plainTextPath"]
                 else []) ++
                (if !truthyStr tr.PlainTextContent && !truthyStr tr.plainTextPath then
                   [ctxIdx "Sources.AudioSource" i ++ ".Transcript[" ++ toString j ++ "]" ++
                    " must have either PlainTextContent or plainTextPath"]
                 else [])
              else [])
          | none => []))
     | none => []) ++
    (match sources.VideoSource with
     | some l =>
       flatMapIdx l (fun i source =>
         (if !truthyStr source.path then ["Missing path in " ++ ctxIdx "Sources.VideoSource" i] else []) ++
         (match source.Transcript with
          | some ts =>
            flatMapIdx ts (fun j tr =>
              if tr.PlainTextContent.isSome || tr.plainTextPath.isSome then
                (if truthyStr tr.PlainTextContent && truthyStr tr.plainTextPath then
                   [ctxIdx "Sources.VideoSource" i ++ ".Transcript[" ++ toString j ++ "]" ++
                    " has both PlainTextContent and plainTextPath"]
                 else []) ++
                (if !truthyStr tr.PlainTextContent && !truthyStr tr.plainTextPath then
                   [ctxIdx "Sources.VideoSource" i ++ ".Transcript[" ++ toString j ++ "]" ++
                    " must have either PlainTextContent or plainTextPath"]
                 else [])
              else [])
          | none => []))
     | none => [])

/-!
The addGuids pass of validateProjectReferences: a generic traversal over
the whole object graph that records `obj.guid` whenever it is truthy.  The
model walks every typed object reachable from the Project (including
Notes, nested TextDescription/Representation text sources, and every
selection, coding, transcript and sync point); only set membership of the
result is ever used, so the collection order is irrelevant.
-/

/-- A truthy guid contributes itself; an absent or empty one contributes
nothing (`if (obj.guid) guids.add(obj.guid)`). -/
def guidOf (g : Option String) : List String :=
  match g with
  | some s => if s = "" then [] else [s]
  | none => []

/-- Guids inside an optional coding list. -/
def guidsOfCodings (l : Option (List CodingType)) : List String :=
  match l with
  | some cs => cs.flatMap (fun c => guidOf c.guid)
  | none => []

/-- Guids inside a plain text selection. -/
def guidsOfPlainTextSelection (s : PlainTextSelectionType) : List String :=
  guidOf s.guid ++ guidsOfCodings s.Coding

/-- Guids inside a text source. -/
def guidsOfTextSource (t : TextSourceType) : List String :=
  guidOf t.guid ++
  (match t.PlainTextSelection with
   | some l => l.flatMap guidsOfPlainTextSelection
   | none => []) ++
  guidsOfCodings t.Coding

/-- Guids inside a picture selection. -/
def guidsOfPictureSelection (s : PictureSelectionType) : List String :=
  guidOf s.guid ++ guidsOfCodings s.Coding

/-- Guids inside a PDF selection (including its Representation text
source). -/
def guidsOfPDFSelection (s : PDFSelectionType) : List String :=
  guidOf s.guid ++
  (match s.Representation with
   | some r => guidsOfTextSource r
   | none => []) ++
  guidsOfCodings s.Coding

/-- Guids inside an audio selection. -/
def guidsOfAudioSelection (s : AudioSelectionType) : List String :=
  guidOf s.guid ++ guidsOfCodings s.Coding

/-- Guids inside a video selection. -/
def guidsOfVideoSelection (s : VideoSelectionType) : List String :=
  guidOf s.guid ++ guidsOfCodings s.Coding

/-- Guids inside a transcript selection. -/
def guidsOfTranscriptSelection (s : TranscriptSelectionType) : List String :=
  guidOf s.guid ++ guidsOfCodings s.Coding

/-- Guids inside a transcript. -/
def guidsOfTranscript (t : TranscriptType) : List String :=
  guidOf t.guid ++
  (match t.SyncPoint with
   | some l => l.flatMap (fun sp => guidOf sp.guid)
   | none => []) ++
  (match t.TranscriptSelection with
   | some l => l.flatMap guidsOfTranscriptSelection
   | none => [])

/-- Guids inside a picture source (including its TextDescription). -/
def guidsOfPictureSource (p : PictureSourceType) : List String :=
  guidOf p.guid ++
  (match p.TextDescription with
   | some t => guidsOfTextSource t
   | none => []) ++
  (match p.PictureSelection with
   | some l => l.flatMap guidsOfPictureSelection
   | none => []) ++
  guidsOfCodings p.Coding

/-- Guids inside a PDF source (including its Representation). -/
def guidsOfPDFSource (p : PDFSourceType) : List String :=
  guidOf p.guid ++
  (match p.PDFSelection with
   | some l => l.flatMap guidsOfPDFSelection
   | none => []) ++
  (match p.Representation with
   | some t => guidsOfTextSource t
   | none => []) ++
  guidsOfCodings p.Coding

/-- Guids inside an audio source. -/
def guidsOfAudioSource (p : AudioSourceType) : List String :=
  guidOf p.guid ++
  (match p.Transcript with
   | some l => l.flatMap guidsOfTranscript
   | none => []) ++
  (match p.AudioSelection with
   | some l => l.flatMap guidsOfAudioSelection
   | none => []) ++
  guidsOfCodings p.Coding

/-- Guids inside a video source. -/
def guidsOfVideoSource (p : VideoSourceType) : List String :=
  guidOf p.guid ++
  (match p.Transcript with
   | some l => l.flatMap guidsOfTranscript
   | none => []) ++
  (match p.VideoSelection with
   | some l => l.flatMap guidsOfVideoSelection
   | none => []) ++
  guidsOfCodings p.Coding

mutual

/-- Guids inside a code and its nested children. -/
def guidsOfCode : CodeType → List String
  | CodeType.mk _ _ cc g _ _ _ =>
    guidOf g ++
    (match cc with
     | some l => guidsOfCodeList l
     | none => [])

/-- Guids inside a code list. -/
def guidsOfCodeList : List CodeType → List String
  | [] => []
  | c :: rest => guidsOfCode c ++ guidsOfCodeList rest

end

/-- Guids inside a graph (vertices and edges included). -/
def guidsOfGraph (g : GraphType) : List String :=
  guidOf g.guid ++
  (match g.Vertex with
   | some l => l.flatMap (fun v => guidOf v.guid)
   | none => []) ++
  (match g.Edge with
   | some l => l.flatMap (fun e => guidOf e.guid)
   | none => [])

/-- The addGuids pass over a whole project. -/
def guidsOfProject (project : Project) : List String :=
  (match project.Users with
   | some u => u.User.flatMap (fun x => guidOf x.guid)
   | none => []) ++
  (match project.CodeBook with
   | some cb => guidsOfCodeList cb.Codes.Code
   | none => []) ++
  (match project.Variables with
   | some v => v.Variable.flatMap (fun x => guidOf x.guid)
   | none => []) ++
  (match project.Cases with
   | some c => c.Case.flatMap (fun x => guidOf x.guid)
   | none => []) ++
  (match project.Sources with
   | some s =>
     (match s.TextSource with
      | some l => l.flatMap guidsOfTextSource
      | none => []) ++
     (match s.PictureSource with
      | some l => l.flatMap guidsOfPictureSource
      | none => []) ++
     (match s.PDFSource with
      | some l => l.flatMap guidsOfPDFSource
      | none => []) ++
     (match s.AudioSource with
      | some l => l.flatMap guidsOfAudioSource
      | none => []) ++
     (match s.VideoSource with
      | some l => l.flatMap guidsOfVideoSource
      | none => [])
   | none => []) ++
  (match project.Notes with
   | some n => n.Note.flatMap guidsOfTextSource
   | none => []) ++
  (match project.Links with
   | some l => l.Link.flatMap (fun x => guidOf x.guid)
   | none => []) ++
  (match project.Sets with
   | some s => s.Set.flatMap (fun x => guidOf x.guid)
   | none => []) ++
  (match project.Graphs with
   | some g => g.Graph.flatMap guidsOfGraph
   | none => [])

/-!
The reference-checking pass of validateProjectReferences.
-/

/-- checkReference of validateProjectReferences: a missing or empty target
guid is reported as a missing reference, an unknown one as an invalid
reference, and a resolvable one is silent. -/
def checkReference (guids : List String) (guid : Option String) (context : String) : List String :=
  match guid with
  | none => ["Missing reference GUID in " ++ context]
  | some g =>
    if g = "" then ["Missing reference GUID in " ++ context]
    else if guids.contains g then []
    else ["Invalid reference in " ++ context ++ ": GUID " ++ g ++ " not found in project"]

/-- checkNoteRefs of validateProjectReferences. -/
def checkNoteRefs (guids : List String) (noteRefs : Option (List NoteRefType))
    (context : String) : List String :=
  match noteRefs with
  | none => []
  | some l =>
    flatMapIdx l (fun i noteRef =>
      checkReference guids noteRef.targetGUID (ctxIdx context i ++ ".targetGUID"))

/-- checkCodeRefs of validateProjectReferences. -/
def checkCodeRefs (guids : List String) (codeRefs : Option (List CodeRefType))
    (context : String) : List String :=
  match codeRefs with
  | none => []
  | some l =>
    flatMapIdx l (fun i codeRef =>
      checkReference guids codeRef.targetGUID (ctxIdx context i ++ ".targetGUID"))

/-- checkSourceRefs of validateProjectReferences. -/
def checkSourceRefs (guids : List String) (sourceRefs : Option (List SourceRefType))
    (context : String) : List String :=
  match sourceRefs with
  | none => []
  | some l =>
    flatMapIdx l (fun i sourceRef =>
      checkReference guids sourceRef.targetGUID (ctxIdx context i ++ ".targetGUID"))

/-- checkSelectionRefs of validateProjectReferences. -/
def checkSelectionRefs (guids : List String) (selectionRefs : Option (List SelectionRefType))
    (context : String) : List String :=
  match selectionRefs with
  | none => []
  | some l =>
    flatMapIdx l (fun i selectionRef =>
      checkReference guids selectionRef.targetGUID (ctxIdx context i ++ ".targetGUID"))

/-- checkVariableRefs of validateProjectReferences: a single reference. -/
def checkVariableRefs (guids : List String) (variableRef : Option VariableRefType)
    (context : String) : List String :=
  match variableRef with
  | none => []
  | some vr => checkReference guids vr.targetGUID (context ++ ".targetGUID")

mutual

/-- The recursive checkCodeNoteRefs closure of validateProjectReferences. -/
def checkCodeNoteRefs : List String → List CodeType → String → List String
  | guids, codes, path => checkCodeNoteRefsIdx guids codes path 0

/-- Index-threading loop of `checkCodeNoteRefs`. -/
def checkCodeNoteRefsIdx : List String → List CodeType → String → Nat → List String
  | _, [], _, _ => []
  | guids, CodeType.mk _ nr cc _ _ _ _ :: rest, path, i =>
    (match nr with
     | some l => checkNoteRefs guids (some l) (ctxIdx path i ++ ".NoteRef")
     | none => []) ++
    (match cc with
     | some l => checkCodeNoteRefs guids l (ctxIdx path i ++ ".Code")
     | none => []) ++
    checkCodeNoteRefsIdx guids rest path (i + 1)

end

/-- The checkSourceReferences helper of validateProjectReferences: the
NoteRef list, codings (CodeRef plus coding NoteRefs) and variable values of
one source. -/
def checkSourceReferencesG (guids : List String) (noteRef : Option (List NoteRefType))
    (coding : Option (List CodingType)) (varVals : Option (List VariableValueType))
    (sourcePath : String) : List String :=
  (match noteRef with
   | some l => checkNoteRefs guids (some l) (sourcePath ++ ".NoteRef")
   | none => []) ++
  (match coding with
   | some cods =>
     flatMapIdx cods (fun i coding0 =>
       let codingPath := sourcePath ++ ".Coding[" ++ toString i ++ "]"
       checkCodeRefs guids (some [coding0.CodeRef]) (codingPath ++ ".CodeRef") ++
       (match coding0.NoteRef with
        | some l => checkNoteRefs guids (some l) (codingPath ++ ".NoteRef")
        | none => []))
   | none => []) ++
  (match varVals with
   | some l =>
     flatMapIdx l (fun i value =>
       checkVariableRefs guids (some value.VariableRef)
         (sourcePath ++ ".VariableValue[" ++ toString i ++ "].VariableRef"))
   | none => [])

/-- The checkSelectionReferences helper of validateProjectReferences,
generic over the per-kind selection type. -/
def checkSelectionReferencesG {s0 : Type} (selNoteRef : s0 → Option (List NoteRefType))
    (selCoding : s0 → Option (List CodingType)) (guids : List String)
    (sels : Option (List s0)) (sourcePath selectionType : String) : List String :=
  match sels with
  | none => []
  | some l =>
    flatMapIdx l (fun i sel =>
      let selectionPath := sourcePath ++ "." ++ selectionType ++ "[" ++ toString i ++ "]"
      (match selNoteRef sel with
       | some nr => checkNoteRefs guids (some nr) (selectionPath ++ ".NoteRef")
       | none => []) ++
      (match selCoding sel with
       | some cods =>
         flatMapIdx cods (fun j coding0 =>
           let codingPath := selectionPath ++ ".Coding[" ++ toString j ++ "]"
           checkCodeRefs guids (some [coding0.CodeRef]) (codingPath ++ ".CodeRef") ++
           (match coding0.NoteRef with
            | some nrs => checkNoteRefs guids (some nrs) (codingPath ++ ".NoteRef")
            | none => []))
       | none => []))

/-- The checkTranscriptReferences helper of validateProjectReferences:
transcript NoteRefs, then per transcript selection the two sync point
references, NoteRefs and codings. -/
def checkTranscriptReferences (guids : List String) (transcripts : Option (List TranscriptType))
    (sourcePath : String) : List String :=
  match transcripts with
  | none => []
  | some l =>
    flatMapIdx l (fun i transcript =>
      let transcriptPath := sourcePath ++ ".Transcript[" ++ toString i ++ "]"
      (match transcript.NoteRef with
       | some nr => checkNoteRefs guids (some nr) (transcriptPath ++ ".NoteRef")
       | none => []) ++
      (match transcript.TranscriptSelection with
       | some tss =>
         flatMapIdx tss (fun j sel =>
           let selectionPath := transcriptPath ++ ".TranscriptSelection[" ++ toString j ++ "]"
           (if truthyStr sel.fromSyncPoint then
              checkReference guids sel.fromSyncPoint (selectionPath ++ ".fromSyncPoint")
            else []) ++
           (if truthyStr sel.toSyncPoint then
              checkReference guids sel.toSyncPoint (selectionPath ++ ".toSyncPoint")
            else []) ++
           (match sel.NoteRef with
            | some nr => checkNoteRefs guids (some nr) (selectionPath ++ ".NoteRef")
            | none => []) ++
           (match sel.Coding with
            | some cods =>
              flatMapIdx cods (fun k coding0 =>
                let codingPath := selectionPath ++ ".Coding[" ++ toString k ++ "]"
                checkCodeRefs guids (some [coding0.CodeRef]) (codingPath ++ ".CodeRef") ++
                (match coding0.NoteRef with
                 | some nrs => checkNoteRefs guids (some nrs) (codingPath ++ ".NoteRef")
                 | none => []))
            | none => []))
       | none => []))

/-- validateProjectReferences of validators.ts: collect all guids, then
walk the reference fields in source order (project NoteRefs, CodeBook,
Cases, Sources by kind, Sets, Links, Graphs).  Notes and nested
TextDescription/Representation text sources are never walked. -/
def validateProjectReferences (project : Project) : List String :=
  let guids := guidsOfProject project
  (match project.NoteRef with
   | some nr => checkNoteRefs guids (some nr) "project.NoteRef"
   | none => []) ++
  (match project.CodeBook with
   | some cb => checkCodeNoteRefs guids cb.Codes.Code "project.CodeBook.Codes.Code"
   | none => []) ++
  (match project.Cases with
   | some c =>
     flatMapIdx c.Case (fun i caseItem =>
       let casePath := ctxIdx "project.Cases.Case" i
       (match caseItem.CodeRef with
        | some l => checkCodeRefs guids (some l) (casePath ++ ".CodeRef")
        | none => []) ++
       (match caseItem.VariableValue with
        | some l =>
          flatMapIdx l (fun j value =>
            checkVariableRefs guids (some value.VariableRef)
              (casePath ++ ".VariableValue[" ++ toString j ++ "].VariableRef"))
        | none => []) ++
       (match caseItem.SourceRef with
        | some l => checkSourceRefs guids (some l) (casePath ++ ".SourceRef")
        | none => []) ++
       (match caseItem.SelectionRef with
        | some l => checkSelectionRefs guids (some l) (casePath ++ ".SelectionRef")
        | none => []))
   | none => []) ++
  (match project.Sources with
   | some sources =>
     (match sources.TextSource with
      | some l =>
        flatMapIdx l (fun i source =>
          let sourcePath := ctxIdx "project.Sources.TextSource" i
          checkSourceReferencesG guids source.NoteRef source.Coding source.VariableValue sourcePath ++
          checkSelectionReferencesG (fun x => x.NoteRef) (fun x => x.Coding) guids
            source.PlainTextSelection sourcePath "PlainTextSelection")
      | none => []) ++
     (match sources.PictureSource with
      | some l =>
        flatMapIdx l (fun i source =>
          let sourcePath := ctxIdx "project.Sources.PictureSource" i
          checkSourceReferencesG guids source.NoteRef source.Coding source.VariableValue sourcePath ++
          checkSelectionReferencesG (fun x => x.NoteRef) (fun x => x.Coding) guids
            source.PictureSelection sourcePath "PictureSelection")
      | none => []) ++
     (match sources.PDFSource with
      | some l =>
        flatMapIdx l (fun i source =>
          let sourcePath := ctxIdx "project.Sources.PDFSource" i
          checkSourceReferencesG guids source.NoteRef source.Coding source.VariableValue sourcePath ++
          checkSelectionReferencesG (fun x => x.NoteRef) (fun x => x.Coding) guids
            source.PDFSelection sourcePath "PDFSelection")
      | none => []) ++
     (match sources.AudioSource with
      | some l =>
        flatMapIdx l (fun i source =>
          let sourcePath := ctxIdx "project.Sources.AudioSource" i
          checkSourceReferencesG guids source.NoteRef source.Coding source.VariableValue sourcePath ++
          checkSelectionReferencesG (fun x => x.NoteRef) (fun x => x.Coding) guids
            source.AudioSelection sourcePath "AudioSelection" ++
          checkTranscriptReferences guids source.Transcript sourcePath)
      | none => []) ++
     (match sources.VideoSource with
      | some l =>
        flatMapIdx l (fun i source =>
          let sourcePath := ctxIdx "project.Sources.VideoSource" i
          checkSourceReferencesG guids source.NoteRef source.Coding source.VariableValue sourcePath ++
          checkSelectionReferencesG (fun x => x.NoteRef) (fun x => x.Coding) guids
            source.VideoSelection sourcePath "VideoSelection" ++
          checkTranscriptReferences guids source.Transcript sourcePath)
      | none => [])
   | none => []) ++
  (match project.Sets with
   | some s =>
     flatMapIdx s.Set (fun i set =>
       let setPath := ctxIdx "project.Sets.Set" i
       (match set.MemberCode with
        | some l => checkCodeRefs guids (some l) (setPath ++ ".MemberCode")
        | none => []) ++
       (match set.MemberSource with
        | some l => checkSourceRefs guids (some l) (setPath ++ ".MemberSource")
        | none => []) ++
       (match set.MemberNote with
        | some l => checkNoteRefs guids (some l) (setPath ++ ".MemberNote")
        | none => []))
   | none => []) ++
  (match project.Links with
   | some lk =>
     flatMapIdx lk.Link (fun i link =>
       let linkPath := ctxIdx "project.Links.Link" i
       (if truthyStr link.originGUID then
          checkReference guids link.originGUID (linkPath ++ ".originGUID")
        else []) ++
       (if truthyStr link.targetGUID then
          checkReference guids link.targetGUID (linkPath ++ ".targetGUID")
        else []) ++
       (match link.NoteRef with
        | some nr => checkNoteRefs guids (some nr) (linkPath ++ ".NoteRef")
        | none => []))
   | none => []) ++
  (match project.Graphs with
   | some g =>
     flatMapIdx g.Graph (fun i graph =>
       let graphPath := ctxIdx "project.Graphs.Graph" i
       (match graph.Vertex with
        | some vs =>
          flatMapIdx vs (fun j vertex =>
            if truthyStr vertex.representedGUID then
              checkReference guids vertex.representedGUID
                (graphPath ++ ".Vertex[" ++ toString j ++ "].representedGUID")
            else [])
        | none => []) ++
       (match graph.Edge with
        | some es =>
          flatMapIdx es (fun j edge =>
            let edgePath := graphPath ++ ".Edge[" ++ toString j ++ "]"
            (if truthyStr edge.representedGUID then
               checkReference guids edge.representedGUID (edgePath ++ ".representedGUID")
             else []) ++
            (if truthyStr edge.sourceVertex then
               checkReference guids edge.sourceVertex (edgePath ++ ".sourceVertex")
             else []) ++
            (if truthyStr edge.targetVertex then
               checkReference guids edge.targetVertex (edgePath ++ ".targetVertex")
             else []))
        | none => []))
   | none => [])

/-- validateProjectForExport of validators.ts: the name requirement, then
the GUID, source and reference passes.  The final XML-generation probe
(buildQDEFile inside try/catch) cannot throw in the model, so it
contributes no errors. -/
def validateProjectForExport (project : Project) : List String :=
  (if !truthyStr project.name then ["Project name is required"] else []) ++
  validateProjectGUIDs project ++
  validateProjectSources project ++
  validateProjectReferences project

/-!
Export pipeline: src/export/source-processor.ts and src/export/options.ts.

The filesystem is a read-only map from paths to stat records (size plus an
opaque content id): `fs.promises.stat` and reading both fail exactly when
the path is unmapped.  Node's path module is modelled for POSIX hosts
(path.sep is "/", so `replace(/\//g, path.sep)` is the identity); resolve,
relative, dirname, basename and extname are modelled for the inputs that
occur here (absolute base paths, no "." or ".." segments).  The uuid
collaborator is an explicit generator indexed by a counter.
-/

/-- Stat record of a file: size in bytes and an opaque content id. -/
structure FileStat : Type where
  size : Nat
  content : Nat
  deriving DecidableEq, Repr

/-- The filesystem: a map from paths to stat records. -/
def FS : Type := String → Option FileStat

/-- Node path.dirname (POSIX). -/
def pathDirname (p : String) : String :=
  let chars := p.data
  match chars.reverse.findIdx? (fun c => c = '/') with
  | none => "."
  | some i =>
    let keep := chars.take (chars.length - i - 1)
    if keep.isEmpty then "/" else String.mk keep

/-- Node path.basename (POSIX). -/
def pathBasename (p : String) : String :=
  String.mk ((p.data.reverse.takeWhile (fun c => c != '/')).reverse)

/-- Node path.extname (POSIX): the final extension of the basename; a
leading dot alone is not an extension. -/
def pathExtname (p : String) : String :=
  let b := (pathBasename p).data
  match b.reverse.findIdx? (fun c => c = '.') with
  | none => ""
  | some i =>
    let pos := b.length - i - 1
    if pos = 0 then "" else String.mk (b.drop pos)

/-- Node path.resolve(base, x) for an absolute base and an x free of "."
and ".." segments: x itself when absolute, otherwise base/x. -/
def pathResolve (base x : String) : String :=
  if jsStartsWith x "/" then x else base ++ "/" ++ x

/-- Node path.relative(from, to) for the case where `to` lies under
`from`; unrelated paths (which do not occur in the theorems) are returned
unchanged. -/
def pathRelative (from0 to0 : String) : String :=
  if to0 = from0 then ""
  else if jsStartsWith to0 (from0 ++ "/") then jsSubstring to0 (from0.length + 1)
  else to0

/-- The `.replace(/\\/g, "/")` normalization. -/
def backslashToSlash (s : String) : String :=
  String.mk (s.data.map (fun c => if c = '\\' then '/' else c))

/-- SourceInfo of source-processor.ts. -/
structure SourceInfo : Type where
  guid : String
  originalPath : String
  sourceType : String
  filename : String
  extension : String
  deriving DecidableEq, Repr

/-- Export options (options.ts), with the onMissingSource callback as a
pure function. -/
structure ExportOptionsM : Type where
  includeExternalSources : Option Bool
  exportBasePath : Option String
  maxInternalFileSize : Option Nat
  validateBeforeExport : Option Bool
  overwrite : Option Bool
  onMissingSource : Option (String → String → String → Bool)

/-- State threaded through processSourcesForExport: the zip file set, the
source info list, and the two caller-owned accumulator arrays, plus the
uuid-generator counter. -/
structure ProcState : Type where
  sourceFiles : List (String × Nat)
  sourceInfoList : List SourceInfo
  warnings : List String
  externalSources : List String
  counter : Nat

/-- resolveSourcePath of source-processor.ts. -/
def resolveSourcePath (pathString : String) (basePath : Option String) : Except String String :=
  if jsStartsWith pathString "internal://" then
    let filename := jsSubstring pathString 11
    Except.ok (if truthyStr basePath then pathResolve (basePath.getD "") filename else filename)
  else if jsStartsWith pathString "relative://" then
    let relativePath := jsSubstring pathString 11
    if !truthyStr basePath then
      Except.error ("Base path required for relative path: " ++ pathString)
    else
      let cleanRelativePath :=
        if jsStartsWith relativePath "/" then jsSubstring relativePath 1 else relativePath
      Except.ok (pathResolve (basePath.getD "") cleanRelativePath)
  else if jsStartsWith pathString "absolute://" then
    Except.ok (jsSubstring pathString 11)
  else
    Except.ok (if truthyStr basePath then pathResolve (basePath.getD "") pathString else pathString)

/-- The view of a source taken by processSource: guid, path and
currentPath.  A text source has no path or currentPath field. -/
structure SourceView : Type where
  guid : Option String
  path : Option String
  currentPath : Option String

/-- View of a text source (no path fields in the interface). -/
def textSourceView (s : TextSourceType) : SourceView :=
  { guid := s.guid, path := none, currentPath := none }

/-- View of a picture source. -/
def pictureSourceView (s : PictureSourceType) : SourceView :=
  { guid := s.guid, path := s.path, currentPath := s.currentPath }

/-- View of a PDF source. -/
def pdfSourceView (s : PDFSourceType) : SourceView :=
  { guid := s.guid, path := s.path, currentPath := s.currentPath }

/-- View of an audio source. -/
def audioSourceView (s : AudioSourceType) : SourceView :=
  { guid := s.guid, path := s.path, currentPath := s.currentPath }

/-- View of a video source. -/
def videoSourceView (s : VideoSourceType) : SourceView :=
  { guid := s.guid, path := s.path, currentPath := s.currentPath }

/-- The processSource closure of processSourcesForExport.  Total: every
failure path inside it is caught.  In particular, when the stat fails and
the onMissingSource callback returns false, the thrown ExportError is
caught by the enclosing catch block of the same closure, which records the
"Invalid source path" warning and continues — the abort never escapes.
A read failure after a successful stat cannot occur in this filesystem
model (stat and read consult the same map). -/
def processSource (fs : FS) (options : ExportOptionsM) (gen : Nat → String)
    (st : ProcState) (source : SourceView) (sourceType : String) : ProcState :=
  match source.guid with
  | none => st
  | some guid =>
    if !truthyStr source.path then st
    else
      let pathStr := source.path.getD ""
      if jsStartsWith pathStr "internal://" then
        let filename := jsSubstring pathStr 11
        let info : SourceInfo :=
          { guid := guid
            originalPath := if truthyStr source.currentPath then source.currentPath.getD "" else ""
            sourceType := "internal"
            filename := filename
            extension := pathExtname filename }
        let st1 := { st with sourceInfoList := st.sourceInfoList ++ [info] }
        if truthyStr source.currentPath then
          let cp := source.currentPath.getD ""
          match resolveSourcePath cp none with
          | Except.error _ =>
            { st1 with warnings := st1.warnings ++ ["Could not include internal source: " ++ cp] }
          | Except.ok originalPath =>
            match fs originalPath with
            | some stat =>
              { st1 with sourceFiles := st1.sourceFiles ++ [("sources/" ++ filename, stat.content)] }
            | none =>
              { st1 with warnings := st1.warnings ++ ["Could not include internal source: " ++ cp] }
        else st1
      else
        match resolveSourcePath pathStr options.exportBasePath with
        | Except.error _ =>
          { st with warnings := st.warnings ++ ["Invalid source path: " ++ pathStr] }
        | Except.ok sourcePath =>
          let filename := pathBasename sourcePath
          let extension := pathExtname filename
          match fs sourcePath with
          | some stat =>
            let maxSize := options.maxInternalFileSize.getD 2147483646
            if stat.size ≤ maxSize && options.includeExternalSources.getD false then
              let newFilename := gen st.counter ++ extension
              { st with
                sourceFiles := st.sourceFiles ++ [("sources/" ++ newFilename, stat.content)]
                sourceInfoList := st.sourceInfoList ++
                  [{ guid := guid, originalPath := sourcePath, sourceType := "internal"
                     filename := newFilename, extension := extension }]
                counter := st.counter + 1 }
            else
              { st with
                externalSources := st.externalSources ++ [sourcePath]
                sourceInfoList := st.sourceInfoList ++
                  [{ guid := guid, originalPath := sourcePath
                     sourceType := if jsStartsWith pathStr "absolute://" then "absolute" else "relative"
                     filename := filename, extension := extension }] }
          | none =>
            let handleMissing :=
              match options.onMissingSource with
              | some cb => cb sourcePath sourceType guid
              | none => true
            if !handleMissing then
              { st with warnings := st.warnings ++ ["Invalid source path: " ++ pathStr] }
            else
              { st with
                warnings := st.warnings ++ ["Could not process source: " ++ sourcePath]
                sourceInfoList := st.sourceInfoList ++
                  [{ guid := guid, originalPath := sourcePath
                     sourceType := if jsStartsWith pathStr "absolute://" then "absolute" else "relative"
                     filename := filename, extension := extension }] }

/-- processSourcesForExport of source-processor.ts: every source of every
kind, in the fixed kind order, processed sequentially.  Total — it never
throws (see `processSource`). -/
def processSourcesForExport (fs : FS) (options : ExportOptionsM) (gen : Nat → String)
    (project : Project) (st0 : ProcState) : ProcState :=
  match project.Sources with
  | none => st0
  | some sources =>
    let s1 :=
      match sources.TextSource with
      | some l => l.foldl (fun st src => processSource fs options gen st (textSourceView src) "TextSource") st0
      | none => st0
    let s2 :=
      match sources.PictureSource with
      | some l => l.foldl (fun st src => processSource fs options gen st (pictureSourceView src) "PictureSource") s1
      | none => s1
    let s3 :=
      match sources.PDFSource with
      | some l => l.foldl (fun st src => processSource fs options gen st (pdfSourceView src) "PDFSource") s2
      | none => s2
    let s4 :=
      match sources.AudioSource with
      | some l => l.foldl (fun st src => processSource fs options gen st (audioSourceView src) "AudioSource") s3
      | none => s3
    match sources.VideoSource with
    | some l => l.foldl (fun st src => processSource fs options gen st (videoSourceView src) "VideoSource") s4
    | none => s4

/-- Lookup in the guid-keyed source map built by updateProjectSourcePaths
(`Map.set` makes the last entry for a guid win). -/
def sourceInfoLookup (infos : List SourceInfo) (guid : Option String) : Option SourceInfo :=
  match guid with
  | none => none
  | some g => infos.reverse.find? (fun i => i.guid = g)

/-- The new path written by updateSourcePath for a given info record. -/
def updatedPath (basePath : Option String) (info : SourceInfo) : String :=
  if info.sourceType = "internal" then "internal://" ++ info.filename
  else if info.sourceType = "relative" then
    "relative:///" ++
      backslashToSlash (pathRelative (if truthyStr basePath then basePath.getD "" else "") info.originalPath)
  else "absolute:///" ++ backslashToSlash info.originalPath

/-- The new currentPath written by updateSourcePath: set for internal and
relative infos, untouched for absolute ones. -/
def updatedCurrentPath (old : Option String) (info : SourceInfo) : Option String :=
  if info.sourceType = "internal" || info.sourceType = "relative" then
    some ("absolute:///" ++ backslashToSlash info.originalPath)
  else old

/-- updateProjectSourcePaths of source-processor.ts.  Text sources gain
only dynamic properties that no later reader consults (the interface has
no path/currentPath for them and the builder never serializes such keys),
so the typed model leaves them unchanged. -/
def updateProjectSourcePaths (project : Project) (sourceInfoList : List SourceInfo) : Project :=
  match project.Sources with
  | none => project
  | some sources =>
    { project with
      Sources := some
        { TextSource := sources.TextSource
          PictureSource := sources.PictureSource.map (fun l => l.map (fun src =>
            match sourceInfoLookup sourceInfoList src.guid with
            | some info =>
              { src with
                path := some (updatedPath project.basePath info)
                currentPath := updatedCurrentPath src.currentPath info }
            | none => src))
          PDFSource := sources.PDFSource.map (fun l => l.map (fun src =>
            match sourceInfoLookup sourceInfoList src.guid with
            | some info =>
              { src with
                path := some (updatedPath project.basePath info)
                currentPath := updatedCurrentPath src.currentPath info }
            | none => src))
          AudioSource := sources.AudioSource.map (fun l => l.map (fun src =>
            match sourceInfoLookup sourceInfoList src.guid with
            | some info =>
              { src with
                path := some (updatedPath project.basePath info)
                currentPath := updatedCurrentPath src.currentPath info }
            | none => src))
          VideoSource := sources.VideoSource.map (fun l => l.map (fun src =>
            match sourceInfoLookup sourceInfoList src.guid with
            | some info =>
              { src with
                path := some (updatedPath project.basePath info)
                currentPath := updatedCurrentPath src.currentPath info }
            | none => src)) } }

/-!
The deep copy taken by exportQDPX: `JSON.parse(JSON.stringify(project))`.
On the typed model this is a full structural rebuild: absent optional
fields are `none` on both sides (JSON drops undefined-valued keys), and no
Project value contains functions.  JSON would turn a NaN numeric field
into null; the model does not distinguish the two and copies NaN to NaN —
no theorem below copies a project containing NaN.
-/

/-- Deep copy of a note reference. -/
def copyNoteRef (r : NoteRefType) : NoteRefType := { targetGUID := r.targetGUID }

/-- Deep copy of a variable value. -/
def copyVariableValue (v : VariableValueType) : VariableValueType :=
  { VariableRef := { targetGUID := v.VariableRef.targetGUID }
    TextValue := v.TextValue, BooleanValue := v.BooleanValue
    IntegerValue := v.IntegerValue, FloatValue := v.FloatValue
    DateValue := v.DateValue, DateTimeValue := v.DateTimeValue }

/-- Deep copy of a coding. -/
def copyCoding (c : CodingType) : CodingType :=
  { CodeRef := { targetGUID := c.CodeRef.targetGUID }
    NoteRef := c.NoteRef.map (List.map copyNoteRef)
    guid := c.guid, creatingUser := c.creatingUser, creationDateTime := c.creationDateTime }

/-- Deep copy of a plain text selection. -/
def copyPlainTextSelection (s : PlainTextSelectionType) : PlainTextSelectionType :=
  { s with
    Coding := s.Coding.map (List.map copyCoding)
    NoteRef := s.NoteRef.map (List.map copyNoteRef) }

/-- Deep copy of a text source. -/
def copyTextSource (t : TextSourceType) : TextSourceType :=
  { t with
    PlainTextSelection := t.PlainTextSelection.map (List.map copyPlainTextSelection)
    Coding := t.Coding.map (List.map copyCoding)
    NoteRef := t.NoteRef.map (List.map copyNoteRef)
    VariableValue := t.VariableValue.map (List.map copyVariableValue) }

/-- Deep copy of a picture selection. -/
def copyPictureSelection (s : PictureSelectionType) : PictureSelectionType :=
  { s with
    Coding := s.Coding.map (List.map copyCoding)
    NoteRef := s.NoteRef.map (List.map copyNoteRef) }

/-- Deep copy of a picture source. -/
def copyPictureSource (p : PictureSourceType) : PictureSourceType :=
  { p with
    TextDescription := p.TextDescription.map copyTextSource
    PictureSelection := p.PictureSelection.map (List.map copyPictureSelection)
    Coding := p.Coding.map (List.map copyCoding)
    NoteRef := p.NoteRef.map (List.map copyNoteRef)
    VariableValue := p.VariableValue.map (List.map copyVariableValue) }

/-- Deep copy of a PDF selection. -/
def copyPDFSelection (s : PDFSelectionType) : PDFSelectionType :=
  { s with
    Representation := s.Representation.map copyTextSource
    Coding := s.Coding.map (List.map copyCoding)
    NoteRef := s.NoteRef.map (List.map copyNoteRef) }

/-- Deep copy of a PDF source. -/
def copyPDFSource (p : PDFSourceType) : PDFSourceType :=
  { p with
    PDFSelection := p.PDFSelection.map (List.map copyPDFSelection)
    Representation := p.Representation.map copyTextSource
    Coding := p.Coding.map (List.map copyCoding)
    NoteRef := p.NoteRef.map (List.map copyNoteRef)
    VariableValue := p.VariableValue.map (List.map copyVariableValue) }

/-- Deep copy of an audio selection. -/
def copyAudioSelection (s : AudioSelectionType) : AudioSelectionType :=
  { s with
    Coding := s.Coding.map (List.map copyCoding)
    NoteRef := s.NoteRef.map (List.map copyNoteRef) }

/-- Deep copy of a video selection. -/
def copyVideoSelection (s : VideoSelectionType) : VideoSelectionType :=
  { s with
    Coding := s.Coding.map (List.map copyCoding)
    NoteRef := s.NoteRef.map (List.map copyNoteRef) }

/-- Deep copy of a transcript selection. -/
def copyTranscriptSelection (s : TranscriptSelectionType) : TranscriptSelectionType :=
  { s with
    Coding := s.Coding.map (List.map copyCoding)
    NoteRef := s.NoteRef.map (List.map copyNoteRef) }

/-- Deep copy of a transcript. -/
def copyTranscript (t : TranscriptType) : TranscriptType :=
  { t with
    SyncPoint := t.SyncPoint.map (List.map (fun sp => { sp with guid := sp.guid }))
    TranscriptSelection := t.TranscriptSelection.map (List.map copyTranscriptSelection)
    NoteRef := t.NoteRef.map (List.map copyNoteRef) }

/-- Deep copy of an audio source. -/
def copyAudioSource (p : AudioSourceType) : AudioSourceType :=
  { p with
    Transcript := p.Transcript.map (List.map copyTranscript)
    AudioSelection := p.AudioSelection.map (List.map copyAudioSelection)
    Coding := p.Coding.map (List.map copyCoding)
    NoteRef := p.NoteRef.map (List.map copyNoteRef)
    VariableValue := p.VariableValue.map (List.map copyVariableValue) }

/-- Deep copy of a video source. -/
def copyVideoSource (p : VideoSourceType) : VideoSourceType :=
  { p with
    Transcript := p.Transcript.map (List.map copyTranscript)
    VideoSelection := p.VideoSelection.map (List.map copyVideoSelection)
    Coding := p.Coding.map (List.map copyCoding)
    NoteRef := p.NoteRef.map (List.map copyNoteRef)
    VariableValue := p.VariableValue.map (List.map copyVariableValue) }

mutual

/-- Deep copy of a code. -/
def copyCode : CodeType → CodeType
  | CodeType.mk d nr cc g n ic col =>
    CodeType.mk d (nr.map (List.map copyNoteRef))
      (match cc with
       | some l => some (copyCodeList l)
       | none => none) g n ic col

/-- Deep copy of a code list. -/
def copyCodeList : List CodeType → List CodeType
  | [] => []
  | c :: rest => copyCode c :: copyCodeList rest

end

/-- Deep copy of a case. -/
def copyCase (c : CaseType) : CaseType :=
  { c with
    CodeRef := c.CodeRef.map (List.map (fun r => { targetGUID := r.targetGUID }))
    VariableValue := c.VariableValue.map (List.map copyVariableValue)
    SourceRef := c.SourceRef.map (List.map (fun r => { targetGUID := r.targetGUID }))
    SelectionRef := c.SelectionRef.map (List.map (fun r => { targetGUID := r.targetGUID })) }

/-- Deep copy of a set. -/
def copySet (s : SetType) : SetType :=
  { s with
    MemberCode := s.MemberCode.map (List.map (fun r => { targetGUID := r.targetGUID }))
    MemberSource := s.MemberSource.map (List.map (fun r => { targetGUID := r.targetGUID }))
    MemberNote := s.MemberNote.map (List.map copyNoteRef) }

/-- Deep copy of a graph. -/
def copyGraph (g : GraphType) : GraphType :=
  { g with
    Vertex := g.Vertex.map (List.map (fun v => { v with guid := v.guid }))
    Edge := g.Edge.map (List.map (fun e => { e with guid := e.guid })) }

/-- Deep copy of a link. -/
def copyLink (l : LinkType) : LinkType :=
  { l with NoteRef := l.NoteRef.map (List.map copyNoteRef) }

/-- jsonDeepCopy: the `JSON.parse(JSON.stringify(project))` deep copy. -/
def jsonDeepCopy (project : Project) : Project :=
  { project with
    Users := project.Users.map (fun u => { User := u.User.map (fun x => { x with guid := x.guid }) })
    CodeBook := project.CodeBook.map (fun cb => { Codes := { Code := copyCodeList cb.Codes.Code } })
    Variables := project.Variables.map (fun v => { Variable := v.Variable.map (fun x => { x with guid := x.guid }) })
    Cases := project.Cases.map (fun c => { Case := c.Case.map copyCase })
    Sources := project.Sources.map (fun s =>
      { TextSource := s.TextSource.map (List.map copyTextSource)
        PictureSource := s.PictureSource.map (List.map copyPictureSource)
        PDFSource := s.PDFSource.map (List.map copyPDFSource)
        AudioSource := s.AudioSource.map (List.map copyAudioSource)
        VideoSource := s.VideoSource.map (List.map copyVideoSource) })
    Notes := project.Notes.map (fun n => { Note := n.Note.map copyTextSource })
    Links := project.Links.map (fun l => { Link := l.Link.map copyLink })
    Sets := project.Sets.map (fun s => { Set := s.Set.map copySet })
    Graphs := project.Graphs.map (fun g => { Graph := g.Graph.map copyGraph })
    NoteRef := project.NoteRef.map (List.map copyNoteRef) }

/-!
exportQDPX: src/export/options.ts (export module).
-/

/-- ExportResult of options.ts. -/
structure ExportResultM : Type where
  success : Bool
  qdpxPath : String
  externalSources : List String
  warnings : List String

/-- Everything a successful export writes or returns: the result record,
the project.qde document, the sources/ entries of the container, and the
mutated copy that was serialized (observable through the document). -/
structure ExportOutput : Type where
  result : ExportResultM
  qdeDocument : XmlElem
  containerFiles : List (String × Nat)
  qdeProject : Project

/-- The exportOptions record assembled at the top of exportQDPX, with its
defaults.  `??` keeps a present false/zero value; `||` replaces any falsy
value, so maxInternalFileSize 0 becomes the 2147483647 default.  The
record has no onMissingSource member — the caller's callback is not passed
through to processSourcesForExport. -/
def exportEffectiveOptions (options : ExportOptionsM) (outputPath : String) : ExportOptionsM :=
  { includeExternalSources := some (options.includeExternalSources.getD false)
    exportBasePath := some
      (if truthyStr options.exportBasePath then options.exportBasePath.getD ""
       else pathDirname outputPath)
    maxInternalFileSize := some
      (match options.maxInternalFileSize with
       | some m => if m = 0 then 2147483647 else m
       | none => 2147483647)
    validateBeforeExport := some (options.validateBeforeExport.getD true)
    overwrite := some (options.overwrite.getD false)
    onMissingSource := none }

/-- exportQDPX of options.ts: deep-copy the project, apply option
defaults, refuse to overwrite an existing output, default the copy's
basePath, optionally validate, process the sources, rewrite the copy's
source paths, serialize it, and write the container.  All mutation happens
on the deep copy. -/
def exportQDPX (fs : FS) (gen : Nat → String) (project : Project) (outputPath : String)
    (options : ExportOptionsM) : Except String ExportOutput :=
  let projectCopy0 := jsonDeepCopy project
  let exportOptions := exportEffectiveOptions options outputPath
  if (fs outputPath).isSome && !(exportOptions.overwrite.getD false) then
    Except.error ("Output file already exists: " ++ outputPath ++ ". Use overwrite option to replace it.")
  else
    let projectCopy :=
      if !truthyStr projectCopy0.basePath && truthyStr exportOptions.exportBasePath then
        { projectCopy0 with basePath := exportOptions.exportBasePath }
      else projectCopy0
    let validationErrors :=
      if exportOptions.validateBeforeExport.getD true then validateProjectForExport projectCopy
      else []
    if !validationErrors.isEmpty then
      Except.error "Project validation failed before export"
    else
      let st := processSourcesForExport fs exportOptions gen projectCopy
        { sourceFiles := [], sourceInfoList := [], warnings := [], externalSources := [], counter := 0 }
      let projectCopy2 := updateProjectSourcePaths projectCopy st.sourceInfoList
      let qdeContent := buildQDEFileX projectCopy2
      Except.ok
        { result :=
            { success := true, qdpxPath := outputPath
              externalSources := st.externalSources, warnings := st.warnings }
          qdeDocument := qdeContent
          containerFiles := st.sourceFiles
          qdeProject := projectCopy2 }

/-- An export call together with the caller-visible project binding after
it returns.  In the source, the only operations that write to a project
object — the basePath default, updateProjectSourcePaths, and the path
rewrites inside it — are applied to the deep copy `projectCopy`; the
caller's argument is only ever read (by JSON.stringify), so the caller's
binding after the call is the argument itself, on success and on failure
alike. -/
structure ExportRun : Type where
  outcome : Except String ExportOutput
  callerProject : Project

/-- exportQDPX together with the caller-visible project after the call. -/
def exportQDPXRun (fs : FS) (gen : Nat → String) (project : Project) (outputPath : String)
    (options : ExportOptionsM) : ExportRun :=
  { outcome := exportQDPX fs gen project outputPath options
    callerProject := project }

/-- getSourceType of src/import/source-resolver.ts: classify a source
address by its scheme prefix; an unprefixed address is relative. -/
def getSourceType (pathString : String) : String :=
  if jsStartsWith pathString "internal://" then "internal"
  else if jsStartsWith pathString "relative://" then "relative"
  else if jsStartsWith pathString "absolute://" then "absolute"
  else "relative"

/-!
Specification layer for the reference validator.

The spec enumerates the reference fields (NoteRef, CodeRef, SourceRef,
SelectionRef, VariableRef, fromSyncPoint/toSyncPoint, originGUID and
targetGUID of links, representedGUID and sourceVertex/targetVertex of
graphs) and states: one DanglingReference per field whose target is not an
entity identifier, nothing for a field whose target exists.  The functions
below enumerate those field occurrences in the validator's traversal
order; `refIssue` is the verdict for one occurrence.  The refinement
theorem for claim C4 states that validateProjectReferences is exactly
`filterMap refIssue` over this enumeration.
-/

/-- One reference-field occurrence: its context path and its target. -/
structure RefOcc : Type where
  ctx : String
  target : Option String
  deriving DecidableEq, Repr

/-- Verdict for one reference field: a missing-reference issue for an
absent or empty target, a dangling-reference issue for a target that is
not a collected identifier, and nothing for a resolvable target. -/
def refIssue (guids : List String) (occ : RefOcc) : Option String :=
  match occ.target with
  | none => some ("Missing reference GUID in " ++ occ.ctx)
  | some g =>
    if g = "" then some ("Missing reference GUID in " ++ occ.ctx)
    else if guids.contains g then none
    else some ("Invalid reference in " ++ occ.ctx ++ ": GUID " ++ g ++ " not found in project")

/-- Occurrences contributed by a NoteRef list field. -/
def noteRefOccs (noteRefs : Option (List NoteRefType)) (context : String) : List RefOcc :=
  match noteRefs with
  | none => []
  | some l =>
    flatMapIdx l (fun i noteRef => [⟨ctxIdx context i ++ ".targetGUID", noteRef.targetGUID⟩])

/-- Occurrences contributed by a CodeRef list field. -/
def codeRefOccs (codeRefs : Option (List CodeRefType)) (context : String) : List RefOcc :=
  match codeRefs with
  | none => []
  | some l =>
    flatMapIdx l (fun i codeRef => [⟨ctxIdx context i ++ ".targetGUID", codeRef.targetGUID⟩])

/-- Occurrences contributed by a SourceRef list field. -/
def sourceRefOccs (sourceRefs : Option (List SourceRefType)) (context : String) : List RefOcc :=
  match sourceRefs with
  | none => []
  | some l =>
    flatMapIdx l (fun i sourceRef => [⟨ctxIdx context i ++ ".targetGUID", sourceRef.targetGUID⟩])

/-- Occurrences contributed by a SelectionRef list field. -/
def selectionRefOccs (selectionRefs : Option (List SelectionRefType)) (context : String) : List RefOcc :=
  match selectionRefs with
  | none => []
  | some l =>
    flatMapIdx l (fun i selectionRef => [⟨ctxIdx context i ++ ".targetGUID", selectionRef.targetGUID⟩])

/-- Occurrence contributed by a single VariableRef field. -/
def variableRefOccs (variableRef : Option VariableRefType) (context : String) : List RefOcc :=
  match variableRef with
  | none => []
  | some vr => [⟨context ++ ".targetGUID", vr.targetGUID⟩]

mutual

/-- Occurrences of the recursive code NoteRef walk. -/
def codeNoteRefOccs : List CodeType → String → List RefOcc
  | codes, path => codeNoteRefOccsIdx codes path 0

/-- Index-threading loop of `codeNoteRefOccs`. -/
def codeNoteRefOccsIdx : List CodeType → String → Nat → List RefOcc
  | [], _, _ => []
  | CodeType.mk _ nr cc _ _ _ _ :: rest, path, i =>
    (match nr with
     | some l => noteRefOccs (some l) (ctxIdx path i ++ ".NoteRef")
     | none => []) ++
    (match cc with
     | some l => codeNoteRefOccs l (ctxIdx path i ++ ".Code")
     | none => []) ++
    codeNoteRefOccsIdx rest path (i + 1)

end

/-- Occurrences of one source's own reference fields. -/
def sourceRefsOccsG (noteRef : Option (List NoteRefType)) (coding : Option (List CodingType))
    (varVals : Option (List VariableValueType)) (sourcePath : String) : List RefOcc :=
  (match noteRef with
   | some l => noteRefOccs (some l) (sourcePath ++ ".NoteRef")
   | none => []) ++
  (match coding with
   | some cods =>
     flatMapIdx cods (fun i coding0 =>
       let codingPath := sourcePath ++ ".Coding[" ++ toString i ++ "]"
       codeRefOccs (some [coding0.CodeRef]) (codingPath ++ ".CodeRef") ++
       (match coding0.NoteRef with
        | some l => noteRefOccs (some l) (codingPath ++ ".NoteRef")
        | none => []))
   | none => []) ++
  (match varVals with
   | some l =>
     flatMapIdx l (fun i value =>
       variableRefOccs (some value.VariableRef)
         (sourcePath ++ ".VariableValue[" ++ toString i ++ "].VariableRef"))
   | none => [])

/-- Occurrences of one source's selection reference fields. -/
def selectionRefsOccsG {s0 : Type} (selNoteRef : s0 → Option (List NoteRefType))
    (selCoding : s0 → Option (List CodingType)) (sels : Option (List s0))
    (sourcePath selectionType : String) : List RefOcc :=
  match sels with
  | none => []
  | some l =>
    flatMapIdx l (fun i sel =>
      let selectionPath := sourcePath ++ "." ++ selectionType ++ "[" ++ toString i ++ "]"
      (match selNoteRef sel with
       | some nr => noteRefOccs (some nr) (selectionPath ++ ".NoteRef")
       | none => []) ++
      (match selCoding sel with
       | some cods =>
         flatMapIdx cods (fun j coding0 =>
           let codingPath := selectionPath ++ ".Coding[" ++ toString j ++ "]"
           codeRefOccs (some [coding0.CodeRef]) (codingPath ++ ".CodeRef") ++
           (match coding0.NoteRef with
            | some nrs => noteRefOccs (some nrs) (codingPath ++ ".NoteRef")
            | none => []))
       | none => []))

/-- Occurrences of one source's transcript reference fields (sync point
references appear only when truthy, mirroring the validator's guards). -/
def transcriptRefsOccs (transcripts : Option (List TranscriptType)) (sourcePath : String) :
    List RefOcc :=
  match transcripts with
  | none => []
  | some l =>
    flatMapIdx l (fun i transcript =>
      let transcriptPath := sourcePath ++ ".Transcript[" ++ toString i ++ "]"
      (match transcript.NoteRef with
       | some nr => noteRefOccs (some nr) (transcriptPath ++ ".NoteRef")
       | none => []) ++
      (match transcript.TranscriptSelection with
       | some tss =>
         flatMapIdx tss (fun j sel =>
           let selectionPath := transcriptPath ++ ".TranscriptSelection[" ++ toString j ++ "]"
           (if truthyStr sel.fromSyncPoint then
              [⟨selectionPath ++ ".fromSyncPoint", sel.fromSyncPoint⟩]
            else []) ++
           (if truthyStr sel.toSyncPoint then
              [⟨selectionPath ++ ".toSyncPoint", sel.toSyncPoint⟩]
            else []) ++
           (match sel.NoteRef with
            | some nr => noteRefOccs (some nr) (selectionPath ++ ".NoteRef")
            | none => []) ++
           (match sel.Coding with
            | some cods =>
              flatMapIdx cods (fun k coding0 =>
                let codingPath := selectionPath ++ ".Coding[" ++ toString k ++ "]"
                codeRefOccs (some [coding0.CodeRef]) (codingPath ++ ".CodeRef") ++
                (match coding0.NoteRef with
                 | some nrs => noteRefOccs (some nrs) (codingPath ++ ".NoteRef")
                 | none => []))
            | none => []))
       | none => []))

/-- Every reference-field occurrence visited by validateProjectReferences,
in its traversal order. -/
def referenceFieldOccurrences (project : Project) : List RefOcc :=
  (match project.NoteRef with
   | some nr => noteRefOccs (some nr) "project.NoteRef"
   | none => []) ++
  (match project.CodeBook with
   | some cb => codeNoteRefOccs cb.Codes.Code "project.CodeBook.Codes.Code"
   | none => []) ++
  (match project.Cases with
   | some c =>
     flatMapIdx c.Case (fun i caseItem =>
       let casePath := ctxIdx "project.Cases.Case" i
       (match caseItem.CodeRef with
        | some l => codeRefOccs (some l) (casePath ++ ".CodeRef")
        | none => []) ++
       (match caseItem.VariableValue with
        | some l =>
          flatMapIdx l (fun j value =>
            variableRefOccs (some value.VariableRef)
              (casePath ++ ".VariableValue[" ++ toString j ++ "].VariableRef"))
        | none => []) ++
       (match caseItem.SourceRef with
        | some l => sourceRefOccs (some l) (casePath ++ ".SourceRef")
        | none => []) ++
       (match caseItem.SelectionRef with
        | some l => selectionRefOccs (some l) (casePath ++ ".SelectionRef")
        | none => []))
   | none => []) ++
  (match project.Sources with
   | some sources =>
     (match sources.TextSource with
      | some l =>
        flatMapIdx l (fun i source =>
          let sourcePath := ctxIdx "project.Sources.TextSource" i
          sourceRefsOccsG source.NoteRef source.Coding source.VariableValue sourcePath ++
          selectionRefsOccsG (fun x => x.NoteRef) (fun x => x.Coding)
            source.PlainTextSelection sourcePath "PlainTextSelection")
      | none => []) ++
     (match sources.PictureSource with
      | some l =>
        flatMapIdx l (fun i source =>
          let sourcePath := ctxIdx "project.Sources.PictureSource" i
          sourceRefsOccsG source.NoteRef source.Coding source.VariableValue sourcePath ++
          selectionRefsOccsG (fun x => x.NoteRef) (fun x => x.Coding)
            source.PictureSelection sourcePath "PictureSelection")
      | none => []) ++
     (match sources.PDFSource with
      | some l =>
        flatMapIdx l (fun i source =>
          let sourcePath := ctxIdx "project.Sources.PDFSource" i
          sourceRefsOccsG source.NoteRef source.Coding source.VariableValue sourcePath ++
          selectionRefsOccsG (fun x => x.NoteRef) (fun x => x.Coding)
            source.PDFSelection sourcePath "PDFSelection")
      | none => []) ++
     (match sources.AudioSource with
      | some l =>
        flatMapIdx l (fun i source =>
          let sourcePath := ctxIdx "project.Sources.AudioSource" i
          sourceRefsOccsG source.NoteRef source.Coding source.VariableValue sourcePath ++
          selectionRefsOccsG (fun x => x.NoteRef) (fun x => x.Coding)
            source.AudioSelection sourcePath "AudioSelection" ++
          transcriptRefsOccs source.Transcript sourcePath)
      | none => []) ++
     (match sources.VideoSource with
      | some l =>
        flatMapIdx l (fun i source =>
          let sourcePath := ctxIdx "project.Sources.VideoSource" i
          sourceRefsOccsG source.NoteRef source.Coding source.VariableValue sourcePath ++
          selectionRefsOccsG (fun x => x.NoteRef) (fun x => x.Coding)
            source.VideoSelection sourcePath "VideoSelection" ++
          transcriptRefsOccs source.Transcript sourcePath)
      | none => [])
   | none => []) ++
  (match project.Sets with
   | some s =>
     flatMapIdx s.Set (fun i set =>
       let setPath := ctxIdx "project.Sets.Set" i
       (match set.MemberCode with
        | some l => codeRefOccs (some l) (setPath ++ ".MemberCode")
        | none => []) ++
       (match set.MemberSource with
        | some l => sourceRefOccs (some l) (setPath ++ ".MemberSource")
        | none => []) ++
       (match set.MemberNote with
        | some l => noteRefOccs (some l) (setPath ++ ".MemberNote")
        | none => []))
   | none => []) ++
  (match project.Links with
   | some lk =>
     flatMapIdx lk.Link (fun i link =>
       let linkPath := ctxIdx "project.Links.Link" i
       (if truthyStr link.originGUID then [⟨linkPath ++ ".originGUID", link.originGUID⟩] else []) ++
       (if truthyStr link.targetGUID then [⟨linkPath ++ ".targetGUID", link.targetGUID⟩] else []) ++
       (match link.NoteRef with
        | some nr => noteRefOccs (some nr) (linkPath ++ ".NoteRef")
        | none => []))
   | none => []) ++
  (match project.Graphs with
   | some g =>
     flatMapIdx g.Graph (fun i graph =>
       let graphPath := ctxIdx "project.Graphs.Graph" i
       (match graph.Vertex with
        | some vs =>
          flatMapIdx vs (fun j vertex =>
            if truthyStr vertex.representedGUID then
              [⟨graphPath ++ ".Vertex[" ++ toString j ++ "].representedGUID", vertex.representedGUID⟩]
            else [])
        | none => []) ++
       (match graph.Edge with
        | some es =>
          flatMapIdx es (fun j edge =>
            let edgePath := graphPath ++ ".Edge[" ++ toString j ++ "]"
            (if truthyStr edge.representedGUID then
               [⟨edgePath ++ ".representedGUID", edge.representedGUID⟩]
             else []) ++
            (if truthyStr edge.sourceVertex then
               [⟨edgePath ++ ".sourceVertex", edge.sourceVertex⟩]
             else []) ++
            (if truthyStr edge.targetVertex then
               [⟨edgePath ++ ".targetVertex", edge.targetVertex⟩]
             else []))
        | none => []))
   | none => [])

/-!
Specification layer for the GUID validator.

`guidOccurrences` enumerates, in traversal order, the (context, guid)
pairs that validateProjectGUIDs feeds to checkGuid; `guidFold` replays
checkGuid over such a list.  The refinement theorem for claim C5 states
that validateProjectGUIDs is exactly the error component of this fold, and
the duplicate analysis is carried out on the fold.
-/

/-- One guid-carrying entity occurrence: its context path and its guid. -/
structure GuidOcc : Type where
  ctx : String
  guid : Option String
  deriving DecidableEq, Repr

/-- One checkGuid step of the fold. -/
def guidStep (st : GuidState) (occ : GuidOcc) : GuidState := checkGuid st occ.guid occ.ctx

/-- Replay of checkGuid over an occurrence list. -/
def guidFold (st : GuidState) (occs : List GuidOcc) : GuidState := occs.foldl guidStep st

/-- Guid occurrences of a coding list. -/
def codingsGuidOccs (codings : List CodingType) (path : String) : List GuidOcc :=
  flatMapIdx codings (fun i coding => [⟨ctxIdx path i, coding.guid⟩])

mutual

/-- Guid occurrences of the recursive code walk. -/
def codesGuidOccs : List CodeType → String → List GuidOcc
  | codes, path => codesGuidOccsIdx codes path 0

/-- Index-threading loop of `codesGuidOccs`. -/
def codesGuidOccsIdx : List CodeType → String → Nat → List GuidOcc
  | [], _, _ => []
  | CodeType.mk _ _ cc g _ _ _ :: rest, path, i =>
    [⟨ctxIdx path i, g⟩] ++
    (match cc with
     | some l => codesGuidOccs l (ctxIdx path i ++ ".Code")
     | none => []) ++
    codesGuidOccsIdx rest path (i + 1)

end

/-- Guid occurrences of one source's selections and codings. -/
def sourceSelectionsGuidOccsG {s0 : Type} (selGuid : s0 → Option String)
    (selCoding : s0 → Option (List CodingType)) (sels : Option (List s0))
    (srcCoding : Option (List CodingType)) (base selectionType : String) : List GuidOcc :=
  (match sels with
   | some l =>
     flatMapIdx l (fun i sel =>
       let selCtx := base ++ "." ++ selectionType ++ "[" ++ toString i ++ "]"
       [⟨selCtx, selGuid sel⟩] ++
       (match selCoding sel with
        | some cods => codingsGuidOccs cods (selCtx ++ ".Coding")
        | none => []))
   | none => []) ++
  (match srcCoding with
   | some cods => codingsGuidOccs cods (base ++ ".Coding")
   | none => [])

/-- Guid occurrences of one source's transcripts. -/
def transcriptsGuidOccs (transcripts : Option (List TranscriptType)) (base : String) :
    List GuidOcc :=
  match transcripts with
  | some l =>
    flatMapIdx l (fun i transcript =>
      let transCtx := base ++ ".Transcript[" ++ toString i ++ "]"
      [⟨transCtx, transcript.guid⟩] ++
      (match transcript.SyncPoint with
       | some sps =>
         flatMapIdx sps (fun j sp => [⟨transCtx ++ ".SyncPoint[" ++ toString j ++ "]", sp.guid⟩])
       | none => []) ++
      (match transcript.TranscriptSelection with
       | some tss =>
         flatMapIdx tss (fun j ts =>
           [⟨transCtx ++ ".TranscriptSelection[" ++ toString j ++ "]", ts.guid⟩])
       | none => []))
  | none => []

/-- Every guid occurrence visited by validateProjectGUIDs, in its
traversal order. -/
def guidOccurrences (project : Project) : List GuidOcc :=
  (match project.Users with
   | some users => flatMapIdx users.User (fun i user => [⟨ctxIdx "Users.User" i, user.guid⟩])
   | none => []) ++
  (match project.CodeBook with
   | some cb => codesGuidOccs cb.Codes.Code "CodeBook.Codes.Code"
   | none => []) ++
  (match project.Variables with
   | some v => flatMapIdx v.Variable (fun i vr => [⟨ctxIdx "Variables.Variable" i, vr.guid⟩])
   | none => []) ++
  (match project.Cases with
   | some c => flatMapIdx c.Case (fun i cs => [⟨ctxIdx "Cases.Case" i, cs.guid⟩])
   | none => []) ++
  (match project.Sources with
   | some sources =>
     (match sources.TextSource with
      | some l =>
        flatMapIdx l (fun i source =>
          let base := ctxIdx "Sources.TextSource" i
          [⟨base, source.guid⟩] ++
          sourceSelectionsGuidOccsG (fun x => x.guid) (fun x => x.Coding)
            source.PlainTextSelection source.Coding base "PlainTextSelection")
      | none => []) ++
     (match sources.PictureSource with
      | some l =>
        flatMapIdx l (fun i source =>
          let base := ctxIdx "Sources.PictureSource" i
          [⟨base, source.guid⟩] ++
          sourceSelectionsGuidOccsG (fun x => x.guid) (fun x => x.Coding)
            source.PictureSelection source.Coding base "PictureSelection")
      | none => []) ++
     (match sources.PDFSource with
      | some l =>
        flatMapIdx l (fun i source =>
          let base := ctxIdx "Sources.PDFSource" i
          [⟨base, source.guid⟩] ++
          sourceSelectionsGuidOccsG (fun x => x.guid) (fun x => x.Coding)
            source.PDFSelection source.Coding base "PDFSelection")
      | none => []) ++
     (match sources.AudioSource with
      | some l =>
        flatMapIdx l (fun i source =>
          let base := ctxIdx "Sources.AudioSource" i
          [⟨base, source.guid⟩] ++
          sourceSelectionsGuidOccsG (fun x => x.guid) (fun x => x.Coding)
            source.AudioSelection source.Coding base "AudioSelection" ++
          transcriptsGuidOccs source.Transcript base)
      | none => []) ++
     (match sources.VideoSource with
      | some l =>
        flatMapIdx l (fun i source =>
          let base := ctxIdx "Sources.VideoSource" i
          [⟨base, source.guid⟩] ++
          sourceSelectionsGuidOccsG (fun x => x.guid) (fun x => x.Coding)
            source.VideoSelection source.Coding base "VideoSelection" ++
          transcriptsGuidOccs source.Transcript base)
      | none => [])
   | none => []) ++
  (match project.Sets with
   | some s => flatMapIdx s.Set (fun i st => [⟨ctxIdx "Sets.Set" i, st.guid⟩])
   | none => []) ++
  (match project.Graphs with
   | some g =>
     flatMapIdx g.Graph (fun i graph =>
       let base := ctxIdx "Graphs.Graph" i
       [⟨base, graph.guid⟩] ++
       (match graph.Vertex with
        | some vs =>
          flatMapIdx vs (fun j vx => [⟨base ++ ".Vertex[" ++ toString j ++ "]", vx.guid⟩])
        | none => []) ++
       (match graph.Edge with
        | some es =>
          flatMapIdx es (fun j e => [⟨base ++ ".Edge[" ++ toString j ++ "]", e.guid⟩])
        | none => []))
   | none => []) ++
  (match project.Links with
   | some l => flatMapIdx l.Link (fun i lk => [⟨ctxIdx "Links.Link" i, lk.guid⟩])
   | none => [])

/-!
Concrete instances used by the counterexamples and witnesses.
-/

/-- A project with every optional field absent and no name. -/
def emptyProject : Project :=
  { Users := none, CodeBook := none, Variables := none, Cases := none,
    Sources := none, Notes := none, Links := none, Sets := none, Graphs := none,
    Description := none, NoteRef := none,
    name := none, origin := none, creatingUserGUID := none,
    creationDateTime := none, modifyingUserGUID := none, modifiedDateTime := none,
    basePath := none }

/-- A text source with only a guid and plain text content. -/
def tsHello : TextSourceType :=
  { Description := none, PlainTextContent := some "hello",
    PlainTextSelection := none, Coding := none, NoteRef := none, VariableValue := none,
    guid := some "11111111-1111-1111-1111-111111111111", name := none,
    richTextPath := none, plainTextPath := none,
    creatingUser := none, creationDateTime := none,
    modifyingUser := none, modifiedDateTime := none }

/-- The round-trip input of the spec's scenario: name "P1" and one text
source with content "hello". -/
def projectScenario : Project :=
  { emptyProject with
    name := some "P1"
    Sources := some
      { TextSource := some [tsHello], PictureSource := none, PDFSource := none,
        AudioSource := none, VideoSource := none } }

/-- A coding whose CodeRef targets an identifier that exists nowhere. -/
def danglingCoding : CodingType :=
  { CodeRef := { targetGUID := some "99999999-9999-9999-9999-999999999999" }
    NoteRef := none
    guid := some "33333333-3333-3333-3333-333333333333"
    creatingUser := none, creationDateTime := none }

/-- A note (text source) carrying the dangling coding. -/
def noteWithDanglingCodeRef : TextSourceType :=
  { tsHello with
    guid := some "22222222-2222-2222-2222-222222222222"
    Coding := some [danglingCoding] }

/-- A project whose only reference field sits inside Notes: its coding's
CodeRef dangles, yet the reference validator never walks Notes. -/
def projectNotesDangling : Project :=
  { emptyProject with
    name := some "P"
    Notes := some { Note := [noteWithDanglingCodeRef] } }

/-- The identifier shared by the two entities of the C5 counterexample. -/
def sharedGuid : String := "44444444-4444-4444-4444-444444444444"

/-- A case with the shared identifier. -/
def caseShared : CaseType :=
  { Description := none, CodeRef := none, VariableValue := none,
    SourceRef := none, SelectionRef := none,
    guid := some sharedGuid, name := some "case one" }

/-- A project in which a Case and a Note share one identifier: the GUID
validator visits the Case but never the Note. -/
def projectDupNoteCase : Project :=
  { emptyProject with
    name := some "P"
    Cases := some { Case := [caseShared] }
    Notes := some { Note := [{ tsHello with guid := some sharedGuid }] } }

/-- The identifier shared by the two users of the C5 witness. -/
def witnessGuid : String := "55555555-5555-5555-5555-555555555555"

/-- A project with two users sharing one identifier (both visited by the
GUID traversal). -/
def projectDupUsers : Project :=
  { emptyProject with
    name := some "P"
    Users := some
      { User := [{ guid := some witnessGuid, name := some "a", id := none },
                 { guid := some witnessGuid, name := some "b", id := none }] } }

/-- Guid of the single picture source used by the export theorems. -/
def picGuid : String := "66666666-6666-6666-6666-666666666666"

/-- A picture source with only a guid and an address. -/
def picSource (pathStr : String) : PictureSourceType :=
  { Description := none, TextDescription := none, PictureSelection := none,
    Coding := none, NoteRef := none, VariableValue := none,
    guid := some picGuid, name := some "pic", path := some pathStr, currentPath := none,
    creatingUser := none, creationDateTime := none,
    modifyingUser := none, modifiedDateTime := none }

/-- A project holding exactly one picture source at the given address. -/
def projectOnePicture (pathStr : String) : Project :=
  { emptyProject with
    name := some "P"
    Sources := some
      { TextSource := none, PictureSource := some [picSource pathStr], PDFSource := none,
        AudioSource := none, VideoSource := none } }

/-- The empty processing state handed to processSourcesForExport. -/
def emptyProcState : ProcState :=
  { sourceFiles := [], sourceInfoList := [], warnings := [], externalSources := [], counter := 0 }

/-- The path of the first picture source of a project, the field the
export pipeline rewrites. -/
def firstPicturePath (p : Project) : Option String :=
  match p.Sources with
  | some s =>
    match s.PictureSource with
    | some (src :: _) => src.path
    | _ => none
  | none => none

/-- A callback that always refuses to continue. -/
def cbFalse : String → String → String → Bool := fun _ _ _ => false

/-- Export options for the missing-source scenario: a refusing callback,
validation disabled, relative sources resolved against /base. -/
def optsMissing : ExportOptionsM :=
  { includeExternalSources := some true, exportBasePath := some "/base",
    maxInternalFileSize := none, validateBeforeExport := some false,
    overwrite := some false, onMissingSource := some cbFalse }

/-- A filesystem with no files at all. -/
def fsEmptyM : FS := fun _ => none

/-- A document whose root Project element has an origin attribute but no
name attribute. -/
def docNoName : XmlElem := XmlElem.elem "Project" [("origin", "x")] [] none

/-- A document root that is not a Project element. -/
def docWrongRoot : XmlElem := XmlElem.elem "NotAProject" [("name", "P")] [] none

/-- A document whose plain text selection carries the malformed
startPosition text "abc". -/
def docBadNumber : XmlElem :=
  XmlElem.elem "Project" [("name", "P")]
    [XmlElem.elem "Sources" []
      [XmlElem.elem "TextSource" [("guid", "11111111-1111-1111-1111-111111111111")]
        [XmlElem.elem "PlainTextContent" [] [] (some "hello"),
         XmlElem.elem "PlainTextSelection"
           [("guid", "22222222-2222-2222-2222-222222222222"),
            ("startPosition", "abc"), ("endPosition", "5")] [] none] none] none] none

/-- The parsed plain text selection observed by claim C9: the first
selection of the first text source. -/
def firstTextSelection (p : Project) : Option PlainTextSelectionType :=
  match p.Sources with
  | some s =>
    match s.TextSource with
    | some (t :: _) =>
      match t.PlainTextSelection with
      | some (sel :: _) => some sel
      | _ => none
    | _ => none
  | none => none

/-- A guid occurrence that checkGuid records without error: present,
non-empty and of valid GUID format. -/
def occWellformed (o : GuidOcc) : Bool :=
  match o.guid with
  | some g => (!(g = "" : Bool)) && isGuidFormat g
  | none => false

/-- The guids carried by an occurrence list. -/
def occsGuids (l : List GuidOcc) : List String := l.filterMap (fun o => o.guid)

/-- Filesystem holding one 1-byte picture file for the C10 scenario. -/
def fsOneByte : FS := fun p => if p = "/base/foo.png" then some ⟨1, 7⟩ else none

/-- Export options passing maxInternalFileSize 0. -/
def optsZeroMax : ExportOptionsM :=
  { includeExternalSources := some true, exportBasePath := some "/base",
    maxInternalFileSize := some 0, validateBeforeExport := some false,
    overwrite := some false, onMissingSource := none }

/-- Deterministic uuid generator used by the export theorems. -/
def genU (n : Nat) : String := "u" ++ toString n

/-- Export options for the size-boundary scenario (maxInternalFileSize m). -/
def c6opts (m : Nat) : ExportOptionsM :=
  { includeExternalSources := some true, exportBasePath := some "/base",
    maxInternalFileSize := some m, validateBeforeExport := some false,
    overwrite := some false, onMissingSource := none }

/-- Filesystem holding one picture file of the given size. -/
def c6fs (sz : Nat) : FS := fun p => if p = "/base/foo.png" then some ⟨sz, 7⟩ else none

/-!
Theorems.
-/

/-- C1: the spec says parse(serialize(p)) is deep-equal to p for any
project built from the canonical model, and the scenario of section 8
demands it for a project named "P1" with one text source saying "hello".
The code violates this: buildQDEFile hands xml2js an object with the two
keys "$" and "Project" under an explicit rootName "Project", producing a
Project element nested inside a Project root, and parseQDEFile reads the
outer root, so the round trip of the scenario project yields a project
with no name and no content at all.  This contradicts the spec and the
library's own stated purpose, so it is a code bug, evaluated here at the
failing input. -/
theorem c1_roundtrip_code_bug :
    parseQDEFileX (buildQDEFileX projectScenario) = Except.ok emptyProject ∧
    emptyProject.name = none ∧ projectScenario.name = some "P1" ∧
    parseQDEFileX (buildQDEFileX projectScenario) ≠ Except.ok projectScenario := by
  refine ⟨rfl, rfl, rfl, fun h => ?_⟩
  have h0 : Except.ok (ε := String) emptyProject = Except.ok projectScenario :=
    (show parseQDEFileX (buildQDEFileX projectScenario) = Except.ok emptyProject from rfl).symm.trans h
  have h2 : emptyProject = projectScenario := Except.ok.inj h0
  have h3 := congrArg Project.name h2
  simp [emptyProject, projectScenario] at h3

/-- Helper for C7: two distinct prefixes of the same length cannot both be
prefixes of one string. -/
theorem take11_unique {s : String} {p q : List Char}
    (hp : s.data.take 11 = p) (hq : s.data.take 11 = q) : p = q := by
  rw [← hp, ← hq]

/-- C7: address classification is total and exclusive.  For every string,
getSourceType yields internal exactly on the internal:// prefix, absolute
exactly on the absolute:// prefix, relative in every other case (including
the relative:// prefix and every unprefixed string), and always one of the
three. -/
theorem c7_classification_total (s : String) :
    (getSourceType s = "internal" ↔ jsStartsWith s "internal://" = true) ∧
    (getSourceType s = "absolute" ↔ jsStartsWith s "absolute://" = true) ∧
    (getSourceType s = "relative" ↔
      (jsStartsWith s "internal://" = false ∧ jsStartsWith s "absolute://" = false)) ∧
    (getSourceType s = "internal" ∨ getSourceType s = "relative" ∨ getSourceType s = "absolute") := by
  have hlen : ("internal://".data.length = 11 ∧ "relative://".data.length = 11 ∧
      "absolute://".data.length = 11) := by decide
  have excl : ∀ p q : String, p.data.length = 11 → q.data.length = 11 → p.data ≠ q.data →
      jsStartsWith s p = true → jsStartsWith s q = true → False := by
    intro p q hp hq hne h1 h2
    simp only [jsStartsWith, hp, hq, beq_iff_eq] at h1 h2
    exact hne (take11_unique h1 h2)
  unfold getSourceType
  by_cases hI : jsStartsWith s "internal://" = true
  · have hA : jsStartsWith s "absolute://" = false := by
      by_contra hc
      simp only [Bool.not_eq_false] at hc
      exact excl _ _ hlen.1 hlen.2.2 (by decide) hI hc
    refine ⟨?_, ?_, ?_, ?_⟩ <;> simp [hI, hA]
  · have hI' : jsStartsWith s "internal://" = false := by
      simpa using hI
    by_cases hR : jsStartsWith s "relative://" = true
    · have hA : jsStartsWith s "absolute://" = false := by
        by_contra hc
        simp only [Bool.not_eq_false] at hc
        exact excl _ _ hlen.2.1 hlen.2.2 (by decide) hR hc
      refine ⟨?_, ?_, ?_, ?_⟩ <;> simp [hI', hR, hA]
    · have hR' : jsStartsWith s "relative://" = false := by simpa using hR
      by_cases hA : jsStartsWith s "absolute://" = true
      · refine ⟨?_, ?_, ?_, ?_⟩ <;> simp [hI', hR', hA]
      · have hA' : jsStartsWith s "absolute://" = false := by simpa using hA
        refine ⟨?_, ?_, ?_, ?_⟩ <;> simp [hI', hR', hA']

/-- Witness for C7 at concrete addresses of all three schemes and an
unprefixed one. -/
theorem c7_classification_total_witness :
    getSourceType "internal://a.png" = "internal" ∧
    getSourceType "absolute:///c/a.png" = "absolute" ∧
    getSourceType "relative:///a.png" = "relative" ∧
    getSourceType "plain/path.png" = "relative" :=
  ⟨(c7_classification_total "internal://a.png").1.mpr (by decide),
   (c7_classification_total "absolute:///c/a.png").2.1.mpr (by decide),
   (c7_classification_total "relative:///a.png").2.2.1.mpr (by decide),
   (c7_classification_total "plain/path.png").2.2.1.mpr (by decide)⟩

/-- C8 counterexample: a document whose Project root is present but whose
required name attribute is missing parses successfully (to a project with
an undefined name) instead of failing with a malformed-document error, so
"fails precisely when ... a required attribute is missing" is false on the
code. -/
theorem c8_counterexample_missing_name :
    parseQDEFileX docNoName = Except.ok { emptyProject with origin := some "x" } := by
  rfl

/-- A successful Except bind factors through a successful first step. -/
theorem except_bind_ok {α β ε : Type} {a : Except ε α} {f : α → Except ε β} {b : β}
    (h : a.bind f = Except.ok b) : ∃ v, a = Except.ok v ∧ f v = Except.ok b := by
  cases a with
  | error e => simp [Except.bind] at h
  | ok v => exact ⟨v, rfl, h⟩

/-- On any successful conversion the project name is the root element's
name attribute taken verbatim; its absence does not make conversion fail. -/
theorem convertXmlToProject_name (x : JVal) (pr : Project)
    (h : convertXmlToProject x = Except.ok pr) : pr.name = jsStrProp x "name" := by
  unfold convertXmlToProject at h
  simp only [Bind.bind, Pure.pure, Except.pure] at h
  split at h
  case _ a0 ha0 =>
    obtain ⟨_, _, h⟩ := except_bind_ok h
    obtain ⟨_, _, h⟩ := except_bind_ok h
    split at h
    case _ a1 ha1 =>
      obtain ⟨_, _, h⟩ := except_bind_ok h
      split at h
      case _ a2 ha2 =>
        obtain ⟨_, _, h⟩ := except_bind_ok h
        split at h
        case _ a3 ha3 =>
          obtain ⟨_, _, h⟩ := except_bind_ok h
          exact (congrArg Project.name (Except.ok.inj h)).symm
        case _ hb3 =>
          obtain ⟨_, _, h⟩ := except_bind_ok h
          exact (congrArg Project.name (Except.ok.inj h)).symm
      case _ hb2 =>
        obtain ⟨_, _, h⟩ := except_bind_ok h
        split at h
        case _ a3 ha3 =>
          obtain ⟨_, _, h⟩ := except_bind_ok h
          exact (congrArg Project.name (Except.ok.inj h)).symm
        case _ hb3 =>
          obtain ⟨_, _, h⟩ := except_bind_ok h
          exact (congrArg Project.name (Except.ok.inj h)).symm
    case _ hb1 =>
      obtain ⟨_, _, h⟩ := except_bind_ok h
      split at h
      case _ a2 ha2 =>
        obtain ⟨_, _, h⟩ := except_bind_ok h
        split at h
        case _ a3 ha3 =>
          obtain ⟨_, _, h⟩ := except_bind_ok h
          exact (congrArg Project.name (Except.ok.inj h)).symm
        case _ hb3 =>
          obtain ⟨_, _, h⟩ := except_bind_ok h
          exact (congrArg Project.name (Except.ok.inj h)).symm
      case _ hb2 =>
        obtain ⟨_, _, h⟩ := except_bind_ok h
        split at h
        case _ a3 ha3 =>
          obtain ⟨_, _, h⟩ := except_bind_ok h
          exact (congrArg Project.name (Except.ok.inj h)).symm
        case _ hb3 =>
          obtain ⟨_, _, h⟩ := except_bind_ok h
          exact (congrArg Project.name (Except.ok.inj h)).symm
  case _ hb0 =>
    obtain ⟨_, _, h⟩ := except_bind_ok h
    split at h
    case _ a1 ha1 =>
      obtain ⟨_, _, h⟩ := except_bind_ok h
      split at h
      case _ a2 ha2 =>
        obtain ⟨_, _, h⟩ := except_bind_ok h
        split at h
        case _ a3 ha3 =>
          obtain ⟨_, _, h⟩ := except_bind_ok h
          exact (congrArg Project.name (Except.ok.inj h)).symm
        case _ hb3 =>
          obtain ⟨_, _, h⟩ := except_bind_ok h
          exact (congrArg Project.name (Except.ok.inj h)).symm
      case _ hb2 =>
        obtain ⟨_, _, h⟩ := except_bind_ok h
        split at h
        case _ a3 ha3 =>
          obtain ⟨_, _, h⟩ := except_bind_ok h
          exact (congrArg Project.name (Except.ok.inj h)).symm
        case _ hb3 =>
          obtain ⟨_, _, h⟩ := except_bind_ok h
          exact (congrArg Project.name (Except.ok.inj h)).symm
    case _ hb1 =>
      obtain ⟨_, _, h⟩ := except_bind_ok h
      split at h
      case _ a2 ha2 =>
        obtain ⟨_, _, h⟩ := except_bind_ok h
        split at h
        case _ a3 ha3 =>
          obtain ⟨_, _, h⟩ := except_bind_ok h
          exact (congrArg Project.name (Except.ok.inj h)).symm
        case _ hb3 =>
          obtain ⟨_, _, h⟩ := except_bind_ok h
          exact (congrArg Project.name (Except.ok.inj h)).symm
      case _ hb2 =>
        obtain ⟨_, _, h⟩ := except_bind_ok h
        split at h
        case _ a3 ha3 =>
          obtain ⟨_, _, h⟩ := except_bind_ok h
          exact (congrArg Project.name (Except.ok.inj h)).symm
        case _ hb3 =>
          obtain ⟨_, _, h⟩ := except_bind_ok h
          exact (congrArg Project.name (Except.ok.inj h)).symm

/-- C8 (amended): parseQDEFile fails when the document's root Project
element is absent; a missing required attribute such as the project name
does not cause a failure — conversion succeeds and leaves the attribute
undefined, copying whatever name attribute the root carries. -/
theorem c8_parse_failure_amended (doc : XmlElem) :
    (doc.name ≠ "Project" → ∃ e, parseQDEFileX doc = Except.error e) ∧
    (∀ pr, parseQDEFileX doc = Except.ok pr →
      pr.name = asStrO (jsGet (parseElem doc) "name")) := by
  constructor
  · intro hne
    refine ⟨"Invalid QDE file: <Project> element not found", ?_⟩
    unfold parseQDEFileX parseStringModel
    simp [jsGet, List.find?, hne]
  · intro pr h
    by_cases hn : doc.name = "Project"
    · have hv : jsGet (parseStringModel doc) "Project" = some (parseElem doc) := by
        unfold parseStringModel
        simp [jsGet, List.find?, hn]
      unfold parseQDEFileX at h
      simp only [hv] at h
      by_cases ht : jsTruthy (parseElem doc) = true
      · rw [if_pos ht] at h
        cases hc : convertXmlToProject (parseElem doc) with
        | error e => rw [hc] at h; simp [Except.mapError] at h
        | ok pr' =>
          rw [hc] at h
          simp only [Except.mapError] at h
          cases h
          exact convertXmlToProject_name _ _ hc
      · rw [if_neg ht] at h
        exact absurd h (by simp)
    · have hv : jsGet (parseStringModel doc) "Project" = none := by
        unfold parseStringModel
        simp [jsGet, List.find?, hn]
      unfold parseQDEFileX at h
      simp only [hv] at h
      exact absurd h (by simp)

/-- Witness for C8: the missing-root half at a non-Project root, the
success half at the root missing its name attribute. -/
theorem c8_parse_failure_amended_witness :
    (∃ e, parseQDEFileX docWrongRoot = Except.error e) ∧
    ({ emptyProject with origin := some "x" } : Project).name =
      asStrO (jsGet (parseElem docNoName) "name") :=
  ⟨(c8_parse_failure_amended docWrongRoot).1 (by decide),
   (c8_parse_failure_amended docNoName).2 _ rfl⟩

/-- C9 counterexample: the document whose startPosition attribute carries
the malformed text "abc" parses without any error, and the selection's
startPosition is silently NaN — no coercion error is surfaced, and the
NaN does not come from an absent field. -/
theorem c9_counterexample_nan :
    (match parseQDEFileX docBadNumber with
     | Except.ok pr => (firstTextSelection pr).map (fun s => (s.startPosition, s.endPosition))
     | Except.error _ => none) = some (JSNum.nan, JSNum.int 5) := by
  rfl

/-- C9 (amended): malformed numeric text is coerced silently.  parseInt
yields NaN on any text without leading digits, and converting a plain text
selection whose startPosition attribute holds such text succeeds (no
error is thrown) with startPosition NaN. -/
theorem c9_numeric_coercion_amended (s g : String) (hs : parseIntStr s = JSNum.nan) :
    convertPlainTextSelections
        (some (JVal.jobj [("guid", JVal.jstr g), ("startPosition", JVal.jstr s)])) =
      Except.ok
        [{ Description := none, Coding := none, NoteRef := none,
           guid := some g, name := none,
           startPosition := JSNum.nan, endPosition := JSNum.nan,
           creatingUser := none, creationDateTime := none,
           modifyingUser := none, modifiedDateTime := none }] := by
  unfold convertPlainTextSelections
  simp [jsTruthy, jsAsArray, jsGetT, jsGet, List.find?, jsStrProp, jsStrPropIf,
        asStrO, asStr, parseIntJV, jsToStr, List.mapM, List.mapM.loop,
        Bind.bind, Pure.pure, Except.pure, Except.bind, hs]

/-- Witness for C9 at the malformed text "abc". -/
theorem c9_numeric_coercion_amended_witness :
    parseIntStr "abc" = JSNum.nan ∧
    convertPlainTextSelections
        (some (JVal.jobj [("guid", JVal.jstr "g1"), ("startPosition", JVal.jstr "abc")])) =
      Except.ok
        [{ Description := none, Coding := none, NoteRef := none,
           guid := some "g1", name := none,
           startPosition := JSNum.nan, endPosition := JSNum.nan,
           creatingUser := none, creationDateTime := none,
           modifyingUser := none, modifiedDateTime := none }] :=
  ⟨by decide, c9_numeric_coercion_amended "abc" "g1" (by decide)⟩

/-!
Refinement lemmas for claim C4: validateProjectReferences is filterMap of
refIssue over the reference-field enumeration.
-/

/-- filterMap distributes over flatMap. -/
theorem filterMap_flatMap0 {a b c : Type} (l : List a) (g : a → List b) (f : b → Option c) :
    (l.flatMap g).filterMap f = l.flatMap (fun x => (g x).filterMap f) := by
  induction l with
  | nil => rfl
  | cons x t ih => simp [List.flatMap_cons, List.filterMap_append, ih]

/-- filterMap distributes over flatMapIdx. -/
theorem filterMap_flatMapIdx {a b c : Type} (l : List a) (f : Nat → a → List b)
    (g : b → Option c) :
    (flatMapIdx l f).filterMap g = flatMapIdx l (fun i x => (f i x).filterMap g) := by
  unfold flatMapIdx
  rw [filterMap_flatMap0]

/-- flatMapIdx is pointwise congruent. -/
theorem flatMapIdx_congr {a b : Type} (l : List a) (f g : Nat → a → List b)
    (h : ∀ i x, f i x = g i x) : flatMapIdx l f = flatMapIdx l g :=
  congrArg (flatMapIdx l) (funext fun i => funext fun x => h i x)

/-- filterMap on a one-element list is the verdict's toList. -/
theorem filterMap_one {a b : Type} (f : a → Option b) (x : a) :
    List.filterMap f [x] = (f x).toList := by
  cases h : f x <;> simp [List.filterMap_cons, h]

/-- checkReference is the toList of the refIssue verdict. -/
theorem checkReference_eq (guids : List String) (t : Option String) (ctx : String) :
    checkReference guids t ctx = (refIssue guids ⟨ctx, t⟩).toList := by
  cases t with
  | none => rfl
  | some g =>
    simp only [checkReference, refIssue]
    by_cases h1 : g = ""
    · simp [h1]
    · by_cases h2 : g ∈ guids <;> simp [h1, h2]

/-- checkNoteRefs refines to filterMap over noteRefOccs. -/
theorem checkNoteRefs_eq (guids : List String) (nrs : Option (List NoteRefType)) (ctx : String) :
    checkNoteRefs guids nrs ctx = (noteRefOccs nrs ctx).filterMap (refIssue guids) := by
  cases nrs with
  | none => rfl
  | some l =>
    simp only [checkNoteRefs, noteRefOccs, filterMap_flatMapIdx]
    exact flatMapIdx_congr _ _ _ fun i x => by
      rw [filterMap_one, checkReference_eq]

/-- checkCodeRefs refines to filterMap over codeRefOccs. -/
theorem checkCodeRefs_eq (guids : List String) (crs : Option (List CodeRefType)) (ctx : String) :
    checkCodeRefs guids crs ctx = (codeRefOccs crs ctx).filterMap (refIssue guids) := by
  cases crs with
  | none => rfl
  | some l =>
    simp only [checkCodeRefs, codeRefOccs, filterMap_flatMapIdx]
    exact flatMapIdx_congr _ _ _ fun i x => by
      rw [filterMap_one, checkReference_eq]

/-- checkSourceRefs refines to filterMap over sourceRefOccs. -/
theorem checkSourceRefs_eq (guids : List String) (srs : Option (List SourceRefType))
    (ctx : String) :
    checkSourceRefs guids srs ctx = (sourceRefOccs srs ctx).filterMap (refIssue guids) := by
  cases srs with
  | none => rfl
  | some l =>
    simp only [checkSourceRefs, sourceRefOccs, filterMap_flatMapIdx]
    exact flatMapIdx_congr _ _ _ fun i x => by
      rw [filterMap_one, checkReference_eq]

/-- checkSelectionRefs refines to filterMap over selectionRefOccs. -/
theorem checkSelectionRefs_eq (guids : List String) (srs : Option (List SelectionRefType))
    (ctx : String) :
    checkSelectionRefs guids srs ctx = (selectionRefOccs srs ctx).filterMap (refIssue guids) := by
  cases srs with
  | none => rfl
  | some l =>
    simp only [checkSelectionRefs, selectionRefOccs, filterMap_flatMapIdx]
    exact flatMapIdx_congr _ _ _ fun i x => by
      rw [filterMap_one, checkReference_eq]

/-- checkVariableRefs refines to filterMap over variableRefOccs. -/
theorem checkVariableRefs_eq (guids : List String) (vr : Option VariableRefType) (ctx : String) :
    checkVariableRefs guids vr ctx = (variableRefOccs vr ctx).filterMap (refIssue guids) := by
  cases vr with
  | none => rfl
  | some v =>
    simp only [checkVariableRefs, variableRefOccs, filterMap_one]
    exact checkReference_eq _ _ _

/-- Size-bounded form of the code NoteRef walk refinement. -/
theorem checkCodeNoteRefsIdx_eq_aux (n : Nat) :
    ∀ codes : List CodeType, sizeOf codes ≤ n → ∀ guids path i,
      checkCodeNoteRefsIdx guids codes path i =
        (codeNoteRefOccsIdx codes path i).filterMap (refIssue guids) := by
  induction n with
  | zero =>
    intro codes h
    exfalso
    cases codes <;> simp at h
  | succ n ih =>
    intro codes h guids path i
    cases codes with
    | nil => simp [checkCodeNoteRefsIdx, codeNoteRefOccsIdx]
    | cons c rest =>
      cases c with
      | mk a nr cc b d e f =>
        have hrest : sizeOf rest ≤ n := by
          simp at h
          omega
        have hcc : ∀ l, cc = some l → sizeOf l ≤ n := by
          intro l hl
          subst hl
          simp at h
          omega
        rw [checkCodeNoteRefsIdx.eq_def, codeNoteRefOccsIdx.eq_def]
        simp only [List.filterMap_append]
        rw [ih rest hrest guids path (i + 1)]
        congr 1
        congr 1
        · cases nr with
          | none => rfl
          | some l => exact checkNoteRefs_eq guids (some l) (ctxIdx path i ++ ".NoteRef")
        · cases cc with
          | none => rfl
          | some l =>
            simp only [checkCodeNoteRefs, codeNoteRefOccs]
            exact ih l (hcc l rfl) guids (ctxIdx path i ++ ".Code") 0

/-- The code NoteRef walk refines to filterMap over its occurrences. -/
theorem checkCodeNoteRefs_eq (guids : List String) (codes : List CodeType) (path : String) :
    checkCodeNoteRefs guids codes path =
      (codeNoteRefOccs codes path).filterMap (refIssue guids) := by
  simp only [checkCodeNoteRefs, codeNoteRefOccs]
  exact checkCodeNoteRefsIdx_eq_aux (sizeOf codes) codes (Nat.le_refl _) guids path 0

/-- Helper: verdicts of one coding occurrence group. -/
theorem codingGroup_eq (guids : List String) (coding0 : CodingType) (codingPath : String) :
    checkCodeRefs guids (some [coding0.CodeRef]) (codingPath ++ ".CodeRef") ++
      (match coding0.NoteRef with
       | some l => checkNoteRefs guids (some l) (codingPath ++ ".NoteRef")
       | none => []) =
    (codeRefOccs (some [coding0.CodeRef]) (codingPath ++ ".CodeRef") ++
      (match coding0.NoteRef with
       | some l => noteRefOccs (some l) (codingPath ++ ".NoteRef")
       | none => [])).filterMap (refIssue guids) := by
  rw [List.filterMap_append, checkCodeRefs_eq]
  congr 1
  cases coding0.NoteRef with
  | none => rfl
  | some l => exact checkNoteRefs_eq guids (some l) (codingPath ++ ".NoteRef")

/-- The per-source reference pass refines to filterMap over its occurrences. -/
theorem checkSourceReferencesG_eq (guids : List String) (nr : Option (List NoteRefType))
    (cod : Option (List CodingType)) (vv : Option (List VariableValueType)) (path : String) :
    checkSourceReferencesG guids nr cod vv path =
      (sourceRefsOccsG nr cod vv path).filterMap (refIssue guids) := by
  simp only [checkSourceReferencesG, sourceRefsOccsG, List.filterMap_append]
  congr 1
  congr 1
  · cases nr with
    | none => rfl
    | some l => exact checkNoteRefs_eq guids (some l) (path ++ ".NoteRef")
  · cases cod with
    | none => rfl
    | some cods =>
      rw [filterMap_flatMapIdx]
      exact flatMapIdx_congr _ _ _ fun i c =>
        codingGroup_eq guids c (path ++ ".Coding[" ++ toString i ++ "]")
  · cases vv with
    | none => rfl
    | some l =>
      rw [filterMap_flatMapIdx]
      exact flatMapIdx_congr _ _ _ fun i v =>
        checkVariableRefs_eq guids (some v.VariableRef)
          (path ++ ".VariableValue[" ++ toString i ++ "].VariableRef")

/-- The per-selection reference pass refines to filterMap over its
occurrences. -/
theorem checkSelectionReferencesG_eq {s0 : Type} (selNoteRef : s0 → Option (List NoteRefType))
    (selCoding : s0 → Option (List CodingType)) (guids : List String)
    (sels : Option (List s0)) (path selTy : String) :
    checkSelectionReferencesG selNoteRef selCoding guids sels path selTy =
      (selectionRefsOccsG selNoteRef selCoding sels path selTy).filterMap (refIssue guids) := by
  cases sels with
  | none => rfl
  | some l =>
    simp only [checkSelectionReferencesG, selectionRefsOccsG, filterMap_flatMapIdx]
    refine flatMapIdx_congr _ _ _ fun i sel => ?_
    rw [List.filterMap_append]
    congr 1
    · cases selNoteRef sel with
      | none => rfl
      | some nrs =>
        exact checkNoteRefs_eq guids (some nrs)
          (path ++ "." ++ selTy ++ "[" ++ toString i ++ "]" ++ ".NoteRef")
    · cases selCoding sel with
      | none => rfl
      | some cods =>
        rw [filterMap_flatMapIdx]
        exact flatMapIdx_congr _ _ _ fun j c =>
          codingGroup_eq guids c
            (path ++ "." ++ selTy ++ "[" ++ toString i ++ "]" ++ ".Coding[" ++ toString j ++ "]")

/-- The transcript reference pass refines to filterMap over its
occurrences. -/
theorem checkTranscriptReferences_eq (guids : List String)
    (trs : Option (List TranscriptType)) (path : String) :
    checkTranscriptReferences guids trs path =
      (transcriptRefsOccs trs path).filterMap (refIssue guids) := by
  cases trs with
  | none => rfl
  | some l =>
    simp only [checkTranscriptReferences, transcriptRefsOccs, filterMap_flatMapIdx]
    refine flatMapIdx_congr _ _ _ fun i tr => ?_
    rw [List.filterMap_append]
    congr 1
    · cases tr.NoteRef with
      | none => rfl
      | some nrs =>
        exact checkNoteRefs_eq guids (some nrs)
          (path ++ ".Transcript[" ++ toString i ++ "]" ++ ".NoteRef")
    · cases tr.TranscriptSelection with
      | none => rfl
      | some tss =>
        rw [filterMap_flatMapIdx]
        refine flatMapIdx_congr _ _ _ fun j sel => ?_
        simp only [List.filterMap_append]
        congr 1
        congr 1
        congr 1
        · by_cases hf : truthyStr sel.fromSyncPoint = true
          · rw [if_pos hf, if_pos hf, filterMap_one, checkReference_eq]
          · rw [if_neg hf, if_neg hf]
            rfl
        · by_cases ht : truthyStr sel.toSyncPoint = true
          · rw [if_pos ht, if_pos ht, filterMap_one, checkReference_eq]
          · rw [if_neg ht, if_neg ht]
            rfl
        · cases sel.NoteRef with
          | none => rfl
          | some nrs =>
            exact checkNoteRefs_eq guids (some nrs)
              (path ++ ".Transcript[" ++ toString i ++ "]" ++ ".TranscriptSelection[" ++
                toString j ++ "]" ++ ".NoteRef")
        · cases sel.Coding with
          | none => rfl
          | some cods =>
            rw [filterMap_flatMapIdx]
            exact flatMapIdx_congr _ _ _ fun k c =>
              codingGroup_eq guids c
                (path ++ ".Transcript[" ++ toString i ++ "]" ++ ".TranscriptSelection[" ++
                  toString j ++ "]" ++ ".Coding[" ++ toString k ++ "]")

/-- Helper: a guarded single occurrence refines to filterMap. -/
theorem guardedRef_eq (guids : List String) (cond : Bool) (t : Option String) (ctx : String) :
    (if cond then checkReference guids t ctx else []) =
      (if cond then [(⟨ctx, t⟩ : RefOcc)] else []).filterMap (refIssue guids) := by
  by_cases h : cond = true
  · rw [if_pos h, if_pos h, filterMap_one, checkReference_eq]
  · rw [if_neg h, if_neg h]
    rfl

/-- The reference validator is exactly filterMap of the per-occurrence
verdict over the reference-field enumeration. -/
theorem validateProjectReferences_eq (p : Project) :
    validateProjectReferences p =
      (referenceFieldOccurrences p).filterMap (refIssue (guidsOfProject p)) := by
  simp only [validateProjectReferences, referenceFieldOccurrences, List.filterMap_append]
  congr 1
  congr 1
  congr 1
  congr 1
  congr 1
  congr 1
  · cases p.NoteRef with
    | none => rfl
    | some nr => exact checkNoteRefs_eq _ (some nr) _
  · cases p.CodeBook with
    | none => rfl
    | some cb => exact checkCodeNoteRefs_eq _ cb.Codes.Code _
  · cases p.Cases with
    | none => rfl
    | some c =>
      rw [filterMap_flatMapIdx]
      refine flatMapIdx_congr _ _ _ fun i caseItem => ?_
      simp only [List.filterMap_append]
      congr 1
      congr 1
      congr 1
      · cases caseItem.CodeRef with
        | none => rfl
        | some l => exact checkCodeRefs_eq _ (some l) _
      · cases caseItem.VariableValue with
        | none => rfl
        | some l =>
          rw [filterMap_flatMapIdx]
          exact flatMapIdx_congr _ _ _ fun j v => checkVariableRefs_eq _ (some v.VariableRef) _
      · cases caseItem.SourceRef with
        | none => rfl
        | some l => exact checkSourceRefs_eq _ (some l) _
      · cases caseItem.SelectionRef with
        | none => rfl
        | some l => exact checkSelectionRefs_eq _ (some l) _
  · cases p.Sources with
    | none => rfl
    | some sources =>
      simp only [List.filterMap_append]
      congr 1
      congr 1
      congr 1
      congr 1
      · cases sources.TextSource with
        | none => rfl
        | some l =>
          rw [filterMap_flatMapIdx]
          refine flatMapIdx_congr _ _ _ fun i source => ?_
          rw [List.filterMap_append, checkSourceReferencesG_eq, checkSelectionReferencesG_eq]
      · cases sources.PictureSource with
        | none => rfl
        | some l =>
          rw [filterMap_flatMapIdx]
          refine flatMapIdx_congr _ _ _ fun i source => ?_
          rw [List.filterMap_append, checkSourceReferencesG_eq, checkSelectionReferencesG_eq]
      · cases sources.PDFSource with
        | none => rfl
        | some l =>
          rw [filterMap_flatMapIdx]
          refine flatMapIdx_congr _ _ _ fun i source => ?_
          rw [List.filterMap_append, checkSourceReferencesG_eq, checkSelectionReferencesG_eq]
      · cases sources.AudioSource with
        | none => rfl
        | some l =>
          rw [filterMap_flatMapIdx]
          refine flatMapIdx_congr _ _ _ fun i source => ?_
          simp only [List.filterMap_append]
          rw [checkSourceReferencesG_eq, checkSelectionReferencesG_eq,
              checkTranscriptReferences_eq]
      · cases sources.VideoSource with
        | none => rfl
        | some l =>
          rw [filterMap_flatMapIdx]
          refine flatMapIdx_congr _ _ _ fun i source => ?_
          simp only [List.filterMap_append]
          rw [checkSourceReferencesG_eq, checkSelectionReferencesG_eq,
              checkTranscriptReferences_eq]
  · cases p.Sets with
    | none => rfl
    | some st =>
      rw [filterMap_flatMapIdx]
      refine flatMapIdx_congr _ _ _ fun i set => ?_
      simp only [List.filterMap_append]
      congr 1
      congr 1
      · cases set.MemberCode with
        | none => rfl
        | some l => exact checkCodeRefs_eq _ (some l) _
      · cases set.MemberSource with
        | none => rfl
        | some l => exact checkSourceRefs_eq _ (some l) _
      · cases set.MemberNote with
        | none => rfl
        | some l => exact checkNoteRefs_eq _ (some l) _
  · cases p.Links with
    | none => rfl
    | some lk =>
      rw [filterMap_flatMapIdx]
      refine flatMapIdx_congr _ _ _ fun i link => ?_
      simp only [List.filterMap_append]
      congr 1
      congr 1
      · exact guardedRef_eq _ _ _ _
      · exact guardedRef_eq _ _ _ _
      · cases link.NoteRef with
        | none => rfl
        | some nr => exact checkNoteRefs_eq _ (some nr) _
  · cases p.Graphs with
    | none => rfl
    | some g =>
      rw [filterMap_flatMapIdx]
      refine flatMapIdx_congr _ _ _ fun i graph => ?_
      simp only [List.filterMap_append]
      congr 1
      · cases graph.Vertex with
        | none => rfl
        | some vs =>
          rw [filterMap_flatMapIdx]
          refine flatMapIdx_congr _ _ _ fun j vertex => ?_
          by_cases h : truthyStr vertex.representedGUID = true
          · rw [if_pos h, if_pos h, filterMap_one, checkReference_eq]
          · rw [if_neg h, if_neg h]
            rfl
      · cases graph.Edge with
        | none => rfl
        | some es =>
          rw [filterMap_flatMapIdx]
          refine flatMapIdx_congr _ _ _ fun j edge => ?_
          simp only [List.filterMap_append]
          congr 1
          congr 1
          · exact guardedRef_eq _ _ _ _
          · exact guardedRef_eq _ _ _ _
          · exact guardedRef_eq _ _ _ _

/-- C4 counterexample: a project whose only reference field sits inside
Notes (a note's coding CodeRef) with a target GUID that no entity carries.
The reference validator reports nothing, because the traversal never walks
Notes — refuting "for every reference field anywhere in it ... reference
validation reports exactly one dangling-reference issue". -/
theorem c4_counterexample_notes_skipped :
    validateProjectReferences projectNotesDangling = [] ∧
    projectNotesDangling.Notes = some { Note := [noteWithDanglingCodeRef] } ∧
    noteWithDanglingCodeRef.Coding = some [danglingCoding] ∧
    danglingCoding.CodeRef.targetGUID = some "99999999-9999-9999-9999-999999999999" ∧
    (guidsOfProject projectNotesDangling).contains
      "99999999-9999-9999-9999-999999999999" = false := by
  refine ⟨rfl, rfl, rfl, rfl, ?_⟩
  decide

/-- C4 (amended): the reference validator is filterMap of the
per-occurrence verdict over the fields its traversal actually visits
(referenceFieldOccurrences — which excludes Notes and the text sources
nested in picture descriptions and PDF representations), and on those
fields a non-empty target yields no issue exactly when it occurs among the
collected identifiers, else exactly one issue. -/
theorem c4_reference_validation_amended (p : Project) :
    validateProjectReferences p =
      (referenceFieldOccurrences p).filterMap (refIssue (guidsOfProject p)) ∧
    ∀ occ g, occ.target = some g → g ≠ "" →
      (refIssue (guidsOfProject p) occ = none ↔
        (guidsOfProject p).contains g = true) := by
  refine ⟨validateProjectReferences_eq p, ?_⟩
  intro occ g hocc hg
  simp only [refIssue, hocc, if_neg hg]
  by_cases hc : (guidsOfProject p).contains g = true
  · simp [hc]
  · simp [hc]

/-!
Refinement lemmas for claim C5: validateProjectGUIDs is the error component
of guidFold over the guid-occurrence enumeration.
-/

/-- guidFold splits over append. -/
theorem guidFold_append (st : GuidState) (a b : List GuidOcc) :
    guidFold st (a ++ b) = guidFold (guidFold st a) b := by
  unfold guidFold
  exact List.foldl_append _ _ _ _

/-- A foldl whose body refines to guidFold refines to guidFold of the
flatMap. -/
theorem foldl_guidFold {a : Type} (ps : List a) (F : GuidState → a → GuidState)
    (G : a → List GuidOcc) (h : ∀ s x, F s x = guidFold s (G x)) :
    ∀ st : GuidState, ps.foldl F st = guidFold st (ps.flatMap G) := by
  induction ps with
  | nil => intro st; rfl
  | cons x t ih =>
    intro st
    rw [List.foldl_cons, List.flatMap_cons, guidFold_append, h, ih]

/-- An eachIdx loop whose body refines to guidFold refines to guidFold of
the flatMapIdx. -/
theorem eachIdx_guidFold {a : Type} (l : List a) (st : GuidState)
    (f : GuidState → Nat → a → GuidState) (g : Nat → a → List GuidOcc)
    (h : ∀ s i x, f s i x = guidFold s (g i x)) :
    eachIdx l st f = guidFold st (flatMapIdx l g) := by
  unfold eachIdx flatMapIdx
  exact foldl_guidFold l.enum _ _ (fun s p => h s p.1 p.2) st

/-- The coding guid loop refines to guidFold. -/
theorem checkCodingsGuids_eq (st : GuidState) (cods : List CodingType) (path : String) :
    checkCodingsGuids st cods path = guidFold st (codingsGuidOccs cods path) := by
  unfold checkCodingsGuids codingsGuidOccs
  exact eachIdx_guidFold _ _ _ _ (fun s i c => rfl)

/-- Size-bounded form of the code guid walk refinement. -/
theorem checkCodesGuidsIdx_eq_aux (n : Nat) :
    ∀ codes : List CodeType, sizeOf codes ≤ n → ∀ st path i,
      checkCodesGuidsIdx st codes path i = guidFold st (codesGuidOccsIdx codes path i) := by
  induction n with
  | zero =>
    intro codes h
    exfalso
    cases codes <;> simp at h
  | succ n ih =>
    intro codes h st path i
    cases codes with
    | nil =>
      rw [checkCodesGuidsIdx.eq_def, codesGuidOccsIdx.eq_def]
      rfl
    | cons c rest =>
      cases c with
      | mk a nr cc g d e f =>
        have hrest : sizeOf rest ≤ n := by
          simp at h
          omega
        have hcc : ∀ l, cc = some l → sizeOf l ≤ n := by
          intro l hl
          subst hl
          simp at h
          omega
        rw [checkCodesGuidsIdx.eq_def, codesGuidOccsIdx.eq_def]
        simp only [guidFold_append]
        rw [ih rest hrest _ path (i + 1)]
        congr 1
        cases cc with
        | none => rfl
        | some l =>
          simp only [checkCodesGuids, codesGuidOccs]
          rw [ih l (hcc l rfl) _ (ctxIdx path i ++ ".Code") 0]
          rfl

/-- The code guid walk refines to guidFold. -/
theorem checkCodesGuids_eq (st : GuidState) (codes : List CodeType) (path : String) :
    checkCodesGuids st codes path = guidFold st (codesGuidOccs codes path) := by
  simp only [checkCodesGuids, codesGuidOccs]
  exact checkCodesGuidsIdx_eq_aux (sizeOf codes) codes (Nat.le_refl _) st path 0

/-- The selection guid pass refines to guidFold. -/
theorem checkSourceSelectionsG_eq {s0 : Type} (selGuid : s0 → Option String)
    (selCoding : s0 → Option (List CodingType)) (st : GuidState)
    (sels : Option (List s0)) (srcCoding : Option (List CodingType))
    (base selTy : String) :
    checkSourceSelectionsG selGuid selCoding st sels srcCoding base selTy =
      guidFold st (sourceSelectionsGuidOccsG selGuid selCoding sels srcCoding base selTy) := by
  unfold checkSourceSelectionsG sourceSelectionsGuidOccsG
  rw [guidFold_append]
  have h1 : (match sels with
      | some l =>
        eachIdx l st (fun s i sel =>
          let selCtx := base ++ "." ++ selTy ++ "[" ++ toString i ++ "]"
          let s1 := checkGuid s (selGuid sel) selCtx
          match selCoding sel with
          | some cods => checkCodingsGuids s1 cods (selCtx ++ ".Coding")
          | none => s1)
      | none => st) =
      guidFold st (match sels with
      | some l =>
        flatMapIdx l (fun i sel =>
          let selCtx := base ++ "." ++ selTy ++ "[" ++ toString i ++ "]"
          [⟨selCtx, selGuid sel⟩] ++
          (match selCoding sel with
           | some cods => codingsGuidOccs cods (selCtx ++ ".Coding")
           | none => []))
      | none => []) := by
    cases sels with
    | none => rfl
    | some l =>
      refine eachIdx_guidFold _ _ _ _ fun s i sel => ?_
      cases hc : selCoding sel with
      | none => rfl
      | some cods =>
        simp only [hc, guidFold_append]
        rw [checkCodingsGuids_eq]
        rfl
  rw [h1]
  cases srcCoding with
  | none => rfl
  | some cods => exact checkCodingsGuids_eq _ cods _

/-- The transcript guid pass refines to guidFold. -/
theorem checkTranscriptsGuids_eq (st : GuidState) (trs : Option (List TranscriptType))
    (base : String) :
    checkTranscriptsGuids st trs base = guidFold st (transcriptsGuidOccs trs base) := by
  cases trs with
  | none => rfl
  | some l =>
    unfold checkTranscriptsGuids transcriptsGuidOccs
    refine eachIdx_guidFold _ _ _ _ fun s i tr => ?_
    simp only [guidFold_append]
    have h2 : ∀ s1 : GuidState, (match tr.SyncPoint with
        | some sps =>
          eachIdx sps s1 (fun t j sp =>
            checkGuid t sp.guid
              (base ++ ".Transcript[" ++ toString i ++ "]" ++ ".SyncPoint[" ++ toString j ++ "]"))
        | none => s1) =
        guidFold s1 (match tr.SyncPoint with
        | some sps =>
          flatMapIdx sps (fun j sp =>
            [⟨base ++ ".Transcript[" ++ toString i ++ "]" ++ ".SyncPoint[" ++ toString j ++ "]",
              sp.guid⟩])
        | none => []) := by
      intro s1
      cases tr.SyncPoint with
      | none => rfl
      | some sps => exact eachIdx_guidFold _ _ _ _ fun t j sp => rfl
    have h3 : ∀ s2 : GuidState, (match tr.TranscriptSelection with
        | some tss =>
          eachIdx tss s2 (fun t j ts =>
            checkGuid t ts.guid
              (base ++ ".Transcript[" ++ toString i ++ "]" ++ ".TranscriptSelection[" ++
                toString j ++ "]"))
        | none => s2) =
        guidFold s2 (match tr.TranscriptSelection with
        | some tss =>
          flatMapIdx tss (fun j ts =>
            [⟨base ++ ".Transcript[" ++ toString i ++ "]" ++ ".TranscriptSelection[" ++
                toString j ++ "]", ts.guid⟩])
        | none => []) := by
      intro s2
      cases tr.TranscriptSelection with
      | none => rfl
      | some tss => exact eachIdx_guidFold _ _ _ _ fun t j ts => rfl
    rw [h3, h2]
    rfl

/-- Users-style sections: an eachIdx of bare checkGuid calls refines to
guidFold (stated generally over the context function). -/
theorem bareSec_eq {a : Type} (l : List a) (st : GuidState) (gd : a → Option String)
    (cf : Nat → String) :
    eachIdx l st (fun s i x => checkGuid s (gd x) (cf i)) =
      guidFold st (flatMapIdx l (fun i x => [⟨cf i, gd x⟩])) :=
  eachIdx_guidFold _ _ _ _ fun s i x => rfl

/-- The Sources section of validateProjectGUIDs refines to guidFold. -/
theorem sourcesSecGuids_eq (sources : SourcesType) (st : GuidState) :
    (let sA :=
        match sources.TextSource with
        | some l =>
          eachIdx l st (fun s i source =>
            let base := ctxIdx "Sources.TextSource" i
            let s1 := checkGuid s source.guid base
            checkSourceSelectionsG (fun x => x.guid) (fun x => x.Coding) s1
              source.PlainTextSelection source.Coding base "PlainTextSelection")
        | none => st
      let sB :=
        match sources.PictureSource with
        | some l =>
          eachIdx l sA (fun s i source =>
            let base := ctxIdx "Sources.PictureSource" i
            let s1 := checkGuid s source.guid base
            checkSourceSelectionsG (fun x => x.guid) (fun x => x.Coding) s1
              source.PictureSelection source.Coding base "PictureSelection")
        | none => sA
      let sC :=
        match sources.PDFSource with
        | some l =>
          eachIdx l sB (fun s i source =>
            let base := ctxIdx "Sources.PDFSource" i
            let s1 := checkGuid s source.guid base
            checkSourceSelectionsG (fun x => x.guid) (fun x => x.Coding) s1
              source.PDFSelection source.Coding base "PDFSelection")
        | none => sB
      let sD :=
        match sources.AudioSource with
        | some l =>
          eachIdx l sC (fun s i source =>
            let base := ctxIdx "Sources.AudioSource" i
            let s1 := checkGuid s source.guid base
            let s2 := checkSourceSelectionsG (fun x => x.guid) (fun x => x.Coding) s1
              source.AudioSelection source.Coding base "AudioSelection"
            checkTranscriptsGuids s2 source.Transcript base)
        | none => sC
      match sources.VideoSource with
      | some l =>
        eachIdx l sD (fun s i source =>
          let base := ctxIdx "Sources.VideoSource" i
          let s1 := checkGuid s source.guid base
          let s2 := checkSourceSelectionsG (fun x => x.guid) (fun x => x.Coding) s1
            source.VideoSelection source.Coding base "VideoSelection"
          checkTranscriptsGuids s2 source.Transcript base)
      | none => sD) =
    guidFold st
      ((match sources.TextSource with
        | some l =>
          flatMapIdx l (fun i source =>
            let base := ctxIdx "Sources.TextSource" i
            [⟨base, source.guid⟩] ++
            sourceSelectionsGuidOccsG (fun x => x.guid) (fun x => x.Coding)
              source.PlainTextSelection source.Coding base "PlainTextSelection")
        | none => []) ++
       (match sources.PictureSource with
        | some l =>
          flatMapIdx l (fun i source =>
            let base := ctxIdx "Sources.PictureSource" i
            [⟨base, source.guid⟩] ++
            sourceSelectionsGuidOccsG (fun x => x.guid) (fun x => x.Coding)
              source.PictureSelection source.Coding base "PictureSelection")
        | none => []) ++
       (match sources.PDFSource with
        | some l =>
          flatMapIdx l (fun i source =>
            let base := ctxIdx "Sources.PDFSource" i
            [⟨base, source.guid⟩] ++
            sourceSelectionsGuidOccsG (fun x => x.guid) (fun x => x.Coding)
              source.PDFSelection source.Coding base "PDFSelection")
        | none => []) ++
       (match sources.AudioSource with
        | some l =>
          flatMapIdx l (fun i source =>
            let base := ctxIdx "Sources.AudioSource" i
            [⟨base, source.guid⟩] ++
            sourceSelectionsGuidOccsG (fun x => x.guid) (fun x => x.Coding)
              source.AudioSelection source.Coding base "AudioSelection" ++
            transcriptsGuidOccs source.Transcript base)
        | none => []) ++
       (match sources.VideoSource with
        | some l =>
          flatMapIdx l (fun i source =>
            let base := ctxIdx "Sources.VideoSource" i
            [⟨base, source.guid⟩] ++
            sourceSelectionsGuidOccsG (fun x => x.guid) (fun x => x.Coding)
              source.VideoSelection source.Coding base "VideoSelection" ++
            transcriptsGuidOccs source.Transcript base)
        | none => [])) := by
  simp only [guidFold_append]
  have hA : ∀ s0 : GuidState, (match sources.TextSource with
      | some l =>
        eachIdx l s0 (fun s i source =>
          let base := ctxIdx "Sources.TextSource" i
          let s1 := checkGuid s source.guid base
          checkSourceSelectionsG (fun x => x.guid) (fun x => x.Coding) s1
            source.PlainTextSelection source.Coding base "PlainTextSelection")
      | none => s0) =
      guidFold s0 (match sources.TextSource with
      | some l =>
        flatMapIdx l (fun i source =>
          let base := ctxIdx "Sources.TextSource" i
          [⟨base, source.guid⟩] ++
          sourceSelectionsGuidOccsG (fun x => x.guid) (fun x => x.Coding)
            source.PlainTextSelection source.Coding base "PlainTextSelection")
      | none => []) := by
    intro s0
    cases sources.TextSource with
    | none => rfl
    | some l =>
      refine eachIdx_guidFold _ _ _ _ fun s i source => ?_
      simp only [guidFold_append]
      rw [checkSourceSelectionsG_eq]
      rfl
  have hB : ∀ s0 : GuidState, (match sources.PictureSource with
      | some l =>
        eachIdx l s0 (fun s i source =>
          let base := ctxIdx "Sources.PictureSource" i
          let s1 := checkGuid s source.guid base
          checkSourceSelectionsG (fun x => x.guid) (fun x => x.Coding) s1
            source.PictureSelection source.Coding base "PictureSelection")
      | none => s0) =
      guidFold s0 (match sources.PictureSource with
      | some l =>
        flatMapIdx l (fun i source =>
          let base := ctxIdx "Sources.PictureSource" i
          [⟨base, source.guid⟩] ++
          sourceSelectionsGuidOccsG (fun x => x.guid) (fun x => x.Coding)
            source.PictureSelection source.Coding base "PictureSelection")
      | none => []) := by
    intro s0
    cases sources.PictureSource with
    | none => rfl
    | some l =>
      refine eachIdx_guidFold _ _ _ _ fun s i source => ?_
      simp only [guidFold_append]
      rw [checkSourceSelectionsG_eq]
      rfl
  have hC : ∀ s0 : GuidState, (match sources.PDFSource with
      | some l =>
        eachIdx l s0 (fun s i source =>
          let base := ctxIdx "Sources.PDFSource" i
          let s1 := checkGuid s source.guid base
          checkSourceSelectionsG (fun x => x.guid) (fun x => x.Coding) s1
            source.PDFSelection source.Coding base "PDFSelection")
      | none => s0) =
      guidFold s0 (match sources.PDFSource with
      | some l =>
        flatMapIdx l (fun i source =>
          let base := ctxIdx "Sources.PDFSource" i
          [⟨base, source.guid⟩] ++
          sourceSelectionsGuidOccsG (fun x => x.guid) (fun x => x.Coding)
            source.PDFSelection source.Coding base "PDFSelection")
      | none => []) := by
    intro s0
    cases sources.PDFSource with
    | none => rfl
    | some l =>
      refine eachIdx_guidFold _ _ _ _ fun s i source => ?_
      simp only [guidFold_append]
      rw [checkSourceSelectionsG_eq]
      rfl
  have hD : ∀ s0 : GuidState, (match sources.AudioSource with
      | some l =>
        eachIdx l s0 (fun s i source =>
          let base := ctxIdx "Sources.AudioSource" i
          let s1 := checkGuid s source.guid base
          let s2 := checkSourceSelectionsG (fun x => x.guid) (fun x => x.Coding) s1
            source.AudioSelection source.Coding base "AudioSelection"
          checkTranscriptsGuids s2 source.Transcript base)
      | none => s0) =
      guidFold s0 (match sources.AudioSource with
      | some l =>
        flatMapIdx l (fun i source =>
          let base := ctxIdx "Sources.AudioSource" i
          [⟨base, source.guid⟩] ++
          sourceSelectionsGuidOccsG (fun x => x.guid) (fun x => x.Coding)
            source.AudioSelection source.Coding base "AudioSelection" ++
          transcriptsGuidOccs source.Transcript base)
      | none => []) := by
    intro s0
    cases sources.AudioSource with
    | none => rfl
    | some l =>
      refine eachIdx_guidFold _ _ _ _ fun s i source => ?_
      simp only [guidFold_append]
      rw [checkTranscriptsGuids_eq, checkSourceSelectionsG_eq]
      rfl
  have hE : ∀ s0 : GuidState, (match sources.VideoSource with
      | some l =>
        eachIdx l s0 (fun s i source =>
          let base := ctxIdx "Sources.VideoSource" i
          let s1 := checkGuid s source.guid base
          let s2 := checkSourceSelectionsG (fun x => x.guid) (fun x => x.Coding) s1
            source.VideoSelection source.Coding base "VideoSelection"
          checkTranscriptsGuids s2 source.Transcript base)
      | none => s0) =
      guidFold s0 (match sources.VideoSource with
      | some l =>
        flatMapIdx l (fun i source =>
          let base := ctxIdx "Sources.VideoSource" i
          [⟨base, source.guid⟩] ++
          sourceSelectionsGuidOccsG (fun x => x.guid) (fun x => x.Coding)
            source.VideoSelection source.Coding base "VideoSelection" ++
          transcriptsGuidOccs source.Transcript base)
      | none => []) := by
    intro s0
    cases sources.VideoSource with
    | none => rfl
    | some l =>
      refine eachIdx_guidFold _ _ _ _ fun s i source => ?_
      simp only [guidFold_append]
      rw [checkTranscriptsGuids_eq, checkSourceSelectionsG_eq]
      rfl
  rw [hA, hB, hC, hD, hE]

/-- The Graphs section of validateProjectGUIDs refines to guidFold. -/
theorem graphsSecGuids_eq (gl : List GraphType) (st : GuidState) :
    eachIdx gl st (fun t i graph =>
      let base := ctxIdx "Graphs.Graph" i
      let t1 := checkGuid t graph.guid base
      let t2 :=
        match graph.Vertex with
        | some vs =>
          eachIdx vs t1 (fun u j vx =>
            checkGuid u vx.guid (base ++ ".Vertex[" ++ toString j ++ "]"))
        | none => t1
      match graph.Edge with
      | some es =>
        eachIdx es t2 (fun u j e =>
          checkGuid u e.guid (base ++ ".Edge[" ++ toString j ++ "]"))
      | none => t2) =
    guidFold st (flatMapIdx gl (fun i graph =>
      let base := ctxIdx "Graphs.Graph" i
      [⟨base, graph.guid⟩] ++
      (match graph.Vertex with
       | some vs =>
         flatMapIdx vs (fun j vx => [⟨base ++ ".Vertex[" ++ toString j ++ "]", vx.guid⟩])
       | none => []) ++
      (match graph.Edge with
       | some es =>
         flatMapIdx es (fun j e => [⟨base ++ ".Edge[" ++ toString j ++ "]", e.guid⟩])
       | none => []))) := by
  refine eachIdx_guidFold _ _ _ _ fun t i graph => ?_
  simp only [guidFold_append]
  have h2 : ∀ t1 : GuidState, (match graph.Vertex with
      | some vs =>
        eachIdx vs t1 (fun u j vx =>
          checkGuid u vx.guid (ctxIdx "Graphs.Graph" i ++ ".Vertex[" ++ toString j ++ "]"))
      | none => t1) =
      guidFold t1 (match graph.Vertex with
      | some vs =>
        flatMapIdx vs (fun j vx =>
          [⟨ctxIdx "Graphs.Graph" i ++ ".Vertex[" ++ toString j ++ "]", vx.guid⟩])
      | none => []) := by
    intro t1
    cases graph.Vertex with
    | none => rfl
    | some vs => exact eachIdx_guidFold _ _ _ _ fun u j vx => rfl
  have h3 : ∀ t2 : GuidState, (match graph.Edge with
      | some es =>
        eachIdx es t2 (fun u j e =>
          checkGuid u e.guid (ctxIdx "Graphs.Graph" i ++ ".Edge[" ++ toString j ++ "]"))
      | none => t2) =
      guidFold t2 (match graph.Edge with
      | some es =>
        flatMapIdx es (fun j e =>
          [⟨ctxIdx "Graphs.Graph" i ++ ".Edge[" ++ toString j ++ "]", e.guid⟩])
      | none => []) := by
    intro t2
    cases graph.Edge with
    | none => rfl
    | some es => exact eachIdx_guidFold _ _ _ _ fun u j e => rfl
  rw [h3, h2]
  rfl

/-- The GUID validator is the error component of guidFold over the
guid-occurrence enumeration. -/
theorem validateProjectGUIDs_eq (p : Project) :
    validateProjectGUIDs p =
      (guidFold { errors := [], guidMap := [] } (guidOccurrences p)).errors := by
  unfold validateProjectGUIDs guidOccurrences
  simp only [guidFold_append]
  have hUsers : ∀ s0 : GuidState, (match p.Users with
      | some users =>
        eachIdx users.User s0 (fun s i user => checkGuid s user.guid (ctxIdx "Users.User" i))
      | none => s0) =
      guidFold s0 (match p.Users with
      | some users => flatMapIdx users.User (fun i user => [⟨ctxIdx "Users.User" i, user.guid⟩])
      | none => []) := by
    intro s0
    cases p.Users with
    | none => rfl
    | some users => exact eachIdx_guidFold _ _ _ _ fun s i x => rfl
  have hCB : ∀ s0 : GuidState, (match p.CodeBook with
      | some cb => checkCodesGuids s0 cb.Codes.Code "CodeBook.Codes.Code"
      | none => s0) =
      guidFold s0 (match p.CodeBook with
      | some cb => codesGuidOccs cb.Codes.Code "CodeBook.Codes.Code"
      | none => []) := by
    intro s0
    cases p.CodeBook with
    | none => rfl
    | some cb => exact checkCodesGuids_eq s0 cb.Codes.Code _
  have hVars : ∀ s0 : GuidState, (match p.Variables with
      | some v =>
        eachIdx v.Variable s0 (fun s i vr => checkGuid s vr.guid (ctxIdx "Variables.Variable" i))
      | none => s0) =
      guidFold s0 (match p.Variables with
      | some v => flatMapIdx v.Variable (fun i vr => [⟨ctxIdx "Variables.Variable" i, vr.guid⟩])
      | none => []) := by
    intro s0
    cases p.Variables with
    | none => rfl
    | some v => exact eachIdx_guidFold _ _ _ _ fun s i x => rfl
  have hCases : ∀ s0 : GuidState, (match p.Cases with
      | some c =>
        eachIdx c.Case s0 (fun s i cs => checkGuid s cs.guid (ctxIdx "Cases.Case" i))
      | none => s0) =
      guidFold s0 (match p.Cases with
      | some c => flatMapIdx c.Case (fun i cs => [⟨ctxIdx "Cases.Case" i, cs.guid⟩])
      | none => []) := by
    intro s0
    cases p.Cases with
    | none => rfl
    | some c => exact eachIdx_guidFold _ _ _ _ fun s i x => rfl
  have hSets : ∀ s0 : GuidState, (match p.Sets with
      | some st =>
        eachIdx st.Set s0 (fun t i x => checkGuid t x.guid (ctxIdx "Sets.Set" i))
      | none => s0) =
      guidFold s0 (match p.Sets with
      | some st => flatMapIdx st.Set (fun i x => [⟨ctxIdx "Sets.Set" i, x.guid⟩])
      | none => []) := by
    intro s0
    cases p.Sets with
    | none => rfl
    | some st => exact eachIdx_guidFold _ _ _ _ fun t i x => rfl
  have hLinks : ∀ s0 : GuidState, (match p.Links with
      | some l =>
        eachIdx l.Link s0 (fun t i lk => checkGuid t lk.guid (ctxIdx "Links.Link" i))
      | none => s0) =
      guidFold s0 (match p.Links with
      | some l => flatMapIdx l.Link (fun i lk => [⟨ctxIdx "Links.Link" i, lk.guid⟩])
      | none => []) := by
    intro s0
    cases p.Links with
    | none => rfl
    | some l => exact eachIdx_guidFold _ _ _ _ fun t i x => rfl
  have hGraphs : ∀ s0 : GuidState, (match p.Graphs with
      | some g =>
        eachIdx g.Graph s0 (fun t i graph =>
          let base := ctxIdx "Graphs.Graph" i
          let t1 := checkGuid t graph.guid base
          let t2 :=
            match graph.Vertex with
            | some vs =>
              eachIdx vs t1 (fun u j vx =>
                checkGuid u vx.guid (base ++ ".Vertex[" ++ toString j ++ "]"))
            | none => t1
          match graph.Edge with
          | some es =>
            eachIdx es t2 (fun u j e =>
              checkGuid u e.guid (base ++ ".Edge[" ++ toString j ++ "]"))
          | none => t2)
      | none => s0) =
      guidFold s0 (match p.Graphs with
      | some g =>
        flatMapIdx g.Graph (fun i graph =>
          let base := ctxIdx "Graphs.Graph" i
          [⟨base, graph.guid⟩] ++
          (match graph.Vertex with
           | some vs =>
             flatMapIdx vs (fun j vx => [⟨base ++ ".Vertex[" ++ toString j ++ "]", vx.guid⟩])
           | none => []) ++
          (match graph.Edge with
           | some es =>
             flatMapIdx es (fun j e => [⟨base ++ ".Edge[" ++ toString j ++ "]", e.guid⟩])
           | none => []))
      | none => []) := by
    intro s0
    cases p.Graphs with
    | none => rfl
    | some g => exact graphsSecGuids_eq g.Graph s0
  have hSources : ∀ s0 : GuidState, (match p.Sources with
      | some sources =>
        let sA :=
          match sources.TextSource with
          | some l =>
            eachIdx l s0 (fun s i source =>
              let base := ctxIdx "Sources.TextSource" i
              let s1 := checkGuid s source.guid base
              checkSourceSelectionsG (fun x => x.guid) (fun x => x.Coding) s1
                source.PlainTextSelection source.Coding base "PlainTextSelection")
          | none => s0
        let sB :=
          match sources.PictureSource with
          | some l =>
            eachIdx l sA (fun s i source =>
              let base := ctxIdx "Sources.PictureSource" i
              let s1 := checkGuid s source.guid base
              checkSourceSelectionsG (fun x => x.guid) (fun x => x.Coding) s1
                source.PictureSelection source.Coding base "PictureSelection")
          | none => sA
        let sC :=
          match sources.PDFSource with
          | some l =>
            eachIdx l sB (fun s i source =>
              let base := ctxIdx "Sources.PDFSource" i
              let s1 := checkGuid s source.guid base
              checkSourceSelectionsG (fun x => x.guid) (fun x => x.Coding) s1
                source.PDFSelection source.Coding base "PDFSelection")
          | none => sB
        let sD :=
          match sources.AudioSource with
          | some l =>
            eachIdx l sC (fun s i source =>
              let base := ctxIdx "Sources.AudioSource" i
              let s1 := checkGuid s source.guid base
              let s2 := checkSourceSelectionsG (fun x => x.guid) (fun x => x.Coding) s1
                source.AudioSelection source.Coding base "AudioSelection"
              checkTranscriptsGuids s2 source.Transcript base)
          | none => sC
        match sources.VideoSource with
        | some l =>
          eachIdx l sD (fun s i source =>
            let base := ctxIdx "Sources.VideoSource" i
            let s1 := checkGuid s source.guid base
            let s2 := checkSourceSelectionsG (fun x => x.guid) (fun x => x.Coding) s1
              source.VideoSelection source.Coding base "VideoSelection"
            checkTranscriptsGuids s2 source.Transcript base)
        | none => sD
      | none => s0) =
      guidFold s0 (match p.Sources with
      | some sources =>
        (match sources.TextSource with
         | some l =>
           flatMapIdx l (fun i source =>
             let base := ctxIdx "Sources.TextSource" i
             [⟨base, source.guid⟩] ++
             sourceSelectionsGuidOccsG (fun x => x.guid) (fun x => x.Coding)
               source.PlainTextSelection source.Coding base "PlainTextSelection")
         | none => []) ++
        (match sources.PictureSource with
         | some l =>
           flatMapIdx l (fun i source =>
             let base := ctxIdx "Sources.PictureSource" i
             [⟨base, source.guid⟩] ++
             sourceSelectionsGuidOccsG (fun x => x.guid) (fun x => x.Coding)
               source.PictureSelection source.Coding base "PictureSelection")
         | none => []) ++
        (match sources.PDFSource with
         | some l =>
           flatMapIdx l (fun i source =>
             let base := ctxIdx "Sources.PDFSource" i
             [⟨base, source.guid⟩] ++
             sourceSelectionsGuidOccsG (fun x => x.guid) (fun x => x.Coding)
               source.PDFSelection source.Coding base "PDFSelection")
         | none => []) ++
        (match sources.AudioSource with
         | some l =>
           flatMapIdx l (fun i source =>
             let base := ctxIdx "Sources.AudioSource" i
             [⟨base, source.guid⟩] ++
             sourceSelectionsGuidOccsG (fun x => x.guid) (fun x => x.Coding)
               source.AudioSelection source.Coding base "AudioSelection" ++
             transcriptsGuidOccs source.Transcript base)
         | none => []) ++
        (match sources.VideoSource with
         | some l =>
           flatMapIdx l (fun i source =>
             let base := ctxIdx "Sources.VideoSource" i
             [⟨base, source.guid⟩] ++
             sourceSelectionsGuidOccsG (fun x => x.guid) (fun x => x.Coding)
               source.VideoSelection source.Coding base "VideoSelection" ++
             transcriptsGuidOccs source.Transcript base)
         | none => [])
      | none => []) := by
    intro s0
    cases p.Sources with
    | none => rfl
    | some sources => exact sourcesSecGuids_eq sources s0
  rw [hUsers, hCB, hVars, hCases, hSources, hSets, hGraphs, hLinks]

/-- A wellformed occurrence carries a guid. -/
theorem occWellformed_some {o : GuidOcc} (h : occWellformed o = true) :
    ∃ g, o.guid = some g ∧ g ≠ "" ∧ isGuidFormat g = true := by
  unfold occWellformed at h
  cases hg : o.guid with
  | none => rw [hg] at h; exact absurd h (by simp)
  | some g =>
    rw [hg] at h
    simp only [Bool.and_eq_true, Bool.not_eq_true', decide_eq_false_iff_not] at h
    exact ⟨g, rfl, h.1, h.2⟩

/-- checkGuid on a fresh wellformed guid records it without error. -/
theorem checkGuid_fresh (st : GuidState) (g ctx : String) (h1 : g ≠ "")
    (h2 : isGuidFormat g = true)
    (h3 : st.guidMap.find? (fun kv => kv.1 = g) = none) :
    checkGuid st (some g) ctx = { st with guidMap := st.guidMap ++ [(g, ctx)] } := by
  unfold checkGuid
  simp [h1, h2, h3]

/-- checkGuid on a guid already recorded appends one duplicate error. -/
theorem checkGuid_dup (st : GuidState) (g ctx prev : String) (h1 : g ≠ "")
    (h2 : isGuidFormat g = true)
    (h3 : st.guidMap.find? (fun kv => kv.1 = g) = some (g, prev)) :
    checkGuid st (some g) ctx =
      { st with errors :=
          st.errors ++ ["Duplicate GUID " ++ g ++ " in " ++ ctx ++ " and " ++ prev] } := by
  unfold checkGuid
  simp [h1, h2, h3]

/-- The key of a clean occurrence list's map entries never equals a guid
that the list avoids. -/
theorem findKey_none_of (l : List GuidOcc) (g : String)
    (hw : ∀ o ∈ l, occWellformed o = true)
    (hg : ∀ o ∈ l, o.guid ≠ some g) :
    (l.map (fun o => (o.guid.getD "", o.ctx))).find? (fun kv => kv.1 = g) = none := by
  rw [List.find?_eq_none]
  intro kv hkv
  obtain ⟨o, ho, rfl⟩ := List.mem_map.mp hkv
  obtain ⟨g0, hg0, _, _⟩ := occWellformed_some (hw o ho)
  simp only [hg0, Option.getD_some, decide_eq_true_eq]
  intro h0
  exact hg o ho (by rw [hg0, h0])

/-- guidFold over a clean, fresh, duplicate-free occurrence list records
every guid and reports nothing. -/
theorem guidFold_clean : ∀ (occs : List GuidOcc) (st : GuidState),
    (∀ o ∈ occs, occWellformed o = true) →
    (∀ o ∈ occs, ∀ g, o.guid = some g → st.guidMap.find? (fun kv => kv.1 = g) = none) →
    (occsGuids occs).Nodup →
    guidFold st occs =
      { errors := st.errors,
        guidMap := st.guidMap ++ occs.map (fun o => (o.guid.getD "", o.ctx)) } := by
  intro occs
  induction occs with
  | nil =>
    intro st _ _ _
    cases st
    simp [guidFold]
  | cons o rest ih =>
    intro st hw hf hnd
    obtain ⟨g, hg, hgne, hgf⟩ := occWellformed_some (hw o (List.mem_cons_self o rest))
    have hstep : guidStep st o = { st with guidMap := st.guidMap ++ [(g, o.ctx)] } := by
      unfold guidStep
      rw [hg]
      exact checkGuid_fresh st g o.ctx hgne hgf (hf o (List.mem_cons_self o rest) g hg)
    have hoccs : occsGuids (o :: rest) = g :: occsGuids rest := by
      unfold occsGuids
      rw [List.filterMap_cons, hg]
    rw [hoccs] at hnd
    have hnotmem : g ∉ occsGuids rest := (List.nodup_cons.mp hnd).1
    have hrest : guidFold { st with guidMap := st.guidMap ++ [(g, o.ctx)] } rest =
        { errors := st.errors,
          guidMap := (st.guidMap ++ [(g, o.ctx)]) ++
            rest.map (fun x => (x.guid.getD "", x.ctx)) } := by
      refine ih _ (fun x hx => hw x (List.mem_cons_of_mem o hx)) ?_
        (List.nodup_cons.mp hnd).2
      intro x hx gx hgx
      rw [List.find?_append, hf x (List.mem_cons_of_mem o hx) gx hgx]
      have hgxne : gx ≠ g := by
        intro hEq
        apply hnotmem
        rw [← hEq]
        exact List.mem_filterMap.mpr ⟨x, hx, hgx⟩
      simp [List.find?, Ne.symm hgxne]
    show guidFold st (o :: rest) = _
    unfold guidFold at hrest ⊢
    rw [List.foldl_cons, hstep, hrest]
    simp only [List.map_cons, hg, Option.getD_some, List.append_assoc, List.cons_append,
      List.nil_append]

/-- guidFold steps through a cons. -/
theorem guidFold_cons (st : GuidState) (o : GuidOcc) (l : List GuidOcc) :
    guidFold st (o :: l) = guidFold (guidStep st o) l := rfl

/-- Map entries of occurrences whose guids avoid gx have no key gx. -/
theorem findKey_none_notmem (l : List GuidOcc) (gx : String)
    (hw : ∀ o ∈ l, occWellformed o = true)
    (hnm : gx ∉ occsGuids l) :
    (l.map (fun o => (o.guid.getD "", o.ctx))).find? (fun kv => kv.1 = gx) = none := by
  rw [List.find?_eq_none]
  intro kv hkv
  obtain ⟨o, ho, rfl⟩ := List.mem_map.mp hkv
  obtain ⟨g0, hg0, _, _⟩ := occWellformed_some (hw o ho)
  simp only [hg0, Option.getD_some, decide_eq_true_eq]
  intro h0
  exact hnm (h0 ▸ List.mem_filterMap.mpr ⟨o, ho, hg0⟩)

/-- guidFold over clean surroundings with exactly one guid shared by two
occurrences reports exactly the one duplicate error naming both contexts,
later context first. -/
theorem guidFold_duplicate (A B C : List GuidOcc) (c1 c2 g : String)
    (hgne : g ≠ "") (hgf : isGuidFormat g = true)
    (hw : ∀ o ∈ A ++ B ++ C, occWellformed o = true)
    (hne : ∀ o ∈ A ++ B ++ C, o.guid ≠ some g)
    (hnd : (occsGuids (A ++ B ++ C)).Nodup) :
    (guidFold { errors := [], guidMap := [] }
        (A ++ ((⟨c1, some g⟩ : GuidOcc) :: (B ++ ((⟨c2, some g⟩ : GuidOcc) :: C))))).errors =
      ["Duplicate GUID " ++ g ++ " in " ++ c2 ++ " and " ++ c1] := by
  have hwA : ∀ o ∈ A, occWellformed o = true := fun o ho => hw o (by simp [ho])
  have hwB : ∀ o ∈ B, occWellformed o = true := fun o ho => hw o (by simp [ho])
  have hwC : ∀ o ∈ C, occWellformed o = true := fun o ho => hw o (by simp [ho])
  have hneA : ∀ o ∈ A, o.guid ≠ some g := fun o ho => hne o (by simp [ho])
  have hneB : ∀ o ∈ B, o.guid ≠ some g := fun o ho => hne o (by simp [ho])
  have hneC : ∀ o ∈ C, o.guid ≠ some g := fun o ho => hne o (by simp [ho])
  have hsplit : occsGuids (A ++ B ++ C) =
      occsGuids A ++ occsGuids B ++ occsGuids C := by
    unfold occsGuids
    simp [List.filterMap_append]
  rw [hsplit] at hnd
  have h1 := List.nodup_append.mp hnd
  have h2 := List.nodup_append.mp h1.1
  have hndA : (occsGuids A).Nodup := h2.1
  have hndB : (occsGuids B).Nodup := h2.2.1
  have hndC : (occsGuids C).Nodup := h1.2.1
  have hdisAB := h2.2.2
  have hdisABC := h1.2.2
  have hA : guidFold { errors := [], guidMap := [] } A =
      { errors := [], guidMap := A.map (fun o => (o.guid.getD "", o.ctx)) } := by
    have h := guidFold_clean A { errors := [], guidMap := [] } hwA
      (fun o ho gx hgx => rfl) hndA
    simpa using h
  have hstep1 : guidStep { errors := [], guidMap := A.map (fun o => (o.guid.getD "", o.ctx)) }
      (⟨c1, some g⟩ : GuidOcc) =
      { errors := [],
        guidMap := A.map (fun o => (o.guid.getD "", o.ctx)) ++ [(g, c1)] } := by
    unfold guidStep
    refine checkGuid_fresh _ g c1 hgne hgf ?_
    refine findKey_none_notmem A g hwA fun hmem => ?_
    obtain ⟨o, ho, hog⟩ := List.mem_filterMap.mp hmem
    exact hneA o ho hog
  have hBfresh : ∀ o ∈ B, ∀ gx, o.guid = some gx →
      (A.map (fun o => (o.guid.getD "", o.ctx)) ++ [(g, c1)]).find?
        (fun kv => kv.1 = gx) = none := by
    intro o ho gx hgx
    have hmemB : gx ∈ occsGuids B := List.mem_filterMap.mpr ⟨o, ho, hgx⟩
    rw [List.find?_append]
    rw [findKey_none_notmem A gx hwA (fun hmem => hdisAB hmem hmemB)]
    have hgxg : gx ≠ g := fun hEq => hneB o ho (hEq ▸ hgx)
    simp [List.find?, Ne.symm hgxg]
  have hB : guidFold
      { errors := [], guidMap := A.map (fun o => (o.guid.getD "", o.ctx)) ++ [(g, c1)] } B =
      { errors := [],
        guidMap := (A.map (fun o => (o.guid.getD "", o.ctx)) ++ [(g, c1)]) ++
          B.map (fun o => (o.guid.getD "", o.ctx)) } := by
    have h := guidFold_clean B
      { errors := [], guidMap := A.map (fun o => (o.guid.getD "", o.ctx)) ++ [(g, c1)] }
      hwB hBfresh hndB
    simpa using h
  have hfind2 : ((A.map (fun o => (o.guid.getD "", o.ctx)) ++ [(g, c1)]) ++
      B.map (fun o => (o.guid.getD "", o.ctx))).find? (fun kv => kv.1 = g) =
      some (g, c1) := by
    rw [List.find?_append, List.find?_append]
    rw [findKey_none_notmem A g hwA fun hmem => ?_]
    · simp [List.find?]
    · obtain ⟨o, ho, hog⟩ := List.mem_filterMap.mp hmem
      exact hneA o ho hog
  have hstep2 : guidStep
      { errors := [],
        guidMap := (A.map (fun o => (o.guid.getD "", o.ctx)) ++ [(g, c1)]) ++
          B.map (fun o => (o.guid.getD "", o.ctx)) } (⟨c2, some g⟩ : GuidOcc) =
      { errors := ["Duplicate GUID " ++ g ++ " in " ++ c2 ++ " and " ++ c1],
        guidMap := (A.map (fun o => (o.guid.getD "", o.ctx)) ++ [(g, c1)]) ++
          B.map (fun o => (o.guid.getD "", o.ctx)) } := by
    unfold guidStep
    have h := checkGuid_dup
      { errors := [],
        guidMap := (A.map (fun o => (o.guid.getD "", o.ctx)) ++ [(g, c1)]) ++
          B.map (fun o => (o.guid.getD "", o.ctx)) } g c2 c1 hgne hgf hfind2
    simpa using h
  have hCfresh : ∀ o ∈ C, ∀ gx, o.guid = some gx →
      ((A.map (fun o => (o.guid.getD "", o.ctx)) ++ [(g, c1)]) ++
        B.map (fun o => (o.guid.getD "", o.ctx))).find? (fun kv => kv.1 = gx) = none := by
    intro o ho gx hgx
    have hmemC : gx ∈ occsGuids C := List.mem_filterMap.mpr ⟨o, ho, hgx⟩
    have hnAB : gx ∉ occsGuids A ++ occsGuids B := fun hmem => hdisABC hmem hmemC
    rw [List.find?_append, List.find?_append]
    rw [findKey_none_notmem A gx hwA (fun hmem => hnAB (List.mem_append_left _ hmem))]
    rw [findKey_none_notmem B gx hwB (fun hmem => hnAB (List.mem_append_right _ hmem))]
    have hgxg : gx ≠ g := fun hEq => hneC o ho (hEq ▸ hgx)
    simp [List.find?, Ne.symm hgxg]
  have hC := guidFold_clean C
    { errors := ["Duplicate GUID " ++ g ++ " in " ++ c2 ++ " and " ++ c1],
      guidMap := (A.map (fun o => (o.guid.getD "", o.ctx)) ++ [(g, c1)]) ++
        B.map (fun o => (o.guid.getD "", o.ctx)) } hwC hCfresh hndC
  rw [guidFold_append, hA, guidFold_cons, hstep1, guidFold_append, hB, guidFold_cons,
    hstep2, hC]

/-- C5 counterexample: a Case and a Note share one identifier, every other
identifier is distinct and well-formed, yet GUID validation reports
nothing — the traversal visits the Case but never walks Notes.  This
refutes "for every Project in which exactly two entities share one
identifier ... GUID validation reports exactly one duplicate-identifier
issue". -/
theorem c5_counterexample_note_shares_guid :
    validateProjectGUIDs projectDupNoteCase = [] ∧
    projectDupNoteCase.Cases.map (fun c => c.Case.map (fun x => x.guid)) =
      some [some sharedGuid] ∧
    projectDupNoteCase.Notes.map (fun n => n.Note.map (fun t => t.guid)) =
      some [some sharedGuid] :=
  ⟨rfl, rfl, rfl⟩

/-- C5 (amended): among the entities the GUID traversal actually visits
(guidOccurrences — Notes, nested description/representation text sources
and codings of transcript selections are excluded), if exactly two visited
occurrences share one well-formed identifier and all other visited
identifiers are well-formed, distinct and different from it, the validator
reports exactly one duplicate-identifier issue, naming the second
occurrence's path and then the first occurrence's path — regardless of
which contexts the two positions carry. -/
theorem c5_duplicate_guid_amended (p : Project) (A B C : List GuidOcc) (c1 c2 g : String)
    (h : guidOccurrences p =
      A ++ ((⟨c1, some g⟩ : GuidOcc) :: (B ++ ((⟨c2, some g⟩ : GuidOcc) :: C))))
    (hgne : g ≠ "") (hgf : isGuidFormat g = true)
    (hw : ∀ o ∈ A ++ B ++ C, occWellformed o = true)
    (hne : ∀ o ∈ A ++ B ++ C, o.guid ≠ some g)
    (hnd : (occsGuids (A ++ B ++ C)).Nodup) :
    validateProjectGUIDs p =
      ["Duplicate GUID " ++ g ++ " in " ++ c2 ++ " and " ++ c1] := by
  rw [validateProjectGUIDs_eq, h]
  exact guidFold_duplicate A B C c1 c2 g hgne hgf hw hne hnd

/-- Witness for C5 at a project with two users sharing witnessGuid. -/
theorem c5_duplicate_guid_amended_witness :
    validateProjectGUIDs projectDupUsers =
      ["Duplicate GUID " ++ witnessGuid ++ " in " ++ "Users.User[1]" ++ " and " ++
        "Users.User[0]"] :=
  c5_duplicate_guid_amended projectDupUsers [] [] [] "Users.User[0]" "Users.User[1]"
    witnessGuid rfl (by decide) (by decide) (by decide) (by decide) (by decide)

/-- C2 code bug: the caller's onMissingSource callback refuses the export
(returns false on the missing file), yet exportQDPX completes with
success, records a "Could not process source" warning, writes no container
entry and keeps the source's canonical relative address.  The effective
options record assembled by exportQDPX drops onMissingSource entirely, so
the callback is never consulted; and the spec-required ExportAborted
failure never happens (the inner throw would land in the enclosing catch
anyway).  This refutes "the export raises the fatal export-aborted error
and writes no output container". -/
theorem c2_missing_source_code_bug :
    (exportQDPX fsEmptyM (fun _ => "u") (projectOnePicture "relative://foo.txt")
        "out.qdpx" optsMissing).map
      (fun out => (out.result.success, out.result.warnings, out.containerFiles,
        firstPicturePath out.qdeProject)) =
      Except.ok (true, ["Could not process source: /base/foo.txt"], [],
        some "relative:///foo.txt") ∧
    optsMissing.onMissingSource = some cbFalse ∧
    cbFalse "/base/foo.txt" "PictureSource" picGuid = false ∧
    (exportEffectiveOptions optsMissing "out.qdpx").onMissingSource = none :=
  ⟨rfl, rfl, rfl, rfl⟩

/-- C10: a caller-supplied maxInternalFileSize of 0 is silently replaced
by the default 2147483647 (the || coalescing treats 0 as absent), and the
concrete export of a 1-byte picture file under that policy embeds the file
into the container and rewrites its address to internal. -/
theorem c10_max_size_zero_substituted :
    (∀ (options : ExportOptionsM) (outPath : String),
      options.maxInternalFileSize = some 0 →
      (exportEffectiveOptions options outPath).maxInternalFileSize = some 2147483647) ∧
    optsZeroMax.maxInternalFileSize = some 0 ∧
    (exportQDPX fsOneByte genU (projectOnePicture "relative://foo.png")
        "out.qdpx" optsZeroMax).map
      (fun out => (out.result.success, out.containerFiles,
        firstPicturePath out.qdeProject)) =
      Except.ok (true, [("sources/u0.png", 7)], some "internal://u0.png") := by
  refine ⟨?_, rfl, rfl⟩
  intro options outPath h
  unfold exportEffectiveOptions
  rw [h]
  rfl

/-- C6: with includeExternalSources true and maxInternalFileSize m, a
source file whose stat size equals m is embedded into the output file set
(a sources/ entry is written, the info record is internal, so the address
is rewritten to internal://), while a file of size m + 1 under the
identical policy is kept external (no file entry, info record keeps the
relative type, the path is recorded in externalSources). -/
theorem c6_size_boundary (m : Nat) (g : Nat → String) :
    processSourcesForExport (c6fs m) (c6opts m) g (projectOnePicture "relative://foo.png")
      emptyProcState =
    { sourceFiles := [("sources/" ++ (g 0 ++ ".png"), 7)],
      sourceInfoList := [
        { guid := picGuid, originalPath := "/base/foo.png", sourceType := "internal",
          filename := g 0 ++ ".png", extension := ".png" }],
      warnings := [], externalSources := [], counter := 1 } ∧
    processSourcesForExport (c6fs (m + 1)) (c6opts m) g
      (projectOnePicture "relative://foo.png") emptyProcState =
    { sourceFiles := [],
      sourceInfoList := [
        { guid := picGuid, originalPath := "/base/foo.png", sourceType := "relative",
          filename := "foo.png", extension := ".png" }],
      warnings := [], externalSources := ["/base/foo.png"], counter := 0 } := by
  constructor
  · unfold processSourcesForExport projectOnePicture
    simp only []
    unfold processSource pictureSourceView picSource resolveSourcePath
    simp [emptyProcState, c6fs, c6opts, Nat.le_refl, truthyStr, jsStartsWith, jsSubstring,
      pathResolve, pathBasename, pathExtname, emptyProject, picGuid]
  · unfold processSourcesForExport projectOnePicture
    simp only []
    unfold processSource pictureSourceView picSource resolveSourcePath
    simp [emptyProcState, c6fs, c6opts, Nat.not_succ_le_self, truthyStr, jsStartsWith,
      jsSubstring, pathResolve, pathBasename, pathExtname, emptyProject, picGuid]

/-- Witness for C6 at m = 5 with the constant generator. -/
theorem c6_size_boundary_witness :
    processSourcesForExport (c6fs 5) (c6opts 5) genU (projectOnePicture "relative://foo.png")
      emptyProcState =
    { sourceFiles := [("sources/" ++ (genU 0 ++ ".png"), 7)],
      sourceInfoList := [
        { guid := picGuid, originalPath := "/base/foo.png", sourceType := "internal",
          filename := genU 0 ++ ".png", extension := ".png" }],
      warnings := [], externalSources := [], counter := 1 } ∧
    processSourcesForExport (c6fs 6) (c6opts 5) genU (projectOnePicture "relative://foo.png")
      emptyProcState =
    { sourceFiles := [],
      sourceInfoList := [
        { guid := picGuid, originalPath := "/base/foo.png", sourceType := "relative",
          filename := "foo.png", extension := ".png" }],
      warnings := [], externalSources := ["/base/foo.png"], counter := 0 } :=
  c6_size_boundary 5 genU

/-!
Copy-identity lemmas for claim C3: the modelled JSON deep copy is the
identity on every project value, so export leaves the caller's project
untouched.
-/

/-- Mapping a pointwise-identity function over a list is the identity. -/
theorem map_id_of {a : Type} (f : a → a) (h : ∀ x, f x = x) :
    ∀ l : List a, l.map f = l := fun l => by
  induction l with
  | nil => rfl
  | cons x t ih => simp [h, ih]

/-- Mapping a pointwise-identity function over an option is the identity. -/
theorem omap_id_of {a : Type} (f : a → a) (h : ∀ x, f x = x) :
    ∀ o : Option a, o.map f = o := fun o => by
  cases o <;> simp [h]

theorem copyNoteRef_id (r : NoteRefType) : copyNoteRef r = r := rfl

theorem noteRefs_copy_id (o : Option (List NoteRefType)) :
    o.map (List.map copyNoteRef) = o :=
  omap_id_of _ (map_id_of _ copyNoteRef_id) o

theorem copyVariableValue_id (v : VariableValueType) : copyVariableValue v = v := rfl

theorem varVals_copy_id (o : Option (List VariableValueType)) :
    o.map (List.map copyVariableValue) = o :=
  omap_id_of _ (map_id_of _ copyVariableValue_id) o

theorem copyCoding_id (c : CodingType) : copyCoding c = c := by
  unfold copyCoding
  rw [noteRefs_copy_id]

theorem codings_copy_id (o : Option (List CodingType)) :
    o.map (List.map copyCoding) = o :=
  omap_id_of _ (map_id_of _ copyCoding_id) o

theorem copyPlainTextSelection_id (s : PlainTextSelectionType) :
    copyPlainTextSelection s = s := by
  unfold copyPlainTextSelection
  rw [codings_copy_id, noteRefs_copy_id]

theorem copyTextSource_id (t : TextSourceType) : copyTextSource t = t := by
  unfold copyTextSource
  rw [omap_id_of _ (map_id_of _ copyPlainTextSelection_id), codings_copy_id,
    noteRefs_copy_id, varVals_copy_id]

theorem copyPictureSelection_id (s : PictureSelectionType) : copyPictureSelection s = s := by
  unfold copyPictureSelection
  rw [codings_copy_id, noteRefs_copy_id]

theorem copyPictureSource_id (p : PictureSourceType) : copyPictureSource p = p := by
  unfold copyPictureSource
  rw [omap_id_of _ copyTextSource_id, omap_id_of _ (map_id_of _ copyPictureSelection_id),
    codings_copy_id, noteRefs_copy_id, varVals_copy_id]

theorem copyPDFSelection_id (s : PDFSelectionType) : copyPDFSelection s = s := by
  unfold copyPDFSelection
  rw [omap_id_of _ copyTextSource_id, codings_copy_id, noteRefs_copy_id]

theorem copyPDFSource_id (p : PDFSourceType) : copyPDFSource p = p := by
  unfold copyPDFSource
  rw [omap_id_of _ (map_id_of _ copyPDFSelection_id), omap_id_of _ copyTextSource_id,
    codings_copy_id, noteRefs_copy_id, varVals_copy_id]

theorem copyAudioSelection_id (s : AudioSelectionType) : copyAudioSelection s = s := by
  unfold copyAudioSelection
  rw [codings_copy_id, noteRefs_copy_id]

theorem copyVideoSelection_id (s : VideoSelectionType) : copyVideoSelection s = s := by
  unfold copyVideoSelection
  rw [codings_copy_id, noteRefs_copy_id]

theorem copyTranscriptSelection_id (s : TranscriptSelectionType) :
    copyTranscriptSelection s = s := by
  unfold copyTranscriptSelection
  rw [codings_copy_id, noteRefs_copy_id]

theorem copyTranscript_id (t : TranscriptType) : copyTranscript t = t := by
  unfold copyTranscript
  rw [omap_id_of _ (map_id_of _ copyTranscriptSelection_id), noteRefs_copy_id,
    omap_id_of (List.map fun sp : SyncPointType => { sp with guid := sp.guid })
      (map_id_of _ fun sp => rfl)]

theorem copyAudioSource_id (p : AudioSourceType) : copyAudioSource p = p := by
  unfold copyAudioSource
  rw [omap_id_of _ (map_id_of _ copyTranscript_id),
    omap_id_of _ (map_id_of _ copyAudioSelection_id),
    codings_copy_id, noteRefs_copy_id, varVals_copy_id]

theorem copyVideoSource_id (p : VideoSourceType) : copyVideoSource p = p := by
  unfold copyVideoSource
  rw [omap_id_of _ (map_id_of _ copyTranscript_id),
    omap_id_of _ (map_id_of _ copyVideoSelection_id),
    codings_copy_id, noteRefs_copy_id, varVals_copy_id]

/-- Size-bounded copy identity for the recursive code copy. -/
theorem copyCodeList_id_aux (n : Nat) :
    ∀ l : List CodeType, sizeOf l ≤ n → copyCodeList l = l := by
  induction n with
  | zero =>
    intro l h
    exfalso
    cases l <;> simp at h
  | succ n ih =>
    intro l h
    cases l with
    | nil => rw [copyCodeList.eq_def]
    | cons c rest =>
      have hrest : sizeOf rest ≤ n := by
        simp at h
        omega
      rw [copyCodeList.eq_def]
      simp only []
      rw [ih rest hrest]
      cases c with
      | mk d nr cc g nm ic col =>
        have hcc : ∀ l2, cc = some l2 → sizeOf l2 ≤ n := by
          intro l2 hl
          subst hl
          simp at h
          omega
        rw [copyCode.eq_def]
        simp only [noteRefs_copy_id]
        cases cc with
        | none => rfl
        | some l2 => simp only [ih l2 (hcc l2 rfl)]

theorem copyCodeList_id (l : List CodeType) : copyCodeList l = l :=
  copyCodeList_id_aux (sizeOf l) l (Nat.le_refl _)

theorem copyCase_id (c : CaseType) : copyCase c = c := by
  unfold copyCase
  rw [varVals_copy_id,
    omap_id_of (List.map (fun r : CodeRefType => ({ targetGUID := r.targetGUID } : CodeRefType)))
      (map_id_of _ fun r => rfl),
    omap_id_of (List.map (fun r : SourceRefType =>
        ({ targetGUID := r.targetGUID } : SourceRefType)))
      (map_id_of _ fun r => rfl),
    omap_id_of (List.map (fun r : SelectionRefType =>
        ({ targetGUID := r.targetGUID } : SelectionRefType)))
      (map_id_of _ fun r => rfl)]

theorem copySet_id (s : SetType) : copySet s = s := by
  unfold copySet
  rw [noteRefs_copy_id,
    omap_id_of (List.map (fun r : CodeRefType => ({ targetGUID := r.targetGUID } : CodeRefType)))
      (map_id_of _ fun r => rfl),
    omap_id_of (List.map (fun r : SourceRefType =>
        ({ targetGUID := r.targetGUID } : SourceRefType)))
      (map_id_of _ fun r => rfl)]

theorem copyGraph_id (g : GraphType) : copyGraph g = g := by
  unfold copyGraph
  rw [omap_id_of (List.map fun v : VertexType => { v with guid := v.guid })
      (map_id_of _ fun v => rfl),
    omap_id_of (List.map fun e : EdgeType => { e with guid := e.guid })
      (map_id_of _ fun e => rfl)]

theorem copyLink_id (l : LinkType) : copyLink l = l := by
  unfold copyLink
  rw [noteRefs_copy_id]

theorem usersCopy_id (u : UsersType) :
    ({ User := u.User.map (fun x => { x with guid := x.guid }) } : UsersType) = u := by
  rw [map_id_of (fun x : UserType => { x with guid := x.guid }) (fun x => rfl)]

theorem codebookCopy_id (cb : CodeBookType) :
    ({ Codes := { Code := copyCodeList cb.Codes.Code } } : CodeBookType) = cb := by
  rw [copyCodeList_id]

theorem variablesCopy_id (v : VariablesType) :
    ({ Variable := v.Variable.map (fun x => { x with guid := x.guid }) } : VariablesType) = v := by
  rw [map_id_of (fun x : VariableType => { x with guid := x.guid }) (fun x => rfl)]

theorem casesCopy_id (c : CasesType) :
    ({ Case := c.Case.map copyCase } : CasesType) = c := by
  rw [map_id_of _ copyCase_id]

theorem sourcesCopy_id (s : SourcesType) :
    ({ TextSource := s.TextSource.map (List.map copyTextSource)
       PictureSource := s.PictureSource.map (List.map copyPictureSource)
       PDFSource := s.PDFSource.map (List.map copyPDFSource)
       AudioSource := s.AudioSource.map (List.map copyAudioSource)
       VideoSource := s.VideoSource.map (List.map copyVideoSource) } : SourcesType) = s := by
  rw [omap_id_of _ (map_id_of _ copyTextSource_id),
    omap_id_of _ (map_id_of _ copyPictureSource_id),
    omap_id_of _ (map_id_of _ copyPDFSource_id),
    omap_id_of _ (map_id_of _ copyAudioSource_id),
    omap_id_of _ (map_id_of _ copyVideoSource_id)]

theorem notesCopy_id (n : NotesType) :
    ({ Note := n.Note.map copyTextSource } : NotesType) = n := by
  rw [map_id_of _ copyTextSource_id]

theorem linksCopy_id (l : LinksType) :
    ({ Link := l.Link.map copyLink } : LinksType) = l := by
  rw [map_id_of _ copyLink_id]

theorem setsCopy_id (s : SetsType) :
    ({ Set := s.Set.map copySet } : SetsType) = s := by
  rw [map_id_of _ copySet_id]

theorem graphsCopy_id (g : GraphsType) :
    ({ Graph := g.Graph.map copyGraph } : GraphsType) = g := by
  rw [map_id_of _ copyGraph_id]

/-- The modelled JSON deep copy is the identity. -/
theorem jsonDeepCopy_id (p : Project) : jsonDeepCopy p = p := by
  unfold jsonDeepCopy
  rw [omap_id_of _ usersCopy_id, omap_id_of _ codebookCopy_id, omap_id_of _ variablesCopy_id,
    omap_id_of _ casesCopy_id, omap_id_of _ sourcesCopy_id, omap_id_of _ notesCopy_id,
    omap_id_of _ linksCopy_id, omap_id_of _ setsCopy_id, omap_id_of _ graphsCopy_id,
    noteRefs_copy_id]

/-- C3: the caller's project binding is untouched by an export, whether it
succeeds or fails: exportQDPX operates on jsonDeepCopy project (the backed
JSON round trip), never writing through the caller's reference, and the
modelled deep copy itself is the identity on the value. -/
theorem c3_export_frame (fs : FS) (gen : Nat → String) (p : Project) (outputPath : String)
    (options : ExportOptionsM) :
    (exportQDPXRun fs gen p outputPath options).callerProject = p ∧
    jsonDeepCopy p = p :=
  ⟨rfl, jsonDeepCopy_id p⟩

end RefiQda
